import Mathlib

/-! # Texture export pipeline (`TextureSaver.cpp`)

A shallow embedding of `SaveTexture` from
`src/atmosphere/atmospheregen/TextureSaver.cpp`.

* C `int` values are integers reduced to 32-bit two's complement after every
  arithmetic operation (`wrapInt`); `uint32` values are naturals below `2^32`
  (`toUInt32`); `tsize_t` values are 64-bit and are left unreduced, since a
  product or sum of a few 32-bit quantities never leaves that range.
* Buffers are lists of bytes.  A copy whose source or destination range leaves
  its buffer is undefined behaviour and is modelled by `none`.
* `new byte[n]` with a negative `n` throws `std::bad_alloc` (or the class
  `std::bad_array_new_length` derived from it); `SaveTexture` catches nothing,
  so the exception reaches the caller (`Outcome.thrown`).  Memory for a size
  that is not negative is taken to be available.
* The graphics library and the raster library are external: their observable
  calls are recorded as a trace of `Event`s, and the answers they give (texture
  contents, whether the file opens, whether a scanline write succeeds, what a
  fresh allocation happens to contain) are supplied by an `Env`.
* The release of the buffers at the end of the function (lines 173-175 and
  200-201) has no observable effect and is not modelled.
* The constant `halfPrecision` of line 26 is lifted to an argument of
  `SaveTextureAt`; `SaveTexture` is `SaveTextureAt` at the value of the source.

The definitions come first; the lemmas follow the phases of the function
(volume transform, encoder, cube map path); the statements about the
specification are in the last section.  Sizes in the statements are naturals
cast to `int`, and the statements about buffer contents assume that the byte
count of the buffer fits an `int`, which is when the buffer exists.
-/

namespace TextureSaver

/-! ## Machine integers -/

/-- One byte of a pixel buffer (`byte` in the source). -/
abbrev byte := Fin 256

/-- Reduction of an integer to the range of a 32-bit two's complement `int`. -/
def wrapInt (x : Int) : Int := (x + 2147483648) % 4294967296 - 2147483648

/-- Conversion of an `int` to `uint32`. -/
def toUInt32 (x : Int) : Nat := (x % 4294967296).toNat

/-- Multiplication of two `int`s. -/
def imul (a b : Int) : Int := wrapInt (a * b)

/-- Addition of two `int`s. -/
def iadd (a b : Int) : Int := wrapInt (a + b)

/-! ## Constants of the external headers -/

def GL_TEXTURE_2D : Int := 0x0DE1
def GL_TEXTURE_3D : Int := 0x806F
def GL_TEXTURE_CUBE_MAP : Int := 0x8513
def GL_TEXTURE_BINDING_CUBE_MAP : Int := 0x8514
def GL_TEXTURE_CUBE_MAP_POSITIVE_X : Int := 0x8515
def GL_TEXTURE_CUBE_MAP_NEGATIVE_X : Int := 0x8516
def GL_TEXTURE_CUBE_MAP_POSITIVE_Y : Int := 0x8517
def GL_TEXTURE_CUBE_MAP_NEGATIVE_Y : Int := 0x8518
def GL_TEXTURE_CUBE_MAP_POSITIVE_Z : Int := 0x8519
def GL_TEXTURE_CUBE_MAP_NEGATIVE_Z : Int := 0x851A
def GL_RGB : Int := 0x1907
def GL_RGBA : Int := 0x1908
def GL_FLOAT : Int := 0x1406
def GL_HALF_FLOAT : Int := 0x140B

def TIFFTAG_IMAGEWIDTH : Nat := 256
def TIFFTAG_IMAGELENGTH : Nat := 257
def TIFFTAG_BITSPERSAMPLE : Nat := 258
def TIFFTAG_COMPRESSION : Nat := 259
def TIFFTAG_PHOTOMETRIC : Nat := 262
def TIFFTAG_ORIENTATION : Nat := 274
def TIFFTAG_SAMPLESPERPIXEL : Nat := 277
def TIFFTAG_ROWSPERSTRIP : Nat := 278
def TIFFTAG_PLANARCONFIG : Nat := 284
def TIFFTAG_SAMPLEFORMAT : Nat := 339
def ORIENTATION_TOPLEFT : Int := 1
def PLANARCONFIG_CONTIG : Int := 1
def PHOTOMETRIC_RGB : Int := 2
def SAMPLEFORMAT_IEEEFP : Int := 3
def COMPRESSION_LZW : Int := 5

/-- The output formats of `namespace SaveFormat`. -/
inductive SaveFormat where
  | TIF
  | EXR
  deriving DecidableEq, Repr

/-! ## Observable behaviour -/

/-- A call into the graphics library or the raster library. -/
inductive Event where
  /-- Call `glBindTexture(target, texture)`. -/
  | glBindTexture (target : Int) (texture : Nat)
  /-- Call `glGetTexImage(target, 0, format, type, pixelbuffer + offset)`. -/
  | glGetTexImage (target : Int) (format : Int) (type : Int) (offset : Int)
  /-- Call `TIFFOpen(path, "w")`; `ok` tells whether a handle came back. -/
  | TIFFOpen (path : String) (ok : Bool)
  /-- Call `TIFFSetField(out, tag, value)`. -/
  | TIFFSetField (tag : Nat) (value : Int)
  /-- Call `TIFFWriteScanline(out, buf, row, 0)`; `data` is the scanline the
  library takes from `buf`, `ok` tells whether the call returned `>= 0`. -/
  | TIFFWriteScanline (data : List byte) (row : Nat) (ok : Bool)
  /-- Call `TIFFClose(out)`. -/
  | TIFFClose
  deriving DecidableEq, Repr

/-- Modelled from the spec: the error kinds of section 7 of the specification.
The source declares no error type; `SaveTexture` returns `void` and contains
no `throw`. -/
inductive ExportError where
  | TextureReadbackError
  | UnsupportedFormatError
  | FileOpenError
  | EncodeError (row : Nat)
  deriving DecidableEq, Repr

/-- What a caller of `SaveTexture` observes. -/
inductive Outcome where
  /-- The call returned normally after the calls of `trace`. -/
  | returned (trace : List Event)
  /-- The call reported error `e` to its caller after the calls of `trace`. -/
  | failed (e : ExportError) (trace : List Event)
  /-- The call ran into undefined behaviour (a copy outside a buffer, use of a
  null file handle or of a null row buffer) after the calls of `trace`. -/
  | undefined (trace : List Event)
  /-- The call was left by the exception `std::bad_alloc` that
  `new byte[bufferSize]` (lines 40-41) throws for a negative `bufferSize`,
  after the calls of `trace`. -/
  | thrown (trace : List Event)
  deriving DecidableEq, Repr

/-- The answers of the outside world during one call of `SaveTexture`. -/
structure Env where
  /-- The bytes `glGetTexImage` delivers for a target. -/
  texImage : Int → List byte
  /-- Whether `TIFFOpen` returns a handle. -/
  openOk : Bool
  /-- Whether `TIFFWriteScanline` succeeds for a row. -/
  writeOk : Nat → Bool
  /-- What the memory of `pixelbuffer` holds when allocated. -/
  freshPixel : Nat → byte
  /-- What the memory of `tempbuffer` holds when allocated. -/
  freshTemp : Nat → byte
  /-- What the memory of `buf` holds when allocated. -/
  freshBuf : Nat → byte
  /-- What the memory of `zerobuf` holds when allocated. -/
  freshZero : Nat → byte

/-! ## Memory -/

/-- A fresh allocation of `n` bytes whose contents are whatever `fresh` says;
there is none for a negative `n`. -/
def alloc (fresh : Nat → byte) (n : Int) : Option (List byte) :=
  if 0 ≤ n then some ((List.range n.toNat).map fresh) else none

/-- The buffer `dst` with its bytes `[d, d + n)` replaced by the bytes
`[s, s + n)` of `src`. -/
def blit (dst : List byte) (d : Nat) (src : List byte) (s n : Nat) : List byte :=
  dst.take d ++ (src.drop s).take n ++ dst.drop (d + n)

/-- The call `memcpy(dst + d, src + s, n)`: the buffer `dst` afterwards, or
`none` when one of the two ranges is not inside its buffer. -/
def memcpy (dst : List byte) (d : Int) (src : List byte) (s : Int) (n : Int) :
    Option (List byte) :=
  if 0 ≤ d ∧ 0 ≤ s ∧ 0 ≤ n ∧ d + n ≤ dst.length ∧ s + n ≤ src.length then
    some (blit dst d.toNat src s.toNat n.toNat)
  else none

/-- The bytes `[off, off + n)` of a buffer. -/
def slice (buf : List byte) (off n : Nat) : List byte := (buf.drop off).take n

/-- A counted loop `for (int i = 0; i < n; i++) body`. -/
def forLoop {σ : Type} (n : Nat) (body : Nat → σ → Option σ) (s : σ) : Option σ :=
  match n with
  | 0 => some s
  | k + 1 => (forLoop k body s).bind (body k)

/-! ## Sizes (lines 26-38, 79-87, 102, 117) -/

/-- The hard coded switch between half and full precision floats. -/
def halfPrecision : Bool := false

def sampleperpixel (alpha : Bool) : Int := if alpha then 4 else 3

def channelSize (hp : Bool) : Int := if hp then 2 else 4

def pixelSize (hp alpha : Bool) : Int := imul (channelSize hp) (sampleperpixel alpha)

/-- The value of `depth` after lines 28-29. -/
def effectiveDepth (textureType depth : Int) : Int :=
  if textureType ≠ GL_TEXTURE_3D then 1 else depth

def panelSize (hp alpha : Bool) (width height : Int) : Int :=
  imul (imul height width) (pixelSize hp alpha)

def bufferSize (hp alpha : Bool) (textureType width height depth : Int) : Int :=
  let bufferSize := imul (panelSize hp alpha width height) (effectiveDepth textureType depth)
  if textureType = GL_TEXTURE_CUBE_MAP then imul bufferSize 6 else bufferSize

def outputWidth (textureType width depth : Int) : Int :=
  let outputWidth := imul width (effectiveDepth textureType depth)
  if textureType = GL_TEXTURE_CUBE_MAP then imul outputWidth 3 else outputWidth

def outputHeight (textureType height : Int) : Int :=
  if textureType = GL_TEXTURE_CUBE_MAP then imul height 4 else height

def linebytes (hp alpha : Bool) (textureType width depth : Int) : Int :=
  imul (pixelSize hp alpha) (outputWidth textureType width depth)

def thirdBytes (hp alpha : Bool) (textureType width depth : Int) : Int :=
  (linebytes hp alpha textureType width depth).tdiv 3

/-! ## Texture readback (lines 43-56) -/

def glFormat (alpha : Bool) : Int := if alpha then GL_RGBA else GL_RGB

def glPixelDepth (hp : Bool) : Int := if hp then GL_HALF_FLOAT else GL_FLOAT

/-- The effect on `pixelbuffer` of `glGetTexImage(target, .., pixelbuffer + offset)`:
the library stores the whole image of `target` from `offset` on. -/
def glGetTexImage (env : Env) (target : Int) (pixelbuffer : List byte) (offset : Int) :
    Option (List byte) :=
  memcpy pixelbuffer offset (env.texImage target) 0 (env.texImage target).length

/-- The contents of `pixelbuffer` after lines 48-56. -/
def readback (env : Env) (textureType panelSize : Int) (pixelbuffer : List byte) :
    Option (List byte) :=
  if textureType = GL_TEXTURE_CUBE_MAP then
    forLoop 6 (fun i pixelbuffer =>
      glGetTexImage env (GL_TEXTURE_BINDING_CUBE_MAP + 1 + (i : Int)) pixelbuffer
        (imul panelSize (i : Int))) pixelbuffer
  else
    glGetTexImage env textureType pixelbuffer 0

/-- The `glGetTexImage` calls of lines 48-56, in the order they are issued. -/
def readbackEvents (hp alpha : Bool) (textureType panelSize : Int) : List Event :=
  if textureType = GL_TEXTURE_CUBE_MAP then
    (List.range 6).map fun i =>
      Event.glGetTexImage (GL_TEXTURE_BINDING_CUBE_MAP + 1 + (i : Int)) (glFormat alpha)
        (glPixelDepth hp) (imul panelSize (i : Int))
  else
    [Event.glGetTexImage textureType (glFormat alpha) (glPixelDepth hp) 0]

/-! ## Volume transform (lines 58-77) -/

/-- The contents of `pixelbuffer` after lines 59-77 for a 3D texture. -/
def reorderVolume (width height depth pixelSize panelSize bufferSize : Int)
    (pixelbuffer tempbuffer : List byte) : Option (List byte) :=
  (memcpy tempbuffer 0 pixelbuffer 0 bufferSize).bind fun tempbuffer =>
    let srcLineSize := imul width pixelSize
    let destLineSize := imul (imul width depth) pixelSize
    let panelWidth := imul width pixelSize
    forLoop depth.toNat (fun z pixelbuffer =>
      forLoop height.toNat (fun y pixelbuffer =>
        let srcLineStart := iadd (imul (z : Int) panelSize) (imul (y : Int) srcLineSize)
        let destLineStart := iadd (imul (z : Int) panelWidth) (imul (y : Int) destLineSize)
        memcpy pixelbuffer destLineStart tempbuffer srcLineStart srcLineSize) pixelbuffer)
      pixelbuffer

/-- The value of `srcLineSize` (line 63). -/
def srcLineSize (width pixelSize : Int) : Int := imul width pixelSize

/-- The value of `destLineSize` (line 64). -/
def destLineSize (width depth pixelSize : Int) : Int := imul (imul width depth) pixelSize

/-- The value of `panelWidth` (line 65). -/
def panelWidth (width pixelSize : Int) : Int := imul width pixelSize

/-- The value of `srcLineStart` (line 71) for slice `z` and row `y`. -/
def srcLineStart (width pixelSize panelSize z y : Int) : Int :=
  iadd (imul z panelSize) (imul y (srcLineSize width pixelSize))

/-- The value of `destLineStart` (line 72) for slice `z` and row `y`. -/
def destLineStart (width depth pixelSize z y : Int) : Int :=
  iadd (imul z (panelWidth width pixelSize)) (imul y (destLineSize width depth pixelSize))

/-- The contents of `pixelbuffer` after lines 58-77. -/
def reorder (textureType width height depth pixelSize panelSize bufferSize : Int)
    (pixelbuffer tempbuffer : List byte) : Option (List byte) :=
  if textureType = GL_TEXTURE_3D then
    reorderVolume width height depth pixelSize panelSize bufferSize pixelbuffer tempbuffer
  else
    some pixelbuffer

/-! ## Raster encoder (lines 89-176) -/

/-- The scanline size the raster library derives from the header fields
(`TIFFScanlineSize` of the external library, contiguous planar configuration):
width times samples per pixel times bits per sample, rounded up to bytes. -/
def TIFFScanlineSize (imageWidth samplesPerPixel bitsPerSample : Int) : Nat :=
  (toUInt32 imageWidth * samplesPerPixel.toNat * bitsPerSample.toNat + 7) / 8

/-- The strip height the raster library answers to a request
(`TIFFDefaultStripSize` of the external library). -/
def TIFFDefaultStripSize (scanlineSize : Nat) (request : Int) : Int :=
  if wrapInt request < 1 then
    let scanlineSize := if scanlineSize = 0 then 1 else scanlineSize
    let rows := 8192 / scanlineSize
    if rows = 0 then 1 else if rows > 0xFFFFFFFF then 0xFFFFFFFF else rows
  else request

/-- The header fields set by lines 92-100. -/
def headerEvents (hp alpha : Bool) (outputWidth outputHeight : Int) : List Event :=
  [ Event.TIFFSetField TIFFTAG_IMAGEWIDTH outputWidth,
    Event.TIFFSetField TIFFTAG_IMAGELENGTH outputHeight,
    Event.TIFFSetField TIFFTAG_SAMPLESPERPIXEL (sampleperpixel alpha),
    Event.TIFFSetField TIFFTAG_BITSPERSAMPLE (imul (channelSize hp) 8),
    Event.TIFFSetField TIFFTAG_ORIENTATION ORIENTATION_TOPLEFT,
    Event.TIFFSetField TIFFTAG_PLANARCONFIG PLANARCONFIG_CONTIG,
    Event.TIFFSetField TIFFTAG_PHOTOMETRIC PHOTOMETRIC_RGB,
    Event.TIFFSetField TIFFTAG_SAMPLEFORMAT SAMPLEFORMAT_IEEEFP,
    Event.TIFFSetField TIFFTAG_COMPRESSION COMPRESSION_LZW ]

/-- The scanline size of the file after lines 92-100. -/
def scanlineSize (hp alpha : Bool) (outputWidth : Int) : Nat :=
  TIFFScanlineSize outputWidth (sampleperpixel alpha) (imul (channelSize hp) 8)

/-- The row buffer `buf` allocated by lines 103-109. -/
def rowBuffer (env : Env) (scanlineSize : Nat) (linebytes : Int) : Option (List byte) :=
  if (scanlineSize : Int) < linebytes then alloc env.freshBuf linebytes
  else alloc env.freshBuf (scanlineSize : Int)

/-- The byte offset into `pixelbuffer` of row `faceRow` of the face `face`
(the index expressions of lines 137-153). -/
def faceLine (face panelSize faceRow thirdBytes : Int) : Int :=
  imul (face - GL_TEXTURE_BINDING_CUBE_MAP - 1) panelSize + faceRow * thirdBytes

/-- The contents of `buf` after the `switch` of lines 130-156 for one row. -/
def cubeRow (pixelbuffer zerobuf : List byte) (height panelSize thirdBytes : Int)
    (row : Nat) (buf : List byte) : Option (List byte) :=
  if toUInt32 height = 0 then none
  else
    let faceRow : Int := wrapInt ((row % toUInt32 height : Nat) : Int)
    let dest1 : Int := 0
    let dest2 : Int := thirdBytes
    let dest3 : Int := thirdBytes * 2
    match row / toUInt32 height with
    | 0 =>
      (memcpy buf dest1 zerobuf 0 thirdBytes).bind fun buf =>
      (memcpy buf dest2 pixelbuffer
        (faceLine GL_TEXTURE_CUBE_MAP_POSITIVE_Y panelSize faceRow thirdBytes) thirdBytes).bind fun buf =>
      memcpy buf dest3 zerobuf 0 thirdBytes
    | 1 =>
      (memcpy buf dest1 pixelbuffer
        (faceLine GL_TEXTURE_CUBE_MAP_NEGATIVE_X panelSize faceRow thirdBytes) thirdBytes).bind fun buf =>
      (memcpy buf dest2 pixelbuffer
        (faceLine GL_TEXTURE_CUBE_MAP_POSITIVE_Z panelSize faceRow thirdBytes) thirdBytes).bind fun buf =>
      memcpy buf dest3 pixelbuffer
        (faceLine GL_TEXTURE_CUBE_MAP_POSITIVE_X panelSize faceRow thirdBytes) thirdBytes
    | 2 =>
      (memcpy buf dest1 zerobuf 0 thirdBytes).bind fun buf =>
      (memcpy buf dest2 pixelbuffer
        (faceLine GL_TEXTURE_CUBE_MAP_NEGATIVE_Y panelSize faceRow thirdBytes) thirdBytes).bind fun buf =>
      memcpy buf dest3 zerobuf 0 thirdBytes
    | _ =>
      (memcpy buf dest1 zerobuf 0 thirdBytes).bind fun buf =>
      (memcpy buf dest2 pixelbuffer
        (faceLine GL_TEXTURE_CUBE_MAP_NEGATIVE_Z panelSize faceRow thirdBytes) thirdBytes).bind fun buf =>
      memcpy buf dest3 zerobuf 0 thirdBytes

/-- The contents of `buf` after line 167 for one row. -/
def standardRow (pixelbuffer : List byte) (linebytes : Int) (row : Nat) (buf : List byte) :
    Option (List byte) :=
  memcpy buf 0 pixelbuffer ((row : Int) * linebytes) linebytes

/-- The scanline loop `for (uint32 row = ..; row < ..; row++)` with its
`break` on a failed write: `fuel` rows remain, `rowStep` fills `buf`. -/
def scanlineLoop (writeOk : Nat → Bool) (scanlineSize : Nat)
    (rowStep : Nat → List byte → Option (List byte)) :
    Nat → Nat → List byte → Option (List Event)
  | 0, _, _ => some []
  | fuel + 1, row, buf =>
    match rowStep row buf with
    | none => none
    | some buf =>
      if writeOk row then
        (scanlineLoop writeOk scanlineSize rowStep fuel (row + 1) buf).map
          (fun rest => Event.TIFFWriteScanline (buf.take scanlineSize) row true :: rest)
      else
        some [Event.TIFFWriteScanline (buf.take scanlineSize) row false]

/-- The `TIFFWriteScanline` calls of lines 115-171. -/
def writeScanlines (hp alpha : Bool) (env : Env) (textureType width height depth : Int)
    (pixelbuffer buf : List byte) : Option (List Event) :=
  if textureType = GL_TEXTURE_CUBE_MAP then
    (alloc env.freshZero (thirdBytes hp alpha textureType width depth)).bind fun zerobuf =>
      scanlineLoop env.writeOk (scanlineSize hp alpha (outputWidth textureType width depth))
        (cubeRow pixelbuffer zerobuf height (panelSize hp alpha width height)
          (thirdBytes hp alpha textureType width depth))
        (toUInt32 (outputHeight textureType height)) 0 buf
  else
    scanlineLoop env.writeOk (scanlineSize hp alpha (outputWidth textureType width depth))
      (standardRow pixelbuffer (linebytes hp alpha textureType width depth))
      (toUInt32 (outputHeight textureType height)) 0 buf

/-! ## The export operation (lines 24-202) -/

/-- The contents of `pixelbuffer` after the readback (line 56). -/
def readbackBuffer (hp alpha : Bool) (env : Env) (textureType width height depth : Int) :
    Option (List byte) :=
  (alloc env.freshPixel (bufferSize hp alpha textureType width height depth)).bind fun pixelbuffer =>
    readback env textureType (panelSize hp alpha width height) pixelbuffer

/-- The contents of `pixelbuffer` after the reordering (line 77). -/
def reorderedBuffer (hp alpha : Bool) (env : Env) (textureType width height depth : Int) :
    Option (List byte) :=
  (readbackBuffer hp alpha env textureType width height depth).bind fun pixelbuffer =>
  (alloc env.freshTemp (bufferSize hp alpha textureType width height depth)).bind fun tempbuffer =>
    reorder textureType width height (effectiveDepth textureType depth) (pixelSize hp alpha)
      (panelSize hp alpha width height) (bufferSize hp alpha textureType width height depth)
      pixelbuffer tempbuffer

/-- The calls issued up to line 56. -/
def readbackTrace (hp alpha : Bool) (texture : Nat) (textureType width height : Int) :
    List Event :=
  Event.glBindTexture textureType texture ::
    readbackEvents hp alpha textureType (panelSize hp alpha width height)

/-- The branch `format == SaveFormat::TIF` (lines 89-176): `trace` holds the
calls issued before it, `pixelbuffer` is the reordered buffer. -/
def encodeTIF (hp alpha : Bool) (env : Env) (path : String) (textureType width height depth : Int)
    (trace : List Event) (pixelbuffer : List byte) : Outcome :=
  if env.openOk then
    let outputWidth := outputWidth textureType width depth
    let outputHeight := outputHeight textureType height
    let header := Event.TIFFOpen path true :: headerEvents hp alpha outputWidth outputHeight
    let scanlineSize := scanlineSize hp alpha outputWidth
    match rowBuffer env scanlineSize (linebytes hp alpha textureType width depth) with
    | none => Outcome.undefined (trace ++ header)
    | some buf =>
      let strip := Event.TIFFSetField TIFFTAG_ROWSPERSTRIP
        (TIFFDefaultStripSize scanlineSize (imul width (sampleperpixel alpha)))
      match writeScanlines hp alpha env textureType width height depth pixelbuffer buf with
      | none => Outcome.undefined (trace ++ header ++ [strip])
      | some writes =>
        Outcome.returned (trace ++ header ++ [strip] ++ writes ++ [Event.TIFFClose])
  else
    Outcome.undefined (trace ++ [Event.TIFFOpen path false])

/-- The function `SaveTexture`, with the hard coded precision switch as an
argument.  The two `new byte[bufferSize]` of lines 40-41 throw for a negative
`bufferSize` and the exception leaves the function, which has no handler;
memory for a size that is not negative is taken to be available. -/
def SaveTextureAt (hp : Bool) (env : Env) (path : String) (texture : Nat) (textureType : Int)
    (alpha : Bool) (width height depth : Int) (format : SaveFormat) : Outcome :=
  let bufferSize := bufferSize hp alpha textureType width height depth
  match alloc env.freshPixel bufferSize, alloc env.freshTemp bufferSize with
  | some _, some _ =>
    match readbackBuffer hp alpha env textureType width height depth with
    | none => Outcome.undefined [Event.glBindTexture textureType texture]
    | some _ =>
      let trace := readbackTrace hp alpha texture textureType width height
      match reorderedBuffer hp alpha env textureType width height depth with
      | none => Outcome.undefined trace
      | some pixelbuffer =>
        match format with
        | SaveFormat.TIF =>
          encodeTIF hp alpha env path textureType width height depth trace pixelbuffer
        | SaveFormat.EXR => Outcome.returned trace
  | _, _ => Outcome.thrown []

/-- The function `SaveTexture` of the source. -/
def SaveTexture (env : Env) (path : String) (texture : Nat) (textureType : Int)
    (alpha : Bool) (width height depth : Int) (format : SaveFormat) : Outcome :=
  SaveTextureAt halfPrecision env path texture textureType alpha width height depth format

/-- The function `SaveTextureToTiff` of the source. -/
def SaveTextureToTiff (env : Env) (path : String) (texture : Nat) (textureType : Int)
    (alpha : Bool) (width height depth : Int) : Outcome :=
  SaveTexture env path texture textureType alpha width height depth SaveFormat.TIF

/-! ## Vocabulary of the statements -/

/-- The value of `pixelSize` as a number of bytes. -/
def pixelBytes (hp alpha : Bool) : Nat := (pixelSize hp alpha).toNat

/-- The trace of an outcome. -/
def Outcome.trace : Outcome → List Event
  | Outcome.returned t => t
  | Outcome.failed _ t => t
  | Outcome.undefined t => t
  | Outcome.thrown t => t

/-- The row and the data of a scanline write, for any other call nothing. -/
def Event.scanline : Event → Option (Nat × List byte)
  | Event.TIFFWriteScanline data row _ => some (row, data)
  | _ => none

/-- The header field a call sets, for any other call nothing. -/
def Event.field : Event → Option (Nat × Int)
  | Event.TIFFSetField tag value => some (tag, value)
  | _ => none

/-- The target and the byte offset into `pixelbuffer` of a texture readback,
for any other call nothing. -/
def Event.readback : Event → Option (Int × Int)
  | Event.glGetTexImage target _ _ offset => some (target, offset)
  | _ => none

/-- The texture readbacks of a trace, in the order issued: target and offset. -/
def readbacks (t : List Event) : List (Int × Int) := t.filterMap Event.readback

/-- The error kind of the specification an outcome reports to the caller, if
any.  The exception of `Outcome.thrown` is none of them. -/
def Outcome.reported : Outcome → Option ExportError
  | Outcome.failed e _ => some e
  | _ => none

/-- The row and the result of a scanline write, for any other call nothing. -/
def Event.attempt : Event → Option (Nat × Bool)
  | Event.TIFFWriteScanline _ row ok => some (row, ok)
  | _ => none

/-- The scanline writes a trace attempts, in the order issued: row and whether
the write succeeded. -/
def writeAttempts (t : List Event) : List (Nat × Bool) := t.filterMap Event.attempt

/-- The `n` consecutive scanline slots of `L` bytes of a buffer. -/
def scanlineSlots (buf : List byte) (n L : Nat) : List (List byte) :=
  (List.range n).map (fun k => slice buf (k * L) L)

/-- The layout of the `switch` of lines 133-156: the face copied to third
`col` (0, 1 or 2) of the rows of band `band`, and nothing where `zerobuf` is
copied.  Band 3 is also the `default` case. -/
def cellFace (band col : Nat) : Option Int :=
  match band, col with
  | 0, 1 => some GL_TEXTURE_CUBE_MAP_POSITIVE_Y
  | 0, _ => none
  | 1, 0 => some GL_TEXTURE_CUBE_MAP_NEGATIVE_X
  | 1, 1 => some GL_TEXTURE_CUBE_MAP_POSITIVE_Z
  | 1, 2 => some GL_TEXTURE_CUBE_MAP_POSITIVE_X
  | 1, _ => none
  | 2, 1 => some GL_TEXTURE_CUBE_MAP_NEGATIVE_Y
  | 2, _ => none
  | _, 1 => some GL_TEXTURE_CUBE_MAP_NEGATIVE_Z
  | _, _ => none

/-- The cells of the raster of a cube map: 4 row bands of 3 column thirds. -/
def crossCells : List (Nat × Nat) := List.product (List.range 4) (List.range 3)

/-- The effective depth of a texture with a natural `depth` argument: the
depth of a 3D texture, 1 for any other texture. -/
def volumeDepth (textureType : Int) (depth : Nat) : Nat :=
  if textureType = GL_TEXTURE_3D then depth else 1

/-- The number of faces the specification attributes to a texture type. -/
def faceCount (textureType : Int) : Int :=
  if textureType = GL_TEXTURE_CUBE_MAP then 6 else 1

/-- The buffer size in the words of the specification: the product
`width * height * depth * channelCount * channelSize * faceCount` of integers,
with the effective depth. -/
def bufferSizeSpec (hp alpha : Bool) (textureType width height depth : Int) : Int :=
  width * height * effectiveDepth textureType depth * sampleperpixel alpha * channelSize hp *
    faceCount textureType

/-- The scanline writes of a trace, in the order issued: row and data. -/
def scanlines (t : List Event) : List (Nat × List byte) := t.filterMap Event.scanline

/-- The last value a trace sets for a header field. -/
def headerField (t : List Event) (tag : Nat) : Option Int :=
  ((t.filterMap Event.field).reverse.find? (fun p => p.1 = tag)).map (fun p => p.2)

/-- The writes of a scanline loop of `fuel` rows from `row` on whose row buffer
holds `line r` when row `r` is written: the loop stops after the first write
that fails. -/
def scanlineWrites (writeOk : Nat → Bool) (line : Nat → List byte) : Nat → Nat → List Event
  | 0, _ => []
  | fuel + 1, row =>
    if writeOk row then
      Event.TIFFWriteScanline (line row) row true :: scanlineWrites writeOk line fuel (row + 1)
    else
      [Event.TIFFWriteScanline (line row) row false]

/-- The row buffer after the `switch` of lines 133-156 for row `row`, on
natural sizes: `h` rows per face, `panel` bytes per face, `T` bytes per third.
The faces are numbered in readback order. -/
def crossLine (pixelbuffer zerobuf : List byte) (h panel T : Nat) (row : Nat) : List byte :=
  let face (i : Nat) : List byte := slice pixelbuffer (i * panel + (row % h) * T) T
  match row / h with
  | 0 => zerobuf ++ face 2 ++ zerobuf
  | 1 => face 1 ++ face 4 ++ face 0
  | 2 => zerobuf ++ face 3 ++ zerobuf
  | _ => zerobuf ++ face 5 ++ zerobuf

/-- The six cube map faces in the canonical order `+X, -X, +Y, -Y, +Z, -Z`. -/
def cubeFaces : List Int :=
  [GL_TEXTURE_CUBE_MAP_POSITIVE_X, GL_TEXTURE_CUBE_MAP_NEGATIVE_X,
   GL_TEXTURE_CUBE_MAP_POSITIVE_Y, GL_TEXTURE_CUBE_MAP_NEGATIVE_Y,
   GL_TEXTURE_CUBE_MAP_POSITIVE_Z, GL_TEXTURE_CUBE_MAP_NEGATIVE_Z]

/-! ## Sample inputs -/

/-- An environment whose textures all hold the image `image`, whose file opens,
whose writes succeed and whose fresh memory holds the byte `garbage`. -/
def sampleEnv (image : List byte) (garbage : byte) : Env where
  texImage := fun _ => image
  openOk := true
  writeOk := fun _ => true
  freshPixel := fun _ => garbage
  freshTemp := fun _ => garbage
  freshBuf := fun _ => garbage
  freshZero := fun _ => garbage

/-- An environment whose texture `f` holds `n` bytes of the value
`f - GL_TEXTURE_BINDING_CUBE_MAP` (1 for `+X`, .., 6 for `-Z`), whose file
opens, whose writes succeed and whose fresh memory holds the byte `garbage`. -/
def faceColorEnv (n : Nat) (garbage : byte) : Env where
  texImage := fun f => List.replicate n (Fin.ofNat (f - GL_TEXTURE_BINDING_CUBE_MAP).toNat)
  openOk := true
  writeOk := fun _ => true
  freshPixel := fun _ => garbage
  freshTemp := fun _ => garbage
  freshBuf := fun _ => garbage
  freshZero := fun _ => garbage

/-- The environment `sampleEnv image garbage` in which the scanline write of
row `failRow` fails. -/
def failingWriteEnv (image : List byte) (garbage : byte) (failRow : Nat) : Env where
  texImage := fun _ => image
  openOk := true
  writeOk := fun r => r != failRow
  freshPixel := fun _ => garbage
  freshTemp := fun _ => garbage
  freshBuf := fun _ => garbage
  freshZero := fun _ => garbage

/-- An image of `n` bytes whose byte `i` is `i` modulo 256. -/
def rampImage (n : Nat) : List byte := (List.range n).map (fun i => Fin.ofNat i)

/-- One full precision RGB pixel of pure red: the floats `1.0, 0.0, 0.0`. -/
def redPixel : List byte := [0, 0, 128, 63, 0, 0, 0, 0, 0, 0, 0, 0]

/-- One full precision RGB pixel of pure blue: the floats `0.0, 0.0, 1.0`. -/
def bluePixel : List byte := [0, 0, 0, 0, 0, 0, 0, 0, 0, 0, 128, 63]

/-- The 2 x 2 x 2 volume whose slice 0 is red and whose slice 1 is blue. -/
def redBlueVolume : List byte :=
  (List.replicate 4 redPixel).flatten ++ (List.replicate 4 bluePixel).flatten

/-! ## Machine arithmetic and memory lemmas -/

theorem wrapInt_of_range (x : Int) (h0 : -2147483648 ≤ x) (h1 : x < 2147483648) : wrapInt x = x := by
  unfold wrapInt; omega

theorem wrapInt_natCast (n : Nat) (h : n < 2147483648) : wrapInt (n : Int) = (n : Int) := by
  unfold wrapInt; omega

theorem imul_natCast (a b : Nat) (h : a * b < 2147483648) :
    imul (a : Int) (b : Int) = ((a * b : Nat) : Int) := by
  unfold imul
  rw [← Nat.cast_mul]
  exact wrapInt_natCast _ h

theorem iadd_natCast (a b : Nat) (h : a + b < 2147483648) :
    iadd (a : Int) (b : Int) = ((a + b : Nat) : Int) := by
  unfold iadd
  rw [← Nat.cast_add]
  exact wrapInt_natCast _ h

theorem memcpy_natCast (dst src : List byte) (d s n : Nat)
    (hd : d + n ≤ dst.length) (hs : s + n ≤ src.length) :
    memcpy dst (d : Int) src (s : Int) (n : Int) = some (blit dst d src s n) := by
  unfold memcpy
  rw [if_pos]
  · simp
  · omega

theorem length_blit (dst src : List byte) (d s n : Nat)
    (hd : d + n ≤ dst.length) (hs : s + n ≤ src.length) :
    (blit dst d src s n).length = dst.length := by
  unfold blit
  simp only [List.length_append, List.length_take, List.length_drop]
  omega

theorem getElem?_blit (dst src : List byte) (d s n : Nat)
    (hd : d + n ≤ dst.length) (hs : s + n ≤ src.length) (i : Nat) :
    (blit dst d src s n)[i]? = if d ≤ i ∧ i < d + n then src[s + (i - d)]? else dst[i]? := by
  unfold blit
  simp only [List.getElem?_append, List.length_append, List.length_take, List.length_drop,
    List.getElem?_take, List.getElem?_drop]
  have e1 : min d dst.length = d := by omega
  have e2 : min n (src.length - s) = n := by omega
  rw [e1, e2]
  by_cases h1 : i < d
  · have : ¬ (d ≤ i ∧ i < d + n) := by omega
    simp [h1, this]
    intro; omega
  · by_cases h2 : i < d + n
    · have : (d ≤ i ∧ i < d + n) := by omega
      simp [h1, h2, this]
      intro; omega
    · have : ¬ (d ≤ i ∧ i < d + n) := by omega
      simp [h1, h2, this]
      congr 1; omega

theorem getElem?_slice (buf : List byte) (off n i : Nat) :
    (slice buf off n)[i]? = if i < n then buf[off + i]? else none := by
  unfold slice
  simp [List.getElem?_take, List.getElem?_drop]

theorem slice_eq_iff (a b : List byte) (o o' n : Nat) :
    slice a o n = slice b o' n ↔ ∀ j, j < n → a[o + j]? = b[o' + j]? := by
  constructor
  · intro h j hj
    have := congrArg (fun l => l[j]?) h
    simpa [getElem?_slice, hj] using this
  · intro h
    apply List.ext_getElem?
    intro j
    rw [getElem?_slice, getElem?_slice]
    by_cases hj : j < n
    · simp [hj, h j hj]
    · simp [hj]

theorem forLoop_inv {σ : Type} (I : Nat → σ → Prop) (n : Nat) (body : Nat → σ → Option σ) (s : σ)
    (h0 : I 0 s)
    (hstep : ∀ i s, i < n → I i s → ∃ s', body i s = some s' ∧ I (i + 1) s') :
    ∃ s', forLoop n body s = some s' ∧ I n s' := by
  induction n with
  | zero => exact ⟨s, rfl, h0⟩
  | succ k ih =>
    obtain ⟨s1, hs1, hI1⟩ := ih (fun i s hi hI => hstep i s (by omega) hI)
    obtain ⟨s2, hs2, hI2⟩ := hstep k s1 (by omega) hI1
    refine ⟨s2, ?_, hI2⟩
    rw [forLoop, hs1]
    exact hs2

theorem pixelSize_cases (hp alpha : Bool) :
    pixelSize hp alpha = channelSize hp * sampleperpixel alpha := by
  cases hp <;> cases alpha <;> decide

theorem pixelSize_pos (hp alpha : Bool) : 0 < pixelSize hp alpha := by
  cases hp <;> cases alpha <;> decide

theorem pixelSize_toNat (hp alpha : Bool) :
    pixelSize hp alpha = (((pixelSize hp alpha).toNat : Nat) : Int) := by
  have := pixelSize_pos hp alpha
  omega

theorem mem_slot_iff (L k i : Nat) (hL : 0 < L) :
    (k * L ≤ i ∧ i < k * L + L) ↔ i / L = k := by
  constructor
  · rintro ⟨h1, h2⟩
    have a : k ≤ i / L := (Nat.le_div_iff_mul_le hL).2 h1
    have b : i / L < k + 1 := (Nat.div_lt_iff_lt_mul hL).2 (by rw [Nat.add_mul, Nat.one_mul]; exact h2)
    omega
  · rintro rfl
    constructor
    · exact Nat.div_mul_le_self i L
    · have h1 := Nat.div_add_mod i L
      have h2 := Nat.mod_lt i hL
      rw [Nat.mul_comm (i / L) L]
      omega

theorem slot_decomp (d z y q : Nat) (hz : z < d) :
    q = z + y * d ↔ (q % d = z ∧ q / d = y) := by
  constructor
  · rintro rfl
    constructor
    · rw [Nat.add_mul_mod_self_right]; exact Nat.mod_eq_of_lt hz
    · rw [Nat.add_mul_div_right _ _ (by omega), Nat.div_eq_of_lt hz]; omega
  · rintro ⟨h1, h2⟩
    have := Nat.mod_add_div q d
    rw [h1, h2, Nat.mul_comm] at this
    omega

theorem memcpy_zero_natCast (dst src : List byte) (n : Nat)
    (hd : n ≤ dst.length) (hs : n ≤ src.length) :
    memcpy dst 0 src 0 (n : Int) = some (blit dst 0 src 0 n) := by
  have := memcpy_natCast dst src 0 0 n (by omega) (by omega)
  simpa using this

theorem blit_full (dst src : List byte) (h : dst.length = src.length) :
    blit dst 0 src 0 src.length = src := by
  unfold blit
  simp [h]

/-! ## The volume transform -/

theorem volume_src_bound (h L d z y : Nat) (hz : z < d) (hy : y < h) :
    z * (h * L) + y * L + L ≤ h * L * d := by
  have h1 : (y + 1) * L ≤ h * L := Nat.mul_le_mul_right L (by omega)
  have h2 : (z + 1) * (h * L) ≤ d * (h * L) := Nat.mul_le_mul_right (h * L) (by omega)
  rw [Nat.add_mul, Nat.one_mul] at h1 h2
  rw [Nat.mul_comm (h * L) d]
  omega

theorem volume_dst_bound (h L d z y : Nat) (hz : z < d) (hy : y < h) :
    (z + y * d) * L + L ≤ h * L * d := by
  have h1 : (y + 1) * d ≤ h * d := Nat.mul_le_mul_right d (by omega)
  rw [Nat.add_mul, Nat.one_mul] at h1
  have h2 : (z + y * d + 1) * L ≤ (h * d) * L := Nat.mul_le_mul_right L (by omega)
  rw [Nat.add_mul (z + y * d) 1 L, Nat.one_mul] at h2
  rw [Nat.mul_right_comm h L d]
  exact h2

/-- One row copy of the volume transform, on in-range naturals. -/
theorem volume_step (w h d P z y : Nat) (hz : z < d) (hy : y < h)
    (hfit : h * (w * P) * d < 2147483648) (buf tb : List byte)
    (hbuf : buf.length = h * (w * P) * d) (htb : tb.length = h * (w * P) * d) :
    memcpy buf
        (iadd (imul (z : Int) ((w * P : Nat) : Int)) (imul (y : Int) ((w * d * P : Nat) : Int)))
        tb
        (iadd (imul (z : Int) ((h * w * P : Nat) : Int)) (imul (y : Int) ((w * P : Nat) : Int)))
        ((w * P : Nat) : Int)
      = some (blit buf ((z + y * d) * (w * P)) tb (z * (h * (w * P)) + y * (w * P)) (w * P)) := by
  have hs := volume_src_bound h (w * P) d z y hz hy
  have hd := volume_dst_bound h (w * P) d z y hz hy
  have e1 : h * w * P = h * (w * P) := Nat.mul_assoc h w P
  have e2 : w * d * P = d * (w * P) := by rw [Nat.mul_comm w d, Nat.mul_assoc]
  have e3 : (z + y * d) * (w * P) = z * (w * P) + y * (d * (w * P)) := by
    rw [Nat.add_mul, Nat.mul_assoc]
  rw [e1, e2]
  rw [imul_natCast z (w * P) (by omega), imul_natCast y (d * (w * P)) (by omega),
    imul_natCast z (h * (w * P)) (by omega), imul_natCast y (w * P) (by omega),
    iadd_natCast _ _ (by omega), iadd_natCast _ _ (by omega), ← e3]
  exact memcpy_natCast buf tb _ _ _ (by omega) (by omega)

theorem slot_eq_iff (d z y z2 y2 : Nat) (hz : z < d) (hz2 : z2 < d) :
    z2 + y2 * d = z + y * d ↔ (z2 = z ∧ y2 = y) := by
  constructor
  · intro e
    have a := (slot_decomp d z y (z2 + y2 * d) hz).1 e
    have b := (slot_decomp d z2 y2 (z2 + y2 * d) hz2).1 rfl
    omega
  · rintro ⟨rfl, rfl⟩; rfl

/-- What one row copy of the volume transform leaves at a byte of a destination slot. -/
theorem volume_blit_get (L h d z y z2 y2 j : Nat) (hz : z < d) (hy : y < h) (hz2 : z2 < d)
    (hj : j < L) (buf tb : List byte)
    (hbuf : buf.length = h * L * d) (htb : tb.length = h * L * d) :
    (blit buf ((z + y * d) * L) tb (z * (h * L) + y * L) L)[(z2 + y2 * d) * L + j]?
      = if z2 = z ∧ y2 = y then tb[z * (h * L) + y * L + j]?
        else buf[(z2 + y2 * d) * L + j]? := by
  have hs := volume_src_bound h L d z y hz hy
  have hd := volume_dst_bound h L d z y hz hy
  rw [getElem?_blit buf tb _ _ _ (by omega) (by omega)]
  have hL : 0 < L := by omega
  have q2 : ((z2 + y2 * d) * L + j) / L = z2 + y2 * d :=
    (mem_slot_iff L (z2 + y2 * d) _ hL).1 ⟨by omega, by omega⟩
  have c : ((z + y * d) * L ≤ (z2 + y2 * d) * L + j ∧
      (z2 + y2 * d) * L + j < (z + y * d) * L + L) ↔ (z2 = z ∧ y2 = y) := by
    rw [mem_slot_iff L (z + y * d) _ hL, q2]
    exact slot_eq_iff d z y z2 y2 hz hz2
  by_cases hc : z2 = z ∧ y2 = y
  · rw [if_pos (c.2 hc), if_pos hc]
    obtain ⟨rfl, rfl⟩ := hc
    congr 1
    omega
  · rw [if_neg (fun x => hc (c.1 x)), if_neg hc]

/-- The volume transform on in-range sizes: it succeeds, keeps the buffer
length, and every destination slot `(z, y)` holds source scanline `(z, y)`. -/
theorem reorderVolume_natCast (w h d P : Nat) (hh : 0 < h) (hd : 0 < d)
    (hfit : h * (w * P) * d < 2147483648) (pb tb : List byte)
    (hpb : pb.length = h * (w * P) * d) (htb : tb.length = h * (w * P) * d) :
    ∃ out, reorderVolume (w : Int) (h : Int) (d : Int) (P : Int) ((h * w * P : Nat) : Int)
        ((h * (w * P) * d : Nat) : Int) pb tb = some out ∧
      out.length = h * (w * P) * d ∧
      ∀ z y j, z < d → y < h → j < w * P →
        out[(z + y * d) * (w * P) + j]? = pb[z * (h * (w * P)) + y * (w * P) + j]? := by
  have b1 : w * P ≤ h * (w * P) * d := by
    calc w * P = 1 * (w * P) * 1 := by simp
      _ ≤ h * (w * P) * d := Nat.mul_le_mul (Nat.mul_le_mul_right _ hh) hd
  have b2 : w * d * P = d * (w * P) := by rw [Nat.mul_comm w d, Nat.mul_assoc]
  have b3 : d * (w * P) ≤ h * (w * P) * d := by
    calc d * (w * P) = 1 * ((w * P) * d) := by rw [Nat.one_mul, Nat.mul_comm]
      _ ≤ h * ((w * P) * d) := Nat.mul_le_mul_right _ hh
      _ = h * (w * P) * d := by ring
  have b4 : w * d ≤ w * d * P ∨ P = 0 := by
    rcases Nat.eq_zero_or_pos P with h0 | h0
    · exact Or.inr h0
    · exact Or.inl (Nat.le_mul_of_pos_right _ h0)
  have b5 : w * d * P < 2147483648 := by omega
  have b6 : w * d < 2147483648 ∨ P = 0 := by omega
  unfold reorderVolume
  have hcopy : memcpy tb 0 pb 0 ((h * (w * P) * d : Nat) : Int) = some pb := by
    rw [memcpy_zero_natCast tb pb _ (by omega) (by omega), ← hpb, blit_full tb pb (by omega)]
  rw [hcopy]
  simp only [Option.some_bind, Int.toNat_ofNat]
  have eL : imul (w : Int) (P : Int) = ((w * P : Nat) : Int) := imul_natCast w P (by omega)
  have eD : imul (imul (w : Int) (d : Int)) (P : Int) = ((w * d * P : Nat) : Int) := by
    rcases b6 with h6 | h6
    · rw [imul_natCast w d h6, imul_natCast (w * d) P b5]
    · subst h6
      simp [imul, wrapInt]
  rw [eL, eD]
  obtain ⟨out, hout, hlen, hI⟩ := forLoop_inv
    (fun z' (buf : List byte) => buf.length = h * (w * P) * d ∧
      ∀ z2 y2 j, z2 < z' → z2 < d → y2 < h → j < w * P →
        buf[(z2 + y2 * d) * (w * P) + j]? = pb[z2 * (h * (w * P)) + y2 * (w * P) + j]?)
    d _ pb ⟨hpb, fun z2 y2 j hz => absurd hz (Nat.not_lt_zero _)⟩
    (by
      intro z buf hz ⟨hlenb, hIb⟩
      obtain ⟨out, hout, hlen, hI⟩ := forLoop_inv
        (fun y' (b : List byte) => b.length = h * (w * P) * d ∧
          ∀ z2 y2 j, z2 < d → y2 < h → j < w * P → (z2 < z ∨ (z2 = z ∧ y2 < y')) →
            b[(z2 + y2 * d) * (w * P) + j]? = pb[z2 * (h * (w * P)) + y2 * (w * P) + j]?)
        h (fun y pixelbuffer =>
          memcpy pixelbuffer
            (iadd (imul (z : Int) ((w * P : Nat) : Int)) (imul (y : Int) ((w * d * P : Nat) : Int)))
            pb
            (iadd (imul (z : Int) ((h * w * P : Nat) : Int)) (imul (y : Int) ((w * P : Nat) : Int)))
            ((w * P : Nat) : Int)) buf
        ⟨hlenb, fun z2 y2 j hz2 hy2 hj hc => by
          rcases hc with hc | ⟨_, hc⟩
          · exact hIb z2 y2 j hc hz2 hy2 hj
          · exact absurd hc (Nat.not_lt_zero _)⟩
        (by
          intro y b hy ⟨hlb, hIbb⟩
          refine ⟨_, volume_step w h d P z y hz hy hfit b pb hlb hpb, ?_, ?_⟩
          · rw [length_blit b pb _ _ _
              (by have := volume_dst_bound h (w * P) d z y hz hy; omega)
              (by have := volume_src_bound h (w * P) d z y hz hy; omega)]
            exact hlb
          · intro z2 y2 j hz2 hy2 hj hc
            rw [volume_blit_get (w * P) h d z y z2 y2 j hz hy hz2 hj b pb hlb hpb]
            by_cases he : z2 = z ∧ y2 = y
            · rw [if_pos he]
              obtain ⟨rfl, rfl⟩ := he
              rfl
            · rw [if_neg he]
              apply hIbb z2 y2 j hz2 hy2 hj
              omega)
      refine ⟨out, hout, hlen, ?_⟩
      intro z2 y2 j hz2 hz2d hy2 hj
      apply hI z2 y2 j hz2d hy2 hj
      omega)
  exact ⟨out, hout, hlen, fun z y j hz hy hj => hI z y j hz hz hy hj⟩

/-! ## Sizes when nothing overflows -/

theorem pixelSize_toNat_pos (hp alpha : Bool) : 0 < (pixelSize hp alpha).toNat := by
  have := pixelSize_pos hp alpha
  omega

theorem panelSize_natCast (hp alpha : Bool) (w h P : Nat) (hPs : pixelSize hp alpha = (P : Int))
    (hfit : h * w * P < 2147483648) :
    panelSize hp alpha (w : Int) (h : Int) = ((h * w * P : Nat) : Int) := by
  have hP : 0 < P := by have := pixelSize_pos hp alpha; omega
  have b : h * w ≤ h * w * P := Nat.le_mul_of_pos_right _ hP
  unfold panelSize
  rw [imul_natCast h w (by omega), hPs]
  exact imul_natCast _ _ hfit

theorem effectiveDepth_volume (depth : Int) : effectiveDepth GL_TEXTURE_3D depth = depth := by
  simp [effectiveDepth]

theorem effectiveDepth_other (textureType depth : Int) (h : textureType ≠ GL_TEXTURE_3D) :
    effectiveDepth textureType depth = 1 := by
  simp [effectiveDepth, h]

theorem bufferSize_volume_natCast (hp alpha : Bool) (w h d P : Nat)
    (hPs : pixelSize hp alpha = (P : Int)) (hd : 0 < d)
    (hfit : h * (w * P) * d < 2147483648) :
    bufferSize hp alpha GL_TEXTURE_3D (w : Int) (h : Int) (d : Int)
      = ((h * (w * P) * d : Nat) : Int) := by
  have e : h * w * P = h * (w * P) := Nat.mul_assoc _ _ _
  have b : h * (w * P) ≤ h * (w * P) * d := Nat.le_mul_of_pos_right _ hd
  unfold bufferSize
  rw [effectiveDepth_volume, panelSize_natCast hp alpha w h P hPs (by omega), e,
    imul_natCast _ _ hfit, if_neg (by decide)]

theorem alloc_natCast (fresh : Nat → byte) (n : Nat) :
    alloc fresh (n : Int) = some ((List.range n).map fresh) := by
  simp [alloc]

/-- Reading back a texture that is not a cube map, when its image has the
size of the buffer, leaves exactly that image in `pixelbuffer`. -/
theorem readback_single (env : Env) (textureType panelSize : Int) (pb : List byte)
    (hne : textureType ≠ GL_TEXTURE_CUBE_MAP)
    (hlen : pb.length = (env.texImage textureType).length) :
    readback env textureType panelSize pb = some (env.texImage textureType) := by
  unfold readback glGetTexImage
  rw [if_neg hne, memcpy_zero_natCast pb _ _ (by omega) (by omega), blit_full pb _ hlen]

/-- The buffers of a volume export with in-range sizes: the readback buffer is
the texture image, the reordering succeeds, and every destination slot
`(z, y)` holds source scanline `(z, y)`. -/
theorem volume_buffers (hp alpha : Bool) (env : Env) (w h d P : Nat)
    (hPs : pixelSize hp alpha = (P : Int)) (hh : 0 < h) (hd : 0 < d)
    (hfit : h * (w * P) * d < 2147483648)
    (htex : (env.texImage GL_TEXTURE_3D).length = h * (w * P) * d) :
    readbackBuffer hp alpha env GL_TEXTURE_3D (w : Int) (h : Int) (d : Int)
        = some (env.texImage GL_TEXTURE_3D) ∧
    ∃ out, reorderedBuffer hp alpha env GL_TEXTURE_3D (w : Int) (h : Int) (d : Int) = some out ∧
      out.length = h * (w * P) * d ∧
      ∀ z y j, z < d → y < h → j < w * P →
        out[(z + y * d) * (w * P) + j]?
          = (env.texImage GL_TEXTURE_3D)[z * (h * (w * P)) + y * (w * P) + j]? := by
  have hrb : readbackBuffer hp alpha env GL_TEXTURE_3D (w : Int) (h : Int) (d : Int)
      = some (env.texImage GL_TEXTURE_3D) := by
    unfold readbackBuffer
    rw [bufferSize_volume_natCast hp alpha w h d P hPs hd hfit, alloc_natCast]
    simp only [Option.some_bind]
    exact readback_single env _ _ _ (by decide) (by simp [htex])
  refine ⟨hrb, ?_⟩
  obtain ⟨out, hout, hlen, hI⟩ := reorderVolume_natCast w h d P hh hd hfit
    (env.texImage GL_TEXTURE_3D) ((List.range (h * (w * P) * d)).map env.freshTemp)
    htex (by simp)
  refine ⟨out, ?_, hlen, hI⟩
  have e : h * w * P = h * (w * P) := Nat.mul_assoc _ _ _
  have b : h * (w * P) ≤ h * (w * P) * d := Nat.le_mul_of_pos_right _ hd
  unfold reorderedBuffer
  rw [hrb, bufferSize_volume_natCast hp alpha w h d P hPs hd hfit, alloc_natCast]
  simp only [Option.some_bind]
  unfold reorder
  rw [if_pos rfl, effectiveDepth_volume, hPs, panelSize_natCast hp alpha w h P hPs (by omega)]
  exact hout

/-! ## The raster encoder -/

theorem memcpy_zero_dst (dst src : List byte) (s n : Nat)
    (hd : n ≤ dst.length) (hs : s + n ≤ src.length) :
    memcpy dst 0 src (s : Int) (n : Int) = some (blit dst 0 src s n) := by
  have := memcpy_natCast dst src 0 s n (by omega) hs
  simpa using this

theorem blit_whole (dst src : List byte) (s : Nat) :
    blit dst 0 src s dst.length = slice src s dst.length := by
  unfold blit slice
  simp

theorem length_slice (buf : List byte) (off n : Nat) (h : off + n ≤ buf.length) :
    (slice buf off n).length = n := by
  unfold slice
  simp only [List.length_take, List.length_drop]
  omega

theorem toUInt32_natCast (n : Nat) (h : n < 4294967296) : toUInt32 (n : Int) = n := by
  unfold toUInt32; omega

/-- The scanline loop when every row step yields a line that depends on the
row only. -/
theorem scanlineLoop_spec (writeOk : Nat → Bool) (n : Nat)
    (rowStep : Nat → List byte → Option (List byte)) (line : Nat → List byte)
    (fuel row0 : Nat) (buf : List byte) (hbuf : buf.length = n)
    (hstep : ∀ r b, row0 ≤ r → r < row0 + fuel → b.length = n → rowStep r b = some (line r))
    (hline : ∀ r, row0 ≤ r → r < row0 + fuel → (line r).length = n) :
    scanlineLoop writeOk n rowStep fuel row0 buf = some (scanlineWrites writeOk line fuel row0) := by
  induction fuel generalizing row0 buf with
  | zero => rfl
  | succ k ih =>
    have h1 := hstep row0 buf (Nat.le_refl _) (by omega) hbuf
    have h2 := hline row0 (Nat.le_refl _) (by omega)
    have h3 : (line row0).take n = line row0 := by
      rw [← h2]; exact List.take_length _
    rw [scanlineLoop, h1, scanlineWrites]
    simp only [h3]
    by_cases hok : writeOk row0 = true
    · rw [if_pos hok, if_pos hok,
        ih (row0 + 1) (line row0) h2
          (fun r b hr1 hr2 hb => hstep r b (by omega) (by omega) hb)
          (fun r hr1 hr2 => hline r (by omega) (by omega))]
      rfl
    · rw [if_neg hok, if_neg hok]

theorem scanlineWrites_all_ok (writeOk : Nat → Bool) (line : Nat → List byte) (fuel row0 : Nat)
    (hok : ∀ r, row0 ≤ r → r < row0 + fuel → writeOk r = true) :
    scanlineWrites writeOk line fuel row0
      = (List.range' row0 fuel).map (fun r => Event.TIFFWriteScanline (line r) r true) := by
  induction fuel generalizing row0 with
  | zero => rfl
  | succ k ih =>
    rw [scanlineWrites, if_pos (hok row0 (Nat.le_refl _) (by omega)),
      ih (row0 + 1) (fun r h1 h2 => hok r (by omega) (by omega))]
    rfl

theorem scanlineSize_natCast (hp alpha : Bool) (N P : Nat) (hPs : pixelSize hp alpha = (P : Int))
    (hN : N < 4294967296) : scanlineSize hp alpha (N : Int) = N * P := by
  unfold scanlineSize TIFFScanlineSize
  rw [toUInt32_natCast N hN]
  cases hp <;> cases alpha
  · have e1 : (sampleperpixel false).toNat = 3 := by decide
    have e2 : (imul (channelSize false) 8).toNat = 32 := by decide
    have e3 : pixelSize false false = 12 := by decide
    have hP : P = 12 := by omega
    subst hP
    rw [e1, e2]; omega
  · have e1 : (sampleperpixel true).toNat = 4 := by decide
    have e2 : (imul (channelSize false) 8).toNat = 32 := by decide
    have e3 : pixelSize false true = 16 := by decide
    have hP : P = 16 := by omega
    subst hP
    rw [e1, e2]; omega
  · have e1 : (sampleperpixel false).toNat = 3 := by decide
    have e2 : (imul (channelSize true) 8).toNat = 16 := by decide
    have e3 : pixelSize true false = 6 := by decide
    have hP : P = 6 := by omega
    subst hP
    rw [e1, e2]; omega
  · have e1 : (sampleperpixel true).toNat = 4 := by decide
    have e2 : (imul (channelSize true) 8).toNat = 16 := by decide
    have e3 : pixelSize true true = 8 := by decide
    have hP : P = 8 := by omega
    subst hP
    rw [e1, e2]; omega

theorem standardRow_natCast (pb buf : List byte) (LB r : Nat)
    (hbuf : buf.length = LB) (hpb : r * LB + LB ≤ pb.length) :
    standardRow pb (LB : Int) r buf = some (slice pb (r * LB) LB) := by
  unfold standardRow
  rw [← Nat.cast_mul, memcpy_zero_dst buf pb _ _ (by omega) hpb, ← hbuf, blit_whole]

theorem outputWidth_standard (textureType depth : Int) (w D : Nat)
    (htt : textureType ≠ GL_TEXTURE_CUBE_MAP) (hD : effectiveDepth textureType depth = (D : Int))
    (hfit : w * D < 2147483648) :
    outputWidth textureType (w : Int) depth = ((w * D : Nat) : Int) := by
  unfold outputWidth
  rw [hD, imul_natCast w D hfit, if_neg htt]

theorem outputHeight_standard (textureType height : Int) (htt : textureType ≠ GL_TEXTURE_CUBE_MAP) :
    outputHeight textureType height = height := by
  unfold outputHeight
  rw [if_neg htt]

theorem rows_bound (h LB r : Nat) (hr : r < h) : r * LB + LB ≤ h * LB := by
  have := Nat.mul_le_mul_right LB (show r + 1 ≤ h by omega)
  rw [Nat.add_mul, Nat.one_mul] at this
  exact this

/-- The encoder on a texture that is not a cube map, with in-range sizes and
a file that opens: it returns, and the trace is the header followed by the
scanline writes of the rows of the reordered buffer. -/
theorem encodeTIF_standard (hp alpha : Bool) (env : Env) (path : String) (textureType depth : Int)
    (w h D P : Nat) (hPs : pixelSize hp alpha = (P : Int))
    (htt : textureType ≠ GL_TEXTURE_CUBE_MAP) (hD : effectiveDepth textureType depth = (D : Int))
    (hw : 0 < w) (hh : 0 < h) (hD0 : 0 < D)
    (hfit : h * (w * P) * D < 2147483648) (hopen : env.openOk = true)
    (trace : List Event) (pb : List byte) (hpb : pb.length = h * (w * P) * D) :
    encodeTIF hp alpha env path textureType (w : Int) (h : Int) depth trace pb
      = Outcome.returned (trace ++
          (Event.TIFFOpen path true :: headerEvents hp alpha ((w * D : Nat) : Int) (h : Int)) ++
          [Event.TIFFSetField TIFFTAG_ROWSPERSTRIP
            (TIFFDefaultStripSize (w * D * P) (imul (w : Int) (sampleperpixel alpha)))] ++
          scanlineWrites env.writeOk (fun r => slice pb (r * (w * D * P)) (w * D * P)) h 0 ++
          [Event.TIFFClose]) := by
  have hP : 0 < P := by have := pixelSize_pos hp alpha; omega
  have e0 : h * (w * P) * D = h * (w * D * P) := by ring
  have b0 : w * D * P ≤ h * (w * D * P) := Nat.le_mul_of_pos_left _ hh
  have b1 : w * D ≤ w * D * P := Nat.le_mul_of_pos_right _ hP
  have b2 : 0 < w * D * P := Nat.mul_pos (Nat.mul_pos hw hD0) hP
  have b3 : h ≤ h * (w * D * P) := Nat.le_mul_of_pos_right _ b2
  have eW := outputWidth_standard textureType depth w D htt hD (by omega)
  have eH := outputHeight_standard textureType (h : Int) htt
  have eL : linebytes hp alpha textureType (w : Int) depth = ((w * D * P : Nat) : Int) := by
    unfold linebytes
    rw [eW, hPs, imul_natCast P (w * D) (by rw [Nat.mul_comm]; omega), Nat.mul_comm]
  have eS : scanlineSize hp alpha ((w * D : Nat) : Int) = w * D * P :=
    scanlineSize_natCast hp alpha (w * D) P hPs (by omega)
  have eB : rowBuffer env (w * D * P) ((w * D * P : Nat) : Int)
      = some ((List.range (w * D * P)).map env.freshBuf) := by
    unfold rowBuffer
    rw [if_neg (by omega), alloc_natCast]
  have eWr : writeScanlines hp alpha env textureType (w : Int) (h : Int) depth pb
        ((List.range (w * D * P)).map env.freshBuf)
      = some (scanlineWrites env.writeOk (fun r => slice pb (r * (w * D * P)) (w * D * P)) h 0) := by
    unfold writeScanlines
    rw [if_neg htt, eW, eH, eL, eS, toUInt32_natCast h (by omega)]
    apply scanlineLoop_spec env.writeOk (w * D * P) _ _ h 0 _ (by simp)
    · intro r b _ hr hb
      exact standardRow_natCast pb b _ r hb (by
        have := rows_bound h (w * D * P) r (by omega); omega)
    · intro r _ hr
      exact length_slice pb _ _ (by
        have := rows_bound h (w * D * P) r (by omega); omega)
  unfold encodeTIF
  simp only [hopen, if_true, eW, eH, eL, eS, eB, eWr]

/-! ## The export of a texture that is not a cube map -/

theorem bufferSize_standard_natCast (hp alpha : Bool) (textureType depth : Int) (w h D P : Nat)
    (hPs : pixelSize hp alpha = (P : Int)) (htt : textureType ≠ GL_TEXTURE_CUBE_MAP)
    (hD : effectiveDepth textureType depth = (D : Int)) (hD0 : 0 < D)
    (hfit : h * (w * P) * D < 2147483648) :
    bufferSize hp alpha textureType (w : Int) (h : Int) depth
      = ((h * (w * P) * D : Nat) : Int) := by
  have e : h * w * P = h * (w * P) := Nat.mul_assoc _ _ _
  have b : h * (w * P) ≤ h * (w * P) * D := Nat.le_mul_of_pos_right _ hD0
  unfold bufferSize
  rw [hD, panelSize_natCast hp alpha w h P hPs (by omega), e,
    imul_natCast _ _ hfit, if_neg htt]

/-- The buffers of an export that is not a cube map, with in-range sizes: the
readback buffer is the texture image; the reordered buffer has the same
length, is the same buffer unless the texture is 3D, and for a 3D texture
holds source scanline `(z, y)` in destination slot `(z, y)`. -/
theorem standard_buffers (hp alpha : Bool) (env : Env) (textureType depth : Int) (w h D P : Nat)
    (hPs : pixelSize hp alpha = (P : Int)) (htt : textureType ≠ GL_TEXTURE_CUBE_MAP)
    (hD : effectiveDepth textureType depth = (D : Int)) (hh : 0 < h) (hD0 : 0 < D)
    (hfit : h * (w * P) * D < 2147483648)
    (htex : (env.texImage textureType).length = h * (w * P) * D) :
    readbackBuffer hp alpha env textureType (w : Int) (h : Int) depth
        = some (env.texImage textureType) ∧
    ∃ out, reorderedBuffer hp alpha env textureType (w : Int) (h : Int) depth = some out ∧
      out.length = h * (w * P) * D ∧
      (textureType ≠ GL_TEXTURE_3D → out = env.texImage textureType) ∧
      (textureType = GL_TEXTURE_3D → ∀ z y j, z < D → y < h → j < w * P →
        out[(z + y * D) * (w * P) + j]?
          = (env.texImage textureType)[z * (h * (w * P)) + y * (w * P) + j]?) := by
  have hB := bufferSize_standard_natCast hp alpha textureType depth w h D P hPs htt hD hD0 hfit
  have hrb : readbackBuffer hp alpha env textureType (w : Int) (h : Int) depth
      = some (env.texImage textureType) := by
    unfold readbackBuffer
    rw [hB, alloc_natCast]
    simp only [Option.some_bind]
    exact readback_single env _ _ _ htt (by simp [htex])
  refine ⟨hrb, ?_⟩
  by_cases h3 : textureType = GL_TEXTURE_3D
  · subst h3
    rw [effectiveDepth_volume] at hD
    subst hD
    obtain ⟨_, out, hout, hlen, hI⟩ := volume_buffers hp alpha env w h D P hPs hh hD0 hfit htex
    exact ⟨out, hout, hlen, fun hne => absurd rfl hne, fun _ => hI⟩
  · refine ⟨env.texImage textureType, ?_, htex, fun _ => rfl, fun e => absurd e h3⟩
    unfold reorderedBuffer
    rw [hrb, hB, alloc_natCast]
    simp only [Option.some_bind]
    unfold reorder
    rw [if_neg h3]

/-- The function `SaveTexture` once its buffers are known to exist. -/
theorem SaveTextureAt_of_buffers (hp : Bool) (env : Env) (path : String) (texture : Nat)
    (textureType : Int) (alpha : Bool) (width height depth : Int) (format : SaveFormat)
    (B : Nat) (rb out : List byte)
    (hB : bufferSize hp alpha textureType width height depth = (B : Int))
    (hrb : readbackBuffer hp alpha env textureType width height depth = some rb)
    (hout : reorderedBuffer hp alpha env textureType width height depth = some out) :
    SaveTextureAt hp env path texture textureType alpha width height depth format
      = match format with
        | SaveFormat.TIF =>
          encodeTIF hp alpha env path textureType width height depth
            (readbackTrace hp alpha texture textureType width height) out
        | SaveFormat.EXR =>
          Outcome.returned (readbackTrace hp alpha texture textureType width height) := by
  unfold SaveTextureAt
  simp only [hB, alloc_natCast, hrb, hout]

/-- The export of a texture that is not a cube map, with in-range sizes and a
file that opens: the call returns, and its trace is the readback, the header
and the scanline writes of the rows of the reordered buffer. -/
theorem SaveTextureAt_standard (hp alpha : Bool) (env : Env) (path : String) (texture : Nat)
    (textureType depth : Int) (w h D P : Nat)
    (hPs : pixelSize hp alpha = (P : Int)) (htt : textureType ≠ GL_TEXTURE_CUBE_MAP)
    (hD : effectiveDepth textureType depth = (D : Int)) (hw : 0 < w) (hh : 0 < h) (hD0 : 0 < D)
    (hfit : h * (w * P) * D < 2147483648) (hopen : env.openOk = true)
    (htex : (env.texImage textureType).length = h * (w * P) * D) (out : List byte)
    (hout : reorderedBuffer hp alpha env textureType (w : Int) (h : Int) depth = some out) :
    SaveTextureAt hp env path texture textureType alpha (w : Int) (h : Int) depth SaveFormat.TIF
      = Outcome.returned (readbackTrace hp alpha texture textureType (w : Int) (h : Int) ++
          (Event.TIFFOpen path true :: headerEvents hp alpha ((w * D : Nat) : Int) (h : Int)) ++
          [Event.TIFFSetField TIFFTAG_ROWSPERSTRIP
            (TIFFDefaultStripSize (w * D * P) (imul (w : Int) (sampleperpixel alpha)))] ++
          scanlineWrites env.writeOk (fun r => slice out (r * (w * D * P)) (w * D * P)) h 0 ++
          [Event.TIFFClose]) := by
  obtain ⟨hrb, out', hout', hlen, _, _⟩ :=
    standard_buffers hp alpha env textureType depth w h D P hPs htt hD hh hD0 hfit htex
  have : out' = out := by rw [hout] at hout'; exact (Option.some.inj hout').symm
  subst this
  rw [SaveTextureAt_of_buffers hp env path texture textureType alpha _ _ depth SaveFormat.TIF _ _ _
    (bufferSize_standard_natCast hp alpha textureType depth w h D P hPs htt hD hD0 hfit) hrb hout]
  exact encodeTIF_standard hp alpha env path textureType depth w h D P hPs htt hD hw hh hD0 hfit
    hopen _ _ hlen

/-! ## Reading a trace -/

theorem scanlines_append (a b : List Event) : scanlines (a ++ b) = scanlines a ++ scanlines b := by
  unfold scanlines
  exact List.filterMap_append _ _ _

theorem scanlines_readbackTrace (hp alpha : Bool) (texture : Nat) (textureType width height : Int) :
    scanlines (readbackTrace hp alpha texture textureType width height) = [] := by
  unfold scanlines readbackTrace readbackEvents
  split <;> simp [Event.scanline, List.filterMap_map, List.range_succ]

theorem scanlines_header (hp alpha : Bool) (path : String) (W H : Int) :
    scanlines (Event.TIFFOpen path true :: headerEvents hp alpha W H) = [] := by
  simp [scanlines, headerEvents, Event.scanline]

theorem scanlines_scanlineWrites (writeOk : Nat → Bool) (line : Nat → List byte) (fuel row0 : Nat)
    (hok : ∀ r, row0 ≤ r → r < row0 + fuel → writeOk r = true) :
    scanlines (scanlineWrites writeOk line fuel row0)
      = (List.range' row0 fuel).map (fun r => (r, line r)) := by
  rw [scanlineWrites_all_ok writeOk line fuel row0 hok]
  unfold scanlines
  rw [List.filterMap_map]
  induction (List.range' row0 fuel) with
  | nil => rfl
  | cons a l ih => simp [Event.scanline, ih]

/-- The scanlines of the trace of a completed export. -/
theorem scanlines_trace (hp alpha : Bool) (path : String) (texture : Nat)
    (textureType width height W H v : Int)
    (writeOk : Nat → Bool) (line : Nat → List byte) (n : Nat)
    (hok : ∀ r, r < n → writeOk r = true) :
    scanlines (readbackTrace hp alpha texture textureType width height ++
        (Event.TIFFOpen path true :: headerEvents hp alpha W H) ++
        [Event.TIFFSetField TIFFTAG_ROWSPERSTRIP v] ++
        scanlineWrites writeOk line n 0 ++ [Event.TIFFClose])
      = (List.range n).map (fun r => (r, line r)) := by
  rw [scanlines_append, scanlines_append, scanlines_append, scanlines_append,
    scanlines_readbackTrace, scanlines_header,
    scanlines_scanlineWrites writeOk line n 0 (fun r _ h => hok r (by omega)),
    List.range_eq_range']
  simp [scanlines, Event.scanline]

theorem fields_readbackTrace (hp alpha : Bool) (texture : Nat) (textureType width height : Int) :
    (readbackTrace hp alpha texture textureType width height).filterMap Event.field = [] := by
  unfold readbackTrace readbackEvents
  split <;> simp [Event.field, List.filterMap_map, List.range_succ]

theorem fields_scanlineWrites (writeOk : Nat → Bool) (line : Nat → List byte) (fuel row0 : Nat) :
    (scanlineWrites writeOk line fuel row0).filterMap Event.field = [] := by
  induction fuel generalizing row0 with
  | zero => rfl
  | succ k ih =>
    rw [scanlineWrites]
    split
    · simp [Event.field, ih]
    · simp [Event.field]

/-- The image width and height in the header of the trace of a completed export. -/
theorem headerField_trace (hp alpha : Bool) (path : String) (texture : Nat)
    (textureType width height W H v : Int)
    (writeOk : Nat → Bool) (line : Nat → List byte) (n : Nat) :
    headerField (readbackTrace hp alpha texture textureType width height ++
        (Event.TIFFOpen path true :: headerEvents hp alpha W H) ++
        [Event.TIFFSetField TIFFTAG_ROWSPERSTRIP v] ++
        scanlineWrites writeOk line n 0 ++ [Event.TIFFClose]) TIFFTAG_IMAGEWIDTH = some W ∧
    headerField (readbackTrace hp alpha texture textureType width height ++
        (Event.TIFFOpen path true :: headerEvents hp alpha W H) ++
        [Event.TIFFSetField TIFFTAG_ROWSPERSTRIP v] ++
        scanlineWrites writeOk line n 0 ++ [Event.TIFFClose]) TIFFTAG_IMAGELENGTH = some H ∧
    headerField (readbackTrace hp alpha texture textureType width height ++
        (Event.TIFFOpen path true :: headerEvents hp alpha W H) ++
        [Event.TIFFSetField TIFFTAG_ROWSPERSTRIP v] ++
        scanlineWrites writeOk line n 0 ++ [Event.TIFFClose]) TIFFTAG_SAMPLESPERPIXEL
      = some (sampleperpixel alpha) ∧
    headerField (readbackTrace hp alpha texture textureType width height ++
        (Event.TIFFOpen path true :: headerEvents hp alpha W H) ++
        [Event.TIFFSetField TIFFTAG_ROWSPERSTRIP v] ++
        scanlineWrites writeOk line n 0 ++ [Event.TIFFClose]) TIFFTAG_BITSPERSAMPLE
      = some (imul (channelSize hp) 8) := by
  have e : (readbackTrace hp alpha texture textureType width height ++
        (Event.TIFFOpen path true :: headerEvents hp alpha W H) ++
        [Event.TIFFSetField TIFFTAG_ROWSPERSTRIP v] ++
        scanlineWrites writeOk line n 0 ++ [Event.TIFFClose]).filterMap Event.field
      = (headerEvents hp alpha W H).filterMap Event.field ++ [(TIFFTAG_ROWSPERSTRIP, v)] := by
    simp only [List.filterMap_append, fields_readbackTrace, fields_scanlineWrites]
    simp [Event.field]
  unfold headerField
  rw [e]
  simp [headerEvents, Event.field, TIFFTAG_IMAGEWIDTH, TIFFTAG_IMAGELENGTH,
    TIFFTAG_SAMPLESPERPIXEL, TIFFTAG_BITSPERSAMPLE, TIFFTAG_ORIENTATION, TIFFTAG_PLANARCONFIG,
    TIFFTAG_PHOTOMETRIC, TIFFTAG_SAMPLEFORMAT, TIFFTAG_COMPRESSION, TIFFTAG_ROWSPERSTRIP]

theorem slice_add (buf : List byte) (off a b : Nat) :
    slice buf off (a + b) = slice buf off a ++ slice buf (off + a) b := by
  unfold slice
  rw [List.take_add, List.drop_drop]

theorem slice_eq_flatten (buf : List byte) (off L d : Nat) :
    slice buf off (d * L) = ((List.range d).map (fun z => slice buf (off + z * L) L)).flatten := by
  induction d with
  | zero => simp [slice]
  | succ k ih =>
    rw [List.range_succ, List.map_append, List.flatten_append, ← ih, Nat.succ_mul, slice_add]
    simp

theorem slice_full (buf : List byte) : slice buf 0 buf.length = buf := by
  simp [slice]

/-! ## The cube map path -/

theorem memcpy_src_zero (dst src : List byte) (d n : Nat)
    (hd : d + n ≤ dst.length) (hs : n ≤ src.length) :
    memcpy dst (d : Int) src 0 (n : Int) = some (blit dst d src 0 n) := by
  have := memcpy_natCast dst src d 0 n hd (by omega)
  simpa using this

/-- Three copies that fill the three thirds of the row buffer. -/
theorem blit_thirds (buf A B C : List byte) (a b c T : Nat) (hbuf : buf.length = 3 * T)
    (hA : a + T ≤ A.length) (hB : b + T ≤ B.length) (hC : c + T ≤ C.length) :
    blit (blit (blit buf 0 A a T) T B b T) (T * 2) C c T
      = slice A a T ++ slice B b T ++ slice C c T := by
  have l1 := length_blit buf A 0 a T (by omega) hA
  have l2 := length_blit (blit buf 0 A a T) B T b T (by omega) hB
  apply List.ext_getElem?
  intro i
  rw [getElem?_blit _ C _ _ _ (by omega) hC, getElem?_blit _ B _ _ _ (by omega) hB,
    getElem?_blit buf A _ _ _ (by omega) hA]
  simp only [List.getElem?_append, List.length_append, length_slice A a T hA,
    length_slice B b T hB, getElem?_slice]
  by_cases h1 : i < T
  · have n1 : ¬ (T * 2 ≤ i ∧ i < T * 2 + T) := by omega
    have n2 : ¬ (T ≤ i ∧ i < T + T) := by omega
    have n3 : (0 ≤ i ∧ i < 0 + T) := by omega
    have n4 : i < T + T := by omega
    simp [h1, n1, n2, n3, n4]
  · by_cases h2 : i < T + T
    · have n1 : ¬ (T * 2 ≤ i ∧ i < T * 2 + T) := by omega
      have n2 : (T ≤ i ∧ i < T + T) := by omega
      have n5 : i - T < T := by omega
      simp [h1, h2, n1, n2, n5]
    · by_cases h3 : i < T * 2 + T
      · have n1 : (T * 2 ≤ i ∧ i < T * 2 + T) := by omega
        have n5 : i - (T + T) < T := by omega
        have n6 : i - T * 2 = i - (T + T) := by omega
        simp [h1, h2, n1, n5, n6]
      · have n1 : ¬ (T * 2 ≤ i ∧ i < T * 2 + T) := by omega
        have n2 : ¬ (T ≤ i ∧ i < T + T) := by omega
        have n3 : ¬ (0 ≤ i ∧ i < 0 + T) := by omega
        have n5 : ¬ (i - (T + T) < T) := by omega
        have n7 : buf.length ≤ i := by omega
        simp [h1, h2, n1, n2, n3, n5, List.getElem?_eq_none n7]

theorem faceLine_natCast (face : Int) (idx panel fr T : Nat)
    (hidx : face - GL_TEXTURE_BINDING_CUBE_MAP - 1 = (idx : Int))
    (hfit : idx * panel < 2147483648) :
    faceLine face (panel : Int) (fr : Int) (T : Int) = ((idx * panel + fr * T : Nat) : Int) := by
  unfold faceLine
  rw [hidx, imul_natCast idx panel hfit]
  push_cast
  rfl

/-- Three copies of one `case` of the `switch`, on in-range sizes. -/
theorem memcpy_thirds (buf A B C : List byte) (a b c T : Nat) (sa sb sc : Int)
    (ha : sa = (a : Int)) (hb : sb = (b : Int)) (hc : sc = (c : Int))
    (hbuf : buf.length = 3 * T)
    (hA : a + T ≤ A.length) (hB : b + T ≤ B.length) (hC : c + T ≤ C.length) :
    ((memcpy buf 0 A sa (T : Int)).bind fun buf =>
      (memcpy buf (T : Int) B sb (T : Int)).bind fun buf =>
        memcpy buf ((T : Int) * 2) C sc (T : Int))
      = some (slice A a T ++ slice B b T ++ slice C c T) := by
  subst ha hb hc
  have l1 := length_blit buf A 0 a T (by omega) hA
  have l2 := length_blit (blit buf 0 A a T) B T b T (by omega) hB
  have e2 : ((T : Int) * 2) = ((T * 2 : Nat) : Int) := by push_cast; rfl
  rw [memcpy_zero_dst buf A a T (by omega) hA]
  simp only [Option.some_bind]
  rw [memcpy_natCast _ B T b T (by omega) hB]
  simp only [Option.some_bind]
  rw [e2, memcpy_natCast _ C (T * 2) c T (by omega) hC, blit_thirds buf A B C a b c T hbuf hA hB hC]

theorem face_bound (h panel T row idx : Nat) (hh : 0 < h) (hpanel : h * T ≤ panel)
    (hidx : idx < 6) : idx * panel + row % h * T + T ≤ 6 * panel := by
  have h1 := rows_bound h T (row % h) (Nat.mod_lt _ hh)
  have h2 := rows_bound 6 panel idx hidx
  omega

/-- One row of the cube map path, on in-range sizes. -/
theorem cubeRow_natCast (pb zb buf : List byte) (h panel T row : Nat) (hh : 0 < h)
    (hrow : row < 4 * h) (hpanel : h * T ≤ panel) (hfit : 6 * panel < 2147483648)
    (hh31 : h < 2147483648)
    (hpb : pb.length = 6 * panel) (hzb : zb.length = T) (hbuf : buf.length = 3 * T) :
    cubeRow pb zb (h : Int) (panel : Int) (T : Int) row buf
      = some (crossLine pb zb h panel T row) := by
  have hz : slice zb 0 T = zb := by rw [← hzb]; exact slice_full zb
  have hband : row / h < 4 := (Nat.div_lt_iff_lt_mul hh).2 hrow
  have hmod : row % h < h := Nat.mod_lt _ hh
  have fl : ∀ (face : Int) (idx : Nat), idx < 6 →
      face - GL_TEXTURE_BINDING_CUBE_MAP - 1 = (idx : Int) →
      faceLine face (panel : Int) ((row % h : Nat) : Int) (T : Int)
        = ((idx * panel + row % h * T : Nat) : Int) := by
    intro face idx hi he
    exact faceLine_natCast face idx panel _ T he (by
      have := rows_bound 6 panel idx hi; omega)
  have fb := fun idx hi => face_bound h panel T row idx hh hpanel hi
  unfold cubeRow crossLine
  rw [toUInt32_natCast h (by omega), if_neg (by omega), wrapInt_natCast _ (by omega)]
  have hcases : row / h = 0 ∨ row / h = 1 ∨ row / h = 2 ∨ row / h = 3 := by
    generalize row / h = q at hband
    omega
  rcases hcases with hb | hb | hb | hb <;> simp only [hb]
  · rw [memcpy_thirds buf zb pb zb 0 (2 * panel + row % h * T) 0 T 0 _ 0 (by simp)
      (fl _ 2 (by omega) (by decide)) (by simp) hbuf (by omega)
      (by have := fb 2 (by omega); omega) (by omega), hz]
  · rw [memcpy_thirds buf pb pb pb (1 * panel + row % h * T) (4 * panel + row % h * T)
      (0 * panel + row % h * T) T _ _ _
      (fl _ 1 (by omega) (by decide)) (fl _ 4 (by omega) (by decide))
      (fl _ 0 (by omega) (by decide)) hbuf
      (by have := fb 1 (by omega); omega) (by have := fb 4 (by omega); omega)
      (by have := fb 0 (by omega); omega)]
  · rw [memcpy_thirds buf zb pb zb 0 (3 * panel + row % h * T) 0 T 0 _ 0 (by simp)
      (fl _ 3 (by omega) (by decide)) (by simp) hbuf (by omega)
      (by have := fb 3 (by omega); omega) (by omega), hz]
  · rw [memcpy_thirds buf zb pb zb 0 (5 * panel + row % h * T) 0 T 0 _ 0 (by simp)
      (fl _ 5 (by omega) (by decide)) (by simp) hbuf (by omega)
      (by have := fb 5 (by omega); omega) (by omega), hz]

theorem imul_one (n : Nat) (h : n < 2147483648) : imul (n : Int) 1 = (n : Int) := by
  have := imul_natCast n 1 (by omega)
  simpa using this

theorem effectiveDepth_cube (depth : Int) : effectiveDepth GL_TEXTURE_CUBE_MAP depth = 1 :=
  effectiveDepth_other _ _ (by decide)

theorem bufferSize_cube_natCast (hp alpha : Bool) (depth : Int) (w h P : Nat)
    (hPs : pixelSize hp alpha = (P : Int)) (hfit : 6 * (h * w * P) < 2147483648) :
    bufferSize hp alpha GL_TEXTURE_CUBE_MAP (w : Int) (h : Int) depth
      = ((6 * (h * w * P) : Nat) : Int) := by
  unfold bufferSize
  rw [effectiveDepth_cube, panelSize_natCast hp alpha w h P hPs (by omega),
    imul_one _ (by omega), if_pos rfl]
  have := imul_natCast (h * w * P) 6 (by omega)
  rw [Nat.mul_comm (h * w * P) 6] at this
  simpa using this

theorem outputWidth_cube (depth : Int) (w : Nat) (hfit : w * 3 < 2147483648) :
    outputWidth GL_TEXTURE_CUBE_MAP (w : Int) depth = ((w * 3 : Nat) : Int) := by
  unfold outputWidth
  rw [effectiveDepth_cube, imul_one _ (by omega), if_pos rfl]
  have := imul_natCast w 3 hfit
  simpa using this

theorem outputHeight_cube (h : Nat) (hfit : h * 4 < 2147483648) :
    outputHeight GL_TEXTURE_CUBE_MAP (h : Int) = ((h * 4 : Nat) : Int) := by
  unfold outputHeight
  rw [if_pos rfl]
  have := imul_natCast h 4 hfit
  simpa using this

theorem linebytes_cube (hp alpha : Bool) (depth : Int) (w P : Nat)
    (hPs : pixelSize hp alpha = (P : Int)) (hfit : w * 3 * P < 2147483648) :
    linebytes hp alpha GL_TEXTURE_CUBE_MAP (w : Int) depth = ((w * 3 * P : Nat) : Int) := by
  have hP : 0 < P := by have := pixelSize_pos hp alpha; omega
  have b : w * 3 ≤ w * 3 * P := Nat.le_mul_of_pos_right _ hP
  unfold linebytes
  rw [outputWidth_cube depth w (by omega), hPs,
    imul_natCast P (w * 3) (by rw [Nat.mul_comm]; omega), Nat.mul_comm]

theorem third_natCast (w P : Nat) : ((w * 3 * P : Nat) : Int).tdiv 3 = ((w * P : Nat) : Int) := by
  rw [Int.tdiv_eq_ediv (by omega) (by omega)]
  have e : w * 3 * P = w * P * 3 := by ring
  rw [e]
  omega

/-- Reading back a cube map whose six face images have the size of a panel:
face `i` of the canonical order ends up in the bytes `[i * panel, (i + 1) * panel)`. -/
theorem readback_cube (env : Env) (panel : Nat) (pb : List byte)
    (hpb : pb.length = 6 * panel) (hfit : 6 * panel < 2147483648)
    (htex : ∀ i : Nat, i < 6 →
      (env.texImage (GL_TEXTURE_BINDING_CUBE_MAP + 1 + (i : Int))).length = panel) :
    ∃ rb, readback env GL_TEXTURE_CUBE_MAP (panel : Int) pb = some rb ∧
      rb.length = 6 * panel ∧
      ∀ i j : Nat, i < 6 → j < panel →
        rb[i * panel + j]? = (env.texImage (GL_TEXTURE_BINDING_CUBE_MAP + 1 + (i : Int)))[j]? := by
  unfold readback
  rw [if_pos rfl]
  obtain ⟨rb, hrb, hlen, hI⟩ := forLoop_inv
    (fun k (buf : List byte) => buf.length = 6 * panel ∧
      ∀ i j : Nat, i < k → j < panel →
        buf[i * panel + j]? = (env.texImage (GL_TEXTURE_BINDING_CUBE_MAP + 1 + (i : Int)))[j]?)
    6 _ pb ⟨hpb, fun i j hi => absurd hi (Nat.not_lt_zero _)⟩
    (by
      intro k buf hk ⟨hlb, hIb⟩
      have hb := rows_bound 6 panel k hk
      have hstep : glGetTexImage env (GL_TEXTURE_BINDING_CUBE_MAP + 1 + (k : Int)) buf
            (imul (panel : Int) (k : Int))
          = some (blit buf (panel * k)
              (env.texImage (GL_TEXTURE_BINDING_CUBE_MAP + 1 + (k : Int))) 0 panel) := by
        unfold glGetTexImage
        rw [imul_natCast panel k (by rw [Nat.mul_comm]; omega), htex k hk]
        exact memcpy_src_zero buf _ _ _ (by rw [Nat.mul_comm]; omega) (by rw [htex k hk])
      refine ⟨_, hstep, ?_, ?_⟩
      · rw [length_blit buf _ _ _ _ (by rw [Nat.mul_comm]; omega) (by rw [htex k hk]; omega)]
        exact hlb
      · intro i j hi hj
        rw [getElem?_blit buf _ _ _ _ (by rw [Nat.mul_comm]; omega) (by rw [htex k hk]; omega)]
        rw [Nat.mul_comm panel k]
        by_cases hik : i = k
        · subst hik
          have e : 0 + (i * panel + j - i * panel) = j := by omega
          rw [if_pos (by omega), e]
        · have hlt : i < k := by omega
          have hb2 := rows_bound k panel i hlt
          rw [if_neg (by omega)]
          exact hIb i j hlt hj)
  exact ⟨rb, hrb, hlen, fun i j hi hj => hI i j hi hj⟩

theorem length_crossLine (pb zb : List byte) (h panel T row : Nat) (hh : 0 < h)
    (hrow : row < 4 * h) (hpanel : h * T ≤ panel)
    (hpb : pb.length = 6 * panel) (hzb : zb.length = T) :
    (crossLine pb zb h panel T row).length = 3 * T := by
  have hband : row / h < 4 := (Nat.div_lt_iff_lt_mul hh).2 hrow
  have fb := fun idx hi => face_bound h panel T row idx hh hpanel hi
  have hcases : row / h = 0 ∨ row / h = 1 ∨ row / h = 2 ∨ row / h = 3 := by
    generalize row / h = q at hband
    omega
  unfold crossLine
  rcases hcases with hb | hb | hb | hb <;> simp only [hb, List.length_append]
  · rw [length_slice pb _ _ (by have := fb 2 (by omega); omega)]; omega
  · rw [length_slice pb _ _ (by have := fb 1 (by omega); omega),
      length_slice pb _ _ (by have := fb 4 (by omega); omega),
      length_slice pb _ _ (by have := fb 0 (by omega); omega)]; omega
  · rw [length_slice pb _ _ (by have := fb 3 (by omega); omega)]; omega
  · rw [length_slice pb _ _ (by have := fb 5 (by omega); omega)]; omega

/-- The buffers of a cube map export with in-range sizes: the readback
succeeds, the reordering leaves the buffer as it is, and face `i` of the
canonical order lies in the bytes `[i * panel, (i + 1) * panel)`. -/
theorem cube_buffers (hp alpha : Bool) (env : Env) (depth : Int) (w h P : Nat)
    (hPs : pixelSize hp alpha = (P : Int)) (hfit : 6 * (h * w * P) < 2147483648)
    (htex : ∀ i : Nat, i < 6 →
      (env.texImage (GL_TEXTURE_BINDING_CUBE_MAP + 1 + (i : Int))).length = h * w * P) :
    ∃ rb, readbackBuffer hp alpha env GL_TEXTURE_CUBE_MAP (w : Int) (h : Int) depth = some rb ∧
      reorderedBuffer hp alpha env GL_TEXTURE_CUBE_MAP (w : Int) (h : Int) depth = some rb ∧
      rb.length = 6 * (h * w * P) ∧
      ∀ i j : Nat, i < 6 → j < h * w * P →
        rb[i * (h * w * P) + j]?
          = (env.texImage (GL_TEXTURE_BINDING_CUBE_MAP + 1 + (i : Int)))[j]? := by
  have hB := bufferSize_cube_natCast hp alpha depth w h P hPs hfit
  have hPn := panelSize_natCast hp alpha w h P hPs (by omega)
  obtain ⟨rb, hrb, hlen, hI⟩ := readback_cube env (h * w * P)
    ((List.range (6 * (h * w * P))).map env.freshPixel) (by simp) hfit htex
  have hrb' : readbackBuffer hp alpha env GL_TEXTURE_CUBE_MAP (w : Int) (h : Int) depth
      = some rb := by
    unfold readbackBuffer
    rw [hB, alloc_natCast, hPn, Option.some_bind]
    exact hrb
  refine ⟨rb, hrb', ?_, hlen, hI⟩
  unfold reorderedBuffer
  rw [hrb', hB, alloc_natCast, Option.some_bind, Option.some_bind]
  unfold reorder
  rw [if_neg (by decide)]

/-- The scanline loop of the cube map path, on in-range sizes. -/
theorem scanlineLoop_cube (env : Env) (w h P : Nat) (hw : 0 < w) (hh : 0 < h) (hP : 0 < P)
    (hfit : 6 * (h * w * P) < 2147483648) (pb : List byte) (hpb : pb.length = 6 * (h * w * P)) :
    scanlineLoop env.writeOk (w * 3 * P)
        (cubeRow pb ((List.range (w * P)).map env.freshZero) (h : Int) ((h * w * P : Nat) : Int)
          ((w * P : Nat) : Int))
        (h * 4) 0 ((List.range (w * 3 * P)).map env.freshBuf)
      = some (scanlineWrites env.writeOk
          (crossLine pb ((List.range (w * P)).map env.freshZero) h (h * w * P) (w * P))
          (h * 4) 0) := by
  have hwP : 0 < w * P := Nat.mul_pos hw hP
  have e1 : h * w * P = h * (w * P) := Nat.mul_assoc _ _ _
  have e2 : w * 3 * P = 3 * (w * P) := by ring
  have b2 : h ≤ h * (w * P) := Nat.le_mul_of_pos_right _ hwP
  apply scanlineLoop_spec env.writeOk (w * 3 * P) _ _ (h * 4) 0 _ (by simp)
  · intro r b _ hr hb
    exact cubeRow_natCast pb _ b h (h * w * P) (w * P) r hh (by omega) (by omega) (by omega)
      (by omega) hpb (by simp) (by omega)
  · intro r _ hr
    rw [length_crossLine pb _ h (h * w * P) (w * P) r hh (by omega) (by omega) hpb (by simp)]
    omega

theorem cube_sizes_bound (w h P : Nat) (hw : 0 < w) (hh : 0 < h) (hP : 0 < P)
    (hfit : 6 * (h * w * P) < 2147483648) :
    h * w * P < 2147483648 ∧ w * 3 < 2147483648 ∧ h * 4 < 2147483648 ∧
      w * 3 * P < 2147483648 := by
  have hwP : 0 < w * P := Nat.mul_pos hw hP
  have e1 : h * w * P = h * (w * P) := Nat.mul_assoc _ _ _
  have e2 : w * 3 * P = 3 * (w * P) := by ring
  have b1 : w * P ≤ h * (w * P) := Nat.le_mul_of_pos_left _ hh
  have b2 : h ≤ h * (w * P) := Nat.le_mul_of_pos_right _ hwP
  have b3 : w ≤ w * P := Nat.le_mul_of_pos_right _ hP
  omega

/-- The encoder once the file opens, the row buffer exists and the scanline
loop is defined. -/
theorem encodeTIF_of (hp alpha : Bool) (env : Env) (path : String)
    (textureType width height depth : Int) (trace : List Event) (pb buf : List byte)
    (writes : List Event) (hopen : env.openOk = true)
    (hB : rowBuffer env (scanlineSize hp alpha (outputWidth textureType width depth))
      (linebytes hp alpha textureType width depth) = some buf)
    (hW : writeScanlines hp alpha env textureType width height depth pb buf = some writes) :
    encodeTIF hp alpha env path textureType width height depth trace pb
      = Outcome.returned (trace ++
          (Event.TIFFOpen path true :: headerEvents hp alpha (outputWidth textureType width depth)
            (outputHeight textureType height)) ++
          [Event.TIFFSetField TIFFTAG_ROWSPERSTRIP
            (TIFFDefaultStripSize (scanlineSize hp alpha (outputWidth textureType width depth))
              (imul width (sampleperpixel alpha)))] ++
          writes ++ [Event.TIFFClose]) := by
  unfold encodeTIF
  simp only [hopen, if_true, hB, hW]

/-- The encoder on a cube map with in-range sizes and a file that opens: it
returns, and the trace is the header followed by the scanline writes of the
rows of the cross layout. -/
theorem encodeTIF_cube (hp alpha : Bool) (env : Env) (path : String) (depth : Int)
    (w h P : Nat) (hPs : pixelSize hp alpha = (P : Int)) (hw : 0 < w) (hh : 0 < h)
    (hfit : 6 * (h * w * P) < 2147483648) (hopen : env.openOk = true)
    (trace : List Event) (pb : List byte) (hpb : pb.length = 6 * (h * w * P)) :
    encodeTIF hp alpha env path GL_TEXTURE_CUBE_MAP (w : Int) (h : Int) depth trace pb
      = Outcome.returned (trace ++
          (Event.TIFFOpen path true :: headerEvents hp alpha ((w * 3 : Nat) : Int)
            ((h * 4 : Nat) : Int)) ++
          [Event.TIFFSetField TIFFTAG_ROWSPERSTRIP
            (TIFFDefaultStripSize (w * 3 * P) (imul (w : Int) (sampleperpixel alpha)))] ++
          scanlineWrites env.writeOk
            (crossLine pb ((List.range (w * P)).map env.freshZero) h (h * w * P) (w * P))
            (h * 4) 0 ++
          [Event.TIFFClose]) := by
  have hP : 0 < P := by have := pixelSize_pos hp alpha; omega
  obtain ⟨c1, c2, c3, c4⟩ := cube_sizes_bound w h P hw hh hP hfit
  have hloop := scanlineLoop_cube env w h P hw hh hP hfit pb hpb
  have eT : toUInt32 ((h * 4 : Nat) : Int) = h * 4 := toUInt32_natCast (h * 4) (by omega)
  have eS : scanlineSize hp alpha ((w * 3 : Nat) : Int) = w * 3 * P :=
    scanlineSize_natCast hp alpha (w * 3) P hPs (by omega)
  have eB : rowBuffer env (w * 3 * P) ((w * 3 * P : Nat) : Int)
      = some ((List.range (w * 3 * P)).map env.freshBuf) := by
    unfold rowBuffer
    rw [if_neg (by omega), alloc_natCast]
  have eW := outputWidth_cube depth w c2
  have eH := outputHeight_cube h c3
  have eL := linebytes_cube hp alpha depth w P hPs c4
  have ePn := panelSize_natCast hp alpha w h P hPs c1
  have eWr : writeScanlines hp alpha env GL_TEXTURE_CUBE_MAP (w : Int) (h : Int) depth pb
        ((List.range (w * 3 * P)).map env.freshBuf)
      = some (scanlineWrites env.writeOk
          (crossLine pb ((List.range (w * P)).map env.freshZero) h (h * w * P) (w * P))
          (h * 4) 0) := by
    unfold writeScanlines thirdBytes
    rewrite [if_pos rfl, eL, third_natCast, alloc_natCast, Option.some_bind, eW, eH, eS, ePn, eT]
    exact hloop
  have hB : rowBuffer env (scanlineSize hp alpha (outputWidth GL_TEXTURE_CUBE_MAP (w : Int) depth))
      (linebytes hp alpha GL_TEXTURE_CUBE_MAP (w : Int) depth)
      = some ((List.range (w * 3 * P)).map env.freshBuf) := by
    rewrite [eW, eS, eL]
    exact eB
  have hrun := encodeTIF_of hp alpha env path GL_TEXTURE_CUBE_MAP (w : Int) (h : Int) depth trace pb
    _ _ hopen hB eWr
  rewrite [eW, eH, eS] at hrun
  exact hrun

/-- The export of a cube map with in-range sizes and a file that opens: the
call returns, and its trace is the six readbacks, the header and the scanline
writes of the rows of the cross layout. -/
theorem SaveTextureAt_cube (hp alpha : Bool) (env : Env) (path : String) (texture : Nat)
    (depth : Int) (w h P : Nat) (hPs : pixelSize hp alpha = (P : Int)) (hw : 0 < w) (hh : 0 < h)
    (hfit : 6 * (h * w * P) < 2147483648) (hopen : env.openOk = true)
    (rb : List byte)
    (hrb : readbackBuffer hp alpha env GL_TEXTURE_CUBE_MAP (w : Int) (h : Int) depth = some rb)
    (hout : reorderedBuffer hp alpha env GL_TEXTURE_CUBE_MAP (w : Int) (h : Int) depth = some rb)
    (hlen : rb.length = 6 * (h * w * P)) :
    SaveTextureAt hp env path texture GL_TEXTURE_CUBE_MAP alpha (w : Int) (h : Int) depth
        SaveFormat.TIF
      = Outcome.returned (readbackTrace hp alpha texture GL_TEXTURE_CUBE_MAP (w : Int) (h : Int) ++
          (Event.TIFFOpen path true :: headerEvents hp alpha ((w * 3 : Nat) : Int)
            ((h * 4 : Nat) : Int)) ++
          [Event.TIFFSetField TIFFTAG_ROWSPERSTRIP
            (TIFFDefaultStripSize (w * 3 * P) (imul (w : Int) (sampleperpixel alpha)))] ++
          scanlineWrites env.writeOk
            (crossLine rb ((List.range (w * P)).map env.freshZero) h (h * w * P) (w * P))
            (h * 4) 0 ++
          [Event.TIFFClose]) := by
  rewrite [SaveTextureAt_of_buffers hp env path texture GL_TEXTURE_CUBE_MAP alpha _ _ depth
    SaveFormat.TIF _ _ _ (bufferSize_cube_natCast hp alpha depth w h P hPs hfit) hrb hout]
  exact encodeTIF_cube hp alpha env path depth w h P hPs hw hh hfit hopen _ _ hlen

theorem slice_thirds (A B C : List byte) (T : Nat) (hA : A.length = T) (hB : B.length = T)
    (hC : C.length = T) :
    slice (A ++ B ++ C) 0 T = A ∧ slice (A ++ B ++ C) T T = B ∧
      slice (A ++ B ++ C) (2 * T) T = C := by
  subst hA
  unfold slice
  refine ⟨?_, ?_, ?_⟩
  · simp [List.take_append_eq_append_take]
  · simp [List.take_append_eq_append_take, List.drop_append_eq_append_drop, hB]
  · have d : List.drop (A.length + A.length) A = [] := List.drop_eq_nil_of_le (by omega)
    have t : List.take A.length C = C := List.take_of_length_le (by omega)
    simp [List.take_append_eq_append_take, List.drop_append_eq_append_drop, hB, two_mul, d, t]

/-- The three thirds of a row of the cross layout: the middle third is a face
line in every band, the outer thirds are face lines in band 1 and the blank
buffer in every other band. -/
theorem crossLine_thirds (pb zb : List byte) (h panel T row : Nat) (hh : 0 < h)
    (hpanel : h * T ≤ panel)
    (hpb : pb.length = 6 * panel) (hzb : zb.length = T) :
    (row / h = 0 →
      slice (crossLine pb zb h panel T row) 0 T = zb ∧
      slice (crossLine pb zb h panel T row) T T = slice pb (2 * panel + row % h * T) T ∧
      slice (crossLine pb zb h panel T row) (2 * T) T = zb) ∧
    (row / h = 1 →
      slice (crossLine pb zb h panel T row) 0 T = slice pb (1 * panel + row % h * T) T ∧
      slice (crossLine pb zb h panel T row) T T = slice pb (4 * panel + row % h * T) T ∧
      slice (crossLine pb zb h panel T row) (2 * T) T = slice pb (0 * panel + row % h * T) T) ∧
    (row / h = 2 →
      slice (crossLine pb zb h panel T row) 0 T = zb ∧
      slice (crossLine pb zb h panel T row) T T = slice pb (3 * panel + row % h * T) T ∧
      slice (crossLine pb zb h panel T row) (2 * T) T = zb) ∧
    (row / h = 3 →
      slice (crossLine pb zb h panel T row) 0 T = zb ∧
      slice (crossLine pb zb h panel T row) T T = slice pb (5 * panel + row % h * T) T ∧
      slice (crossLine pb zb h panel T row) (2 * T) T = zb) := by
  have fb := fun idx hi => face_bound h panel T row idx hh hpanel hi
  have fl := fun idx (hi : idx < 6) =>
    length_slice pb (idx * panel + row % h * T) T (by have := fb idx hi; omega)
  refine ⟨?_, ?_, ?_, ?_⟩ <;> intro hb <;> unfold crossLine <;> simp only [hb]
  · exact slice_thirds _ _ _ T hzb (fl 2 (by omega)) hzb
  · exact slice_thirds _ _ _ T (fl 1 (by omega)) (fl 4 (by omega)) (fl 0 (by omega))
  · exact slice_thirds _ _ _ T hzb (fl 3 (by omega)) hzb
  · exact slice_thirds _ _ _ T hzb (fl 5 (by omega)) hzb

/-- A range of the readback buffer inside the panel of one face is the same
range of the image of that face. -/
theorem face_slice (rb tex : List byte) (i panel off T : Nat)
    (hI : ∀ j, j < panel → rb[i * panel + j]? = tex[j]?) (hoff : off + T ≤ panel) :
    slice rb (i * panel + off) T = slice tex off T := by
  rw [slice_eq_iff]
  intro j hj
  rw [Nat.add_assoc]
  exact hI (off + j) (by omega)

theorem cubeFace_index (i : Nat) (hi : i < 6) :
    GL_TEXTURE_BINDING_CUBE_MAP + 1 + (i : Int) ∈ cubeFaces := by
  interval_cases i <;> decide

/-- The export of a cube map with in-range sizes, face images of the declared
size and a file that opens: the readback buffer holds the six faces in
canonical order and the trace ends with the rows of the cross layout. -/
theorem cube_export (hp alpha : Bool) (env : Env) (path : String) (texture : Nat)
    (depth : Int) (w h P : Nat) (hPs : pixelSize hp alpha = (P : Int)) (hw : 0 < w) (hh : 0 < h)
    (hfit : 6 * (h * w * P) < 2147483648) (hopen : env.openOk = true)
    (htex : ∀ f, f ∈ cubeFaces → (env.texImage f).length = h * w * P) :
    ∃ rb, rb.length = 6 * (h * w * P) ∧
      (∀ i j : Nat, i < 6 → j < h * w * P →
        rb[i * (h * w * P) + j]?
          = (env.texImage (GL_TEXTURE_BINDING_CUBE_MAP + 1 + (i : Int)))[j]?) ∧
      readbackBuffer hp alpha env GL_TEXTURE_CUBE_MAP (w : Int) (h : Int) depth = some rb ∧
      reorderedBuffer hp alpha env GL_TEXTURE_CUBE_MAP (w : Int) (h : Int) depth = some rb ∧
      SaveTextureAt hp env path texture GL_TEXTURE_CUBE_MAP alpha (w : Int) (h : Int) depth
          SaveFormat.TIF
        = Outcome.returned
          (readbackTrace hp alpha texture GL_TEXTURE_CUBE_MAP (w : Int) (h : Int) ++
          (Event.TIFFOpen path true :: headerEvents hp alpha ((w * 3 : Nat) : Int)
            ((h * 4 : Nat) : Int)) ++
          [Event.TIFFSetField TIFFTAG_ROWSPERSTRIP
            (TIFFDefaultStripSize (w * 3 * P) (imul (w : Int) (sampleperpixel alpha)))] ++
          scanlineWrites env.writeOk
            (crossLine rb ((List.range (w * P)).map env.freshZero) h (h * w * P) (w * P))
            (h * 4) 0 ++
          [Event.TIFFClose]) := by
  obtain ⟨rb, hrb, hout, hlen, hI⟩ := cube_buffers hp alpha env depth w h P hPs hfit
    (fun i hi => htex _ (cubeFace_index i hi))
  exact ⟨rb, hlen, hI, hrb, hout,
    SaveTextureAt_cube hp alpha env path texture depth w h P hPs hw hh hfit hopen rb hrb hout hlen⟩

/-- The rows of the cross layout in terms of the face images. -/
theorem crossLine_faces (env : Env) (rb zb : List byte) (h panel T r : Nat) (hh : 0 < h)
    (hr : r < 4 * h) (hpanel : h * T ≤ panel) (hlen : rb.length = 6 * panel)
    (hzb : zb.length = T)
    (hI : ∀ i j : Nat, i < 6 → j < panel →
      rb[i * panel + j]? = (env.texImage (GL_TEXTURE_BINDING_CUBE_MAP + 1 + (i : Int)))[j]?) :
    (crossLine rb zb h panel T r).length = 3 * T ∧
    (r / h = 0 →
      slice (crossLine rb zb h panel T r) 0 T = zb ∧
      slice (crossLine rb zb h panel T r) T T
        = slice (env.texImage GL_TEXTURE_CUBE_MAP_POSITIVE_Y) (r % h * T) T ∧
      slice (crossLine rb zb h panel T r) (2 * T) T = zb) ∧
    (r / h = 1 →
      slice (crossLine rb zb h panel T r) 0 T
        = slice (env.texImage GL_TEXTURE_CUBE_MAP_NEGATIVE_X) (r % h * T) T ∧
      slice (crossLine rb zb h panel T r) T T
        = slice (env.texImage GL_TEXTURE_CUBE_MAP_POSITIVE_Z) (r % h * T) T ∧
      slice (crossLine rb zb h panel T r) (2 * T) T
        = slice (env.texImage GL_TEXTURE_CUBE_MAP_POSITIVE_X) (r % h * T) T) ∧
    (r / h = 2 →
      slice (crossLine rb zb h panel T r) 0 T = zb ∧
      slice (crossLine rb zb h panel T r) T T
        = slice (env.texImage GL_TEXTURE_CUBE_MAP_NEGATIVE_Y) (r % h * T) T ∧
      slice (crossLine rb zb h panel T r) (2 * T) T = zb) ∧
    (r / h = 3 →
      slice (crossLine rb zb h panel T r) 0 T = zb ∧
      slice (crossLine rb zb h panel T r) T T
        = slice (env.texImage GL_TEXTURE_CUBE_MAP_NEGATIVE_Z) (r % h * T) T ∧
      slice (crossLine rb zb h panel T r) (2 * T) T = zb) := by
  have hb := rows_bound h T (r % h) (Nat.mod_lt _ hh)
  have hoff : r % h * T + T ≤ panel := by omega
  have fs : ∀ i : Nat, i < 6 → slice rb (i * panel + r % h * T) T
      = slice (env.texImage (GL_TEXTURE_BINDING_CUBE_MAP + 1 + (i : Int))) (r % h * T) T :=
    fun i hi => face_slice rb _ i panel _ T (fun j hj => hI i j hi hj) hoff
  obtain ⟨t0, t1, t2, t3⟩ := crossLine_thirds rb zb h panel T r hh hpanel hlen hzb
  refine ⟨length_crossLine rb zb h panel T r hh hr hpanel hlen hzb, ?_, ?_, ?_, ?_⟩
  · intro hb
    obtain ⟨a, b, c⟩ := t0 hb
    exact ⟨a, b.trans (fs 2 (by omega)), c⟩
  · intro hb
    obtain ⟨a, b, c⟩ := t1 hb
    exact ⟨a.trans (fs 1 (by omega)), b.trans (fs 4 (by omega)), c.trans (fs 0 (by omega))⟩
  · intro hb
    obtain ⟨a, b, c⟩ := t2 hb
    exact ⟨a, b.trans (fs 3 (by omega)), c⟩
  · intro hb
    obtain ⟨a, b, c⟩ := t3 hb
    exact ⟨a, b.trans (fs 5 (by omega)), c⟩

/-! ## Integer overflow and the unimplemented format -/

theorem wrapInt_eq_add (x : Int) : ∃ k : Int, wrapInt x = x + 4294967296 * k :=
  ⟨-((x + 2147483648) / 4294967296), by unfold wrapInt; omega⟩

theorem wrapInt_add_mul (x k : Int) : wrapInt (x + 4294967296 * k) = wrapInt x := by
  unfold wrapInt; omega

theorem wrapInt_mul_left (a b : Int) : wrapInt (wrapInt a * b) = wrapInt (a * b) := by
  obtain ⟨k, hk⟩ := wrapInt_eq_add a
  have e : (a + 4294967296 * k) * b = a * b + 4294967296 * (k * b) := by ring
  rw [hk, e, wrapInt_add_mul]

theorem wrapInt_mul_right (a b : Int) : wrapInt (a * wrapInt b) = wrapInt (a * b) := by
  rw [Int.mul_comm, wrapInt_mul_left, Int.mul_comm]

theorem wrapInt_wrapInt (a : Int) : wrapInt (wrapInt a) = wrapInt a := by
  have := wrapInt_mul_left a 1
  simpa using this

/-- The computed buffer size is the product of the specification reduced to
the range of an `int`. -/
theorem bufferSize_eq_wrap (hp alpha : Bool) (textureType width height depth : Int) :
    bufferSize hp alpha textureType width height depth
      = wrapInt (bufferSizeSpec hp alpha textureType width height depth) := by
  unfold bufferSize panelSize pixelSize bufferSizeSpec faceCount imul
  by_cases h : textureType = GL_TEXTURE_CUBE_MAP
  · rw [if_pos h, if_pos h]
    simp only [wrapInt_mul_left, wrapInt_mul_right]
    congr 1
    ring
  · rw [if_neg h, if_neg h]
    simp only [wrapInt_mul_left, wrapInt_mul_right]
    congr 1
    ring

theorem bufferSize_eq_panel (hp alpha : Bool) (textureType width height depth : Int) :
    bufferSize hp alpha textureType width height depth
      = wrapInt (panelSize hp alpha width height * effectiveDepth textureType depth *
          faceCount textureType) := by
  unfold bufferSize faceCount imul
  by_cases h : textureType = GL_TEXTURE_CUBE_MAP
  · rw [if_pos h, if_pos h, wrapInt_mul_left]
  · rw [if_neg h, if_neg h, Int.mul_one]

theorem effectiveDepth_volumeDepth (textureType : Int) (depth : Nat) :
    effectiveDepth textureType (depth : Int) = ((volumeDepth textureType depth : Nat) : Int) := by
  unfold effectiveDepth volumeDepth
  by_cases h : textureType = GL_TEXTURE_3D
  · simp [h]
  · simp [h]

theorem volumeDepth_pos (textureType : Int) (depth : Nat) (hd : 0 < depth) :
    0 < volumeDepth textureType depth := by
  unfold volumeDepth
  split <;> omega

theorem linebytes_standard (hp alpha : Bool) (textureType depth : Int) (w D P : Nat)
    (hPs : pixelSize hp alpha = (P : Int))
    (htt : textureType ≠ GL_TEXTURE_CUBE_MAP) (hD : effectiveDepth textureType depth = (D : Int))
    (hfit : w * D * P < 2147483648) :
    linebytes hp alpha textureType (w : Int) depth = ((w * D * P : Nat) : Int) := by
  have hP : 0 < P := by have := pixelSize_pos hp alpha; omega
  have b1 : w * D ≤ w * D * P := Nat.le_mul_of_pos_right _ hP
  unfold linebytes
  rw [outputWidth_standard textureType depth w D htt hD (by omega), hPs,
    imul_natCast P (w * D) (by rw [Nat.mul_comm]; omega), Nat.mul_comm]

/-- The export of a texture that is not a cube map, with in-range sizes, an
image of the declared size and a file that opens. -/
theorem standard_export (hp alpha : Bool) (env : Env) (path : String) (texture : Nat)
    (textureType depth : Int) (w h D P : Nat)
    (hPs : pixelSize hp alpha = (P : Int)) (htt : textureType ≠ GL_TEXTURE_CUBE_MAP)
    (hD : effectiveDepth textureType depth = (D : Int)) (hw : 0 < w) (hh : 0 < h) (hD0 : 0 < D)
    (hfit : h * (w * P) * D < 2147483648) (hopen : env.openOk = true)
    (htex : (env.texImage textureType).length = h * (w * P) * D) :
    ∃ out, readbackBuffer hp alpha env textureType (w : Int) (h : Int) depth
        = some (env.texImage textureType) ∧
      reorderedBuffer hp alpha env textureType (w : Int) (h : Int) depth = some out ∧
      out.length = h * (w * P) * D ∧
      (textureType ≠ GL_TEXTURE_3D → out = env.texImage textureType) ∧
      SaveTextureAt hp env path texture textureType alpha (w : Int) (h : Int) depth SaveFormat.TIF
        = Outcome.returned (readbackTrace hp alpha texture textureType (w : Int) (h : Int) ++
          (Event.TIFFOpen path true :: headerEvents hp alpha ((w * D : Nat) : Int) (h : Int)) ++
          [Event.TIFFSetField TIFFTAG_ROWSPERSTRIP
            (TIFFDefaultStripSize (w * D * P) (imul (w : Int) (sampleperpixel alpha)))] ++
          scanlineWrites env.writeOk (fun r => slice out (r * (w * D * P)) (w * D * P)) h 0 ++
          [Event.TIFFClose]) := by
  obtain ⟨hrb, out, hout, hlen, hne, _⟩ :=
    standard_buffers hp alpha env textureType depth w h D P hPs htt hD hh hD0 hfit htex
  exact ⟨out, hrb, hout, hlen, hne,
    SaveTextureAt_standard hp alpha env path texture textureType depth w h D P hPs htt hD hw hh
      hD0 hfit hopen htex out hout⟩

theorem readbacks_append (a b : List Event) : readbacks (a ++ b) = readbacks a ++ readbacks b := by
  unfold readbacks
  exact List.filterMap_append _ _ _

theorem readbacks_scanlineWrites (writeOk : Nat → Bool) (line : Nat → List byte)
    (fuel row0 : Nat) : readbacks (scanlineWrites writeOk line fuel row0) = [] := by
  unfold readbacks
  induction fuel generalizing row0 with
  | zero => rfl
  | succ k ih =>
    rw [scanlineWrites]
    split
    · simp [Event.readback, ih]
    · simp [Event.readback]

/-- The readbacks of the trace of a completed export are those of its first part. -/
theorem readbacks_trace (pre : List Event) (path : String) (hp alpha : Bool) (W H v : Int)
    (writeOk : Nat → Bool) (line : Nat → List byte) (n : Nat) :
    readbacks (pre ++ (Event.TIFFOpen path true :: headerEvents hp alpha W H) ++
        [Event.TIFFSetField TIFFTAG_ROWSPERSTRIP v] ++
        scanlineWrites writeOk line n 0 ++ [Event.TIFFClose]) = readbacks pre := by
  rw [readbacks_append, readbacks_append, readbacks_append, readbacks_append,
    readbacks_scanlineWrites]
  simp [readbacks, headerEvents, Event.readback]

theorem readbacks_readbackTrace_single (hp alpha : Bool) (texture : Nat)
    (textureType width height : Int) (htt : textureType ≠ GL_TEXTURE_CUBE_MAP) :
    readbacks (readbackTrace hp alpha texture textureType width height) = [(textureType, 0)] := by
  unfold readbackTrace readbackEvents
  rw [if_neg htt]
  rfl

theorem readbacks_readbackTrace_cube (hp alpha : Bool) (texture : Nat) (w h P : Nat)
    (hPs : pixelSize hp alpha = (P : Int)) (hfit : 6 * (h * w * P) < 2147483648) :
    readbacks (readbackTrace hp alpha texture GL_TEXTURE_CUBE_MAP (w : Int) (h : Int))
      = [(GL_TEXTURE_CUBE_MAP_POSITIVE_X, ((0 * (h * w * P) : Nat) : Int)),
         (GL_TEXTURE_CUBE_MAP_NEGATIVE_X, ((1 * (h * w * P) : Nat) : Int)),
         (GL_TEXTURE_CUBE_MAP_POSITIVE_Y, ((2 * (h * w * P) : Nat) : Int)),
         (GL_TEXTURE_CUBE_MAP_NEGATIVE_Y, ((3 * (h * w * P) : Nat) : Int)),
         (GL_TEXTURE_CUBE_MAP_POSITIVE_Z, ((4 * (h * w * P) : Nat) : Int)),
         (GL_TEXTURE_CUBE_MAP_NEGATIVE_Z, ((5 * (h * w * P) : Nat) : Int))] := by
  have e : ∀ i : Nat, i < 6 →
      imul (((h * w * P : Nat) : Int)) (i : Int) = ((i * (h * w * P) : Nat) : Int) := by
    intro i hi
    rw [imul_natCast _ _ (by have := rows_bound 6 (h * w * P) i hi; rw [Nat.mul_comm]; omega),
      Nat.mul_comm]
  have hPn := panelSize_natCast hp alpha w h P hPs (by omega)
  have e0 : imul (((h * w * P : Nat) : Int)) 0 = ((0 * (h * w * P) : Nat) : Int) :=
    e 0 (by omega)
  have e1 : imul (((h * w * P : Nat) : Int)) 1 = ((1 * (h * w * P) : Nat) : Int) :=
    e 1 (by omega)
  have e2 : imul (((h * w * P : Nat) : Int)) 2 = ((2 * (h * w * P) : Nat) : Int) :=
    e 2 (by omega)
  have e3 : imul (((h * w * P : Nat) : Int)) 3 = ((3 * (h * w * P) : Nat) : Int) :=
    e 3 (by omega)
  have e4 : imul (((h * w * P : Nat) : Int)) 4 = ((4 * (h * w * P) : Nat) : Int) :=
    e 4 (by omega)
  have e5 : imul (((h * w * P : Nat) : Int)) 5 = ((5 * (h * w * P) : Nat) : Int) :=
    e 5 (by omega)
  unfold readbackTrace readbackEvents readbacks
  rewrite [if_pos rfl, hPn]
  show List.filterMap Event.readback (_ :: List.map _ [0, 1, 2, 3, 4, 5]) = _
  simp only [List.map, List.filterMap, Event.readback]
  rewrite [e0, e1, e2, e3, e4, e5]
  rfl

theorem header_scanline (hp alpha : Bool) (N : Nat) :
    (N : Int) * sampleperpixel alpha * imul (channelSize hp) 8 / 8
      = ((N * pixelBytes hp alpha : Nat) : Int) := by
  cases hp <;> cases alpha
  · have e1 : sampleperpixel false = 3 := rfl
    have e2 : imul (channelSize false) 8 = 32 := by decide
    have e3 : pixelBytes false false = 12 := by decide
    rw [e1, e2, e3]; omega
  · have e1 : sampleperpixel true = 4 := rfl
    have e2 : imul (channelSize false) 8 = 32 := by decide
    have e3 : pixelBytes false true = 16 := by decide
    rw [e1, e2, e3]; omega
  · have e1 : sampleperpixel false = 3 := rfl
    have e2 : imul (channelSize true) 8 = 16 := by decide
    have e3 : pixelBytes true false = 6 := by decide
    rw [e1, e2, e3]; omega
  · have e1 : sampleperpixel true = 4 := rfl
    have e2 : imul (channelSize true) 8 = 16 := by decide
    have e3 : pixelBytes true true = 8 := by decide
    rw [e1, e2, e3]; omega

theorem bitsPerSample_cases (hp : Bool) :
    imul (channelSize hp) 8 = 8 * channelSize hp ∧
      imul (channelSize hp) 8 = (if hp then 16 else 32) := by
  cases hp <;> decide

theorem cubeFace_offset (i : Nat) :
    GL_TEXTURE_BINDING_CUBE_MAP + 1 + (i : Int) = GL_TEXTURE_CUBE_MAP_POSITIVE_X + (i : Int) := by
  unfold GL_TEXTURE_BINDING_CUBE_MAP GL_TEXTURE_CUBE_MAP_POSITIVE_X
  omega

theorem region_unique (panel b : Nat) (hb : b < 6 * panel) :
    ∃! i, i < 6 ∧ i * panel ≤ b ∧ b < i * panel + panel := by
  have hp : 0 < panel := by omega
  have h6 : b / panel < 6 := (Nat.div_lt_iff_lt_mul hp).2 hb
  have hm := (mem_slot_iff panel (b / panel) b hp).2 rfl
  refine ⟨b / panel, ⟨h6, hm.1, hm.2⟩, ?_⟩
  rintro j ⟨_, h1, h2⟩
  exact ((mem_slot_iff panel j b hp).1 ⟨h1, h2⟩).symm

/-! ## Failures of the raster library -/

/-- The writes of a scanline loop whose first failing write is that of row `r`. -/
theorem scanlineWrites_fail (writeOk : Nat → Bool) (line : Nat → List byte) (fuel row0 r : Nat)
    (hr0 : row0 ≤ r) (hr1 : r < row0 + fuel)
    (hok : ∀ q, row0 ≤ q → q < r → writeOk q = true) (hfail : writeOk r = false) :
    scanlineWrites writeOk line fuel row0
      = (List.range' row0 (r - row0)).map (fun q => Event.TIFFWriteScanline (line q) q true) ++
          [Event.TIFFWriteScanline (line r) r false] := by
  induction fuel generalizing row0 with
  | zero => omega
  | succ k ih =>
    rw [scanlineWrites]
    by_cases he : row0 = r
    · subst he
      rw [if_neg (by rw [hfail]; decide), Nat.sub_self]
      rfl
    · have h1 : r - row0 = (r - (row0 + 1)) + 1 := by omega
      rw [if_pos (hok row0 (Nat.le_refl _) (by omega)),
        ih (row0 + 1) (by omega) (by omega) (fun q a b => hok q (by omega) b), h1]
      rfl

theorem writeAttempts_append (a b : List Event) :
    writeAttempts (a ++ b) = writeAttempts a ++ writeAttempts b := by
  unfold writeAttempts
  exact List.filterMap_append _ _ _

theorem writeAttempts_readbackTrace (hp alpha : Bool) (texture : Nat)
    (textureType width height : Int) :
    writeAttempts (readbackTrace hp alpha texture textureType width height) = [] := by
  unfold writeAttempts readbackTrace readbackEvents
  split <;> simp [Event.attempt, List.filterMap_map, List.range_succ]

/-- The write attempts of the trace of a completed export whose first failing
write is that of row `r`. -/
theorem writeAttempts_trace_fail (hp alpha : Bool) (path : String) (texture : Nat)
    (textureType width height W H v : Int)
    (writeOk : Nat → Bool) (line : Nat → List byte) (n r : Nat) (hr : r < n)
    (hok : ∀ q, q < r → writeOk q = true) (hfail : writeOk r = false) :
    writeAttempts (readbackTrace hp alpha texture textureType width height ++
        (Event.TIFFOpen path true :: headerEvents hp alpha W H) ++
        [Event.TIFFSetField TIFFTAG_ROWSPERSTRIP v] ++
        scanlineWrites writeOk line n 0 ++ [Event.TIFFClose])
      = (List.range r).map (fun q => (q, true)) ++ [(r, false)] := by
  rw [writeAttempts_append, writeAttempts_append, writeAttempts_append, writeAttempts_append,
    writeAttempts_readbackTrace,
    scanlineWrites_fail writeOk line n 0 r (Nat.zero_le _) (by omega) (fun q _ h => hok q h) hfail,
    Nat.sub_zero, ← List.range_eq_range']
  simp only [writeAttempts, headerEvents, List.filterMap_append, List.filterMap_map,
    List.filterMap_cons, List.filterMap_nil, Event.attempt, List.nil_append, List.append_nil]
  congr 1
  induction (List.range r) with
  | nil => rfl
  | cons a l ih => simp [Event.attempt, ih]

theorem encodeTIF_reported (hp alpha : Bool) (env : Env) (path : String)
    (textureType width height depth : Int) (trace : List Event) (pb : List byte) :
    (encodeTIF hp alpha env path textureType width height depth trace pb).reported = none := by
  unfold encodeTIF
  split
  · dsimp only
    split
    · rfl
    · split <;> rfl
  · rfl

/-- No call of `SaveTexture` reports an error kind of the specification. -/
theorem SaveTextureAt_reported (hp : Bool) (env : Env) (path : String) (texture : Nat)
    (textureType : Int) (alpha : Bool) (width height depth : Int) (format : SaveFormat) :
    (SaveTextureAt hp env path texture textureType alpha width height depth format).reported
      = none := by
  unfold SaveTextureAt
  rcases h1 : alloc env.freshPixel (bufferSize hp alpha textureType width height depth) with _ | a
  · simp only [h1]; rfl
  rcases h2 : alloc env.freshTemp (bufferSize hp alpha textureType width height depth) with _ | b
  · simp only [h1, h2]; rfl
  rcases h3 : readbackBuffer hp alpha env textureType width height depth with _ | c
  · simp only [h1, h2, h3]; rfl
  rcases h4 : reorderedBuffer hp alpha env textureType width height depth with _ | d
  · simp only [h1, h2, h3, h4]; rfl
  · simp only [h1, h2, h3, h4]
    cases format with
    | TIF => exact encodeTIF_reported _ _ _ _ _ _ _ _ _ _
    | EXR => rfl

theorem slots_unique (n L b : Nat) (hb : b < n * L) :
    ∃! k, k < n ∧ k * L ≤ b ∧ b < k * L + L := by
  have hL : 0 < L := by
    rcases Nat.eq_zero_or_pos L with h | h
    · subst h; simp at hb
    · exact h
  have hn : b / L < n := (Nat.div_lt_iff_lt_mul hL).2 hb
  have hm := (mem_slot_iff L (b / L) b hL).2 rfl
  refine ⟨b / L, ⟨hn, hm.1, hm.2⟩, ?_⟩
  rintro j ⟨_, h1, h2⟩
  exact ((mem_slot_iff L j b hL).1 ⟨h1, h2⟩).symm

theorem slot_lt (d h z y : Nat) (hz : z < d) (hy : y < h) : z + y * d < d * h := by
  have := Nat.mul_le_mul_right d (show y + 1 ≤ h by omega)
  rw [Nat.add_mul, Nat.one_mul, Nat.mul_comm h d] at this
  omega

theorem perm_map_range (n : Nat) (σ : Nat → Nat) (hlt : ∀ k, k < n → σ k < n)
    (hinj : ∀ k k', k < n → k' < n → σ k = σ k' → k = k') :
    List.Perm ((List.range n).map σ) (List.range n) := by
  have hnd : ((List.range n).map σ).Nodup := by
    apply List.Nodup.map_on _ (List.nodup_range n)
    intro a ha b hb hab
    exact hinj a b (List.mem_range.1 ha) (List.mem_range.1 hb) hab
  have hsub : (List.range n).map σ ⊆ List.range n := by
    intro x hx
    obtain ⟨k, hk, rfl⟩ := List.mem_map.1 hx
    exact List.mem_range.2 (hlt k (List.mem_range.1 hk))
  exact (List.subperm_of_subset hnd hsub).perm_of_length_le (by simp)

/-- The source slot of destination slot `k`: slice `k mod d`, row `k / d`. -/
theorem sourceSlot_lt (d h k : Nat) (hd : 0 < d) (hk : k < d * h) :
    k % d * h + k / d < d * h := by
  have h1 : k % d < d := Nat.mod_lt _ hd
  have h2 : k / d < h := (Nat.div_lt_iff_lt_mul hd).2 (by rw [Nat.mul_comm]; exact hk)
  have := slot_lt h d (k / d) (k % d) h2 h1
  rw [Nat.mul_comm h d] at this
  omega

theorem sourceSlot_inj (d h k k' : Nat) (hd : 0 < d) (hk : k < d * h) (hk' : k' < d * h)
    (e : k % d * h + k / d = k' % d * h + k' / d) : k = k' := by
  have h2 : k / d < h := (Nat.div_lt_iff_lt_mul hd).2 (by rw [Nat.mul_comm]; exact hk)
  have h2' : k' / d < h := (Nat.div_lt_iff_lt_mul hd).2 (by rw [Nat.mul_comm]; exact hk')
  have := (slot_eq_iff h (k' / d) (k' % d) (k / d) (k % d) h2' h2).1 (by omega)
  have a := Nat.mod_add_div k d
  have b := Nat.mod_add_div k' d
  rw [this.1, this.2] at a
  omega

/-- When every destination slot holds its source slot, the scanlines of the
reordered buffer are a permutation of those of the source buffer. -/
theorem scanlineSlots_perm (out rb : List byte) (d h L : Nat) (hd : 0 < d)
    (hI : ∀ z y j, z < d → y < h → j < L →
      out[(z + y * d) * L + j]? = rb[z * (h * L) + y * L + j]?) :
    List.Perm (scanlineSlots out (d * h) L) (scanlineSlots rb (d * h) L) := by
  have e : scanlineSlots out (d * h) L
      = ((List.range (d * h)).map (fun k => k % d * h + k / d)).map
          (fun k => slice rb (k * L) L) := by
    unfold scanlineSlots
    rw [List.map_map]
    apply List.map_congr_left
    intro k hk
    have hk' : k < d * h := List.mem_range.1 hk
    have h1 : k % d < d := Nat.mod_lt _ hd
    have h2 : k / d < h := (Nat.div_lt_iff_lt_mul hd).2 (by rw [Nat.mul_comm]; exact hk')
    have a := Nat.mod_add_div k d
    show slice out (k * L) L = slice rb ((k % d * h + k / d) * L) L
    rw [slice_eq_iff]
    intro j hj
    have e1 : k * L + j = (k % d + k / d * d) * L + j := by
      rw [Nat.mul_comm (k / d) d, a]
    have e2 : (k % d * h + k / d) * L + j = k % d * (h * L) + k / d * L + j := by ring
    rw [e1, e2]
    exact hI (k % d) (k / d) j h1 h2 hj
  rw [e]
  unfold scanlineSlots
  exact List.Perm.map _ (perm_map_range (d * h) _ (fun k hk => sourceSlot_lt d h k hd hk)
    (fun k k' hk hk' e => sourceSlot_inj d h k k' hd hk hk' e))

theorem lineStart_natCast (w h d P z y : Nat) (hz : z < d) (hy : y < h)
    (hfit : h * (w * P) * d < 2147483648) :
    srcLineSize (w : Int) (P : Int) = ((w * P : Nat) : Int) ∧
    srcLineStart (w : Int) (P : Int) ((h * w * P : Nat) : Int) (z : Int) (y : Int)
      = ((z * (w * h * P) + y * (w * P) : Nat) : Int) ∧
    destLineStart (w : Int) (d : Int) (P : Int) (z : Int) (y : Int)
      = ((z * (w * P) + y * (w * d * P) : Nat) : Int) := by
  have hs := volume_src_bound h (w * P) d z y hz hy
  have hd := volume_dst_bound h (w * P) d z y hz hy
  have e1 : h * w * P = h * (w * P) := Nat.mul_assoc h w P
  have e2 : w * d * P = d * (w * P) := by ring
  have e3 : (z + y * d) * (w * P) = z * (w * P) + y * (d * (w * P)) := by ring
  have e4 : w * h * P = h * (w * P) := by ring
  have b1 : w * P ≤ h * (w * P) * d := by
    have : 1 * (w * P) * 1 ≤ h * (w * P) * d :=
      Nat.mul_le_mul (Nat.mul_le_mul_right _ (by omega)) (by omega)
    omega
  have b2 : d * (w * P) ≤ h * (w * P) * d := by
    have : 1 * ((w * P) * d) ≤ h * ((w * P) * d) := Nat.mul_le_mul_right _ (by omega)
    have e : h * ((w * P) * d) = h * (w * P) * d := by ring
    have e' : (w * P) * d = d * (w * P) := by ring
    omega
  have c1 : w * P < 2147483648 := by omega
  have c2 : z * (w * P) < 2147483648 := by omega
  have c3 : y * (d * (w * P)) < 2147483648 := by omega
  have c4 : z * (h * (w * P)) < 2147483648 := by omega
  have c5 : y * (w * P) < 2147483648 := by omega
  have c6 : z * (w * P) + y * (d * (w * P)) < 2147483648 := by omega
  have c7 : z * (h * (w * P)) + y * (w * P) < 2147483648 := by omega
  have eD : imul (imul (w : Int) (d : Int)) (P : Int) = ((d * (w * P) : Nat) : Int) := by
    rcases Nat.eq_zero_or_pos P with h0 | h0
    · subst h0
      simp [imul, wrapInt]
    · have c8 : w * d ≤ w * d * P := Nat.le_mul_of_pos_right _ h0
      have c9 : w * d < 2147483648 := by omega
      have c10 : w * d * P < 2147483648 := by omega
      rw [imul_natCast w d c9, imul_natCast (w * d) P c10, e2]
  unfold srcLineStart destLineStart srcLineSize destLineSize panelWidth
  rewrite [eD, imul_natCast w P c1, e1, e2, e4, imul_natCast z (w * P) c2,
    imul_natCast y (d * (w * P)) c3, imul_natCast z (h * (w * P)) c4, imul_natCast y (w * P) c5,
    iadd_natCast _ _ c6, iadd_natCast _ _ c7]
  exact ⟨rfl, rfl, rfl⟩

/-- The loop body of the volume transform is the copy between the named line
starts. -/
theorem reorderVolume_lineStarts (width height depth pixelSize panelSize bufferSize : Int)
    (pixelbuffer tempbuffer : List byte) :
    reorderVolume width height depth pixelSize panelSize bufferSize pixelbuffer tempbuffer
      = (memcpy tempbuffer 0 pixelbuffer 0 bufferSize).bind fun tempbuffer =>
          forLoop depth.toNat (fun z pixelbuffer =>
            forLoop height.toNat (fun y pixelbuffer =>
              memcpy pixelbuffer (destLineStart width depth pixelSize (z : Int) (y : Int))
                tempbuffer (srcLineStart width pixelSize panelSize (z : Int) (y : Int))
                (srcLineSize width pixelSize)) pixelbuffer) pixelbuffer :=
  rfl

/-! ## The bounds of the copies -/

/-- Every copy of the volume transform stays inside its buffer. -/
theorem volume_copies_in_bounds (hp alpha : Bool) (w h d P : Nat)
    (hPs : pixelSize hp alpha = (P : Int)) (hh : 0 < h) (hd : 0 < d)
    (hfit : h * (w * P) * d < 2147483648) :
    (∀ z y : Nat, z < d → y < h →
      0 ≤ srcLineStart (w : Int) (pixelSize hp alpha) (panelSize hp alpha (w : Int) (h : Int))
          (z : Int) (y : Int) ∧
      srcLineStart (w : Int) (pixelSize hp alpha) (panelSize hp alpha (w : Int) (h : Int))
          (z : Int) (y : Int) + srcLineSize (w : Int) (pixelSize hp alpha)
        ≤ bufferSize hp alpha GL_TEXTURE_3D (w : Int) (h : Int) (d : Int) ∧
      0 ≤ destLineStart (w : Int) (d : Int) (pixelSize hp alpha) (z : Int) (y : Int) ∧
      destLineStart (w : Int) (d : Int) (pixelSize hp alpha) (z : Int) (y : Int)
          + srcLineSize (w : Int) (pixelSize hp alpha)
        ≤ bufferSize hp alpha GL_TEXTURE_3D (w : Int) (h : Int) (d : Int)) ∧
    ∀ pixelbuffer tempbuffer : List byte,
      (pixelbuffer.length : Int) = bufferSize hp alpha GL_TEXTURE_3D (w : Int) (h : Int) (d : Int) →
      (tempbuffer.length : Int) = bufferSize hp alpha GL_TEXTURE_3D (w : Int) (h : Int) (d : Int) →
      ∃ out, reorderVolume (w : Int) (h : Int) (d : Int) (pixelSize hp alpha)
          (panelSize hp alpha (w : Int) (h : Int))
          (bufferSize hp alpha GL_TEXTURE_3D (w : Int) (h : Int) (d : Int))
          pixelbuffer tempbuffer = some out ∧
        out.length = pixelbuffer.length := by
  have b0 : h * w * P = h * (w * P) := Nat.mul_assoc _ _ _
  have b1 : h * (w * P) ≤ h * (w * P) * d := Nat.le_mul_of_pos_right _ hd
  have b2 : h * w * P < 2147483648 := by omega
  rewrite [panelSize_natCast hp alpha w h P hPs b2,
    bufferSize_volume_natCast hp alpha w h d P hPs hd hfit, hPs]
  refine ⟨?_, ?_⟩
  · intro z y hz hy
    have s := volume_src_bound h (w * P) d z y hz hy
    have t := volume_dst_bound h (w * P) d z y hz hy
    have es : z * (w * h * P) + y * (w * P) = z * (h * (w * P)) + y * (w * P) := by ring
    have et : z * (w * P) + y * (w * d * P) = (z + y * d) * (w * P) := by ring
    obtain ⟨e1, e2, e3⟩ := lineStart_natCast w h d P z y hz hy hfit
    rewrite [e1, e2, e3]
    refine ⟨Int.natCast_nonneg _, ?_, Int.natCast_nonneg _, ?_⟩
    · rewrite [es]
      exact_mod_cast s
    · rewrite [et]
      exact_mod_cast t
  · intro pb tb hpb htb
    have hpb' : pb.length = h * (w * P) * d := by exact_mod_cast hpb
    have htb' : tb.length = h * (w * P) * d := by exact_mod_cast htb
    obtain ⟨out, ho, hl, _⟩ := reorderVolume_natCast w h d P hh hd hfit pb tb hpb' htb'
    exact ⟨out, ho, by rw [hl, hpb']⟩

/-- Every copy of the standard scanline loop stays inside its buffers. -/
theorem standard_copies_in_bounds (hp alpha : Bool) (textureType depth : Int) (w h D P : Nat)
    (hPs : pixelSize hp alpha = (P : Int)) (htt : textureType ≠ GL_TEXTURE_CUBE_MAP)
    (hD : effectiveDepth textureType depth = (D : Int)) (hh : 0 < h) (hD0 : 0 < D)
    (hfit : h * (w * P) * D < 2147483648) :
    outputHeight textureType (h : Int) = (h : Int) ∧
    ∀ row : Nat, row < h →
      0 ≤ (row : Int) * linebytes hp alpha textureType (w : Int) depth ∧
      ((row : Int) + 1) * linebytes hp alpha textureType (w : Int) depth
        ≤ bufferSize hp alpha textureType (w : Int) (h : Int) depth ∧
      ∀ pixelbuffer buf : List byte,
        (pixelbuffer.length : Int) = bufferSize hp alpha textureType (w : Int) (h : Int) depth →
        (buf.length : Int) = linebytes hp alpha textureType (w : Int) depth →
        ∃ line, standardRow pixelbuffer (linebytes hp alpha textureType (w : Int) depth) row buf
            = some line ∧
          line.length = buf.length := by
  have e : h * (w * D * P) = h * (w * P) * D := by ring
  have b0 : w * D * P ≤ h * (w * D * P) := Nat.le_mul_of_pos_left _ hh
  have b1 : w * D * P < 2147483648 := by omega
  rewrite [linebytes_standard hp alpha textureType depth w D P hPs htt hD b1,
    bufferSize_standard_natCast hp alpha textureType depth w h D P hPs htt hD hD0 hfit]
  refine ⟨outputHeight_standard textureType (h : Int) htt, ?_⟩
  intro row hrow
  have r := rows_bound h (w * D * P) row hrow
  rewrite [e] at r
  have r2 : (row + 1) * (w * D * P) ≤ h * (w * P) * D := by
    rewrite [Nat.add_mul, Nat.one_mul]
    exact r
  refine ⟨Int.mul_nonneg (Int.natCast_nonneg _) (Int.natCast_nonneg _), by exact_mod_cast r2, ?_⟩
  intro pb buf hpb hbuf
  have hpb2 : pb.length = h * (w * P) * D := by exact_mod_cast hpb
  have hbuf2 : buf.length = w * D * P := by exact_mod_cast hbuf
  refine ⟨_, standardRow_natCast pb buf (w * D * P) row hbuf2 (by rw [hpb2]; exact r), ?_⟩
  rw [length_slice _ _ _ (by rw [hpb2]; exact r), hbuf2]

/-- Every copy of the cube map scanline loop stays inside its buffers. -/
theorem cube_copies_in_bounds (hp alpha : Bool) (depth : Int) (w h P : Nat)
    (hPs : pixelSize hp alpha = (P : Int)) (hw : 0 < w) (hh : 0 < h)
    (hfit : 6 * (h * w * P) < 2147483648) :
    bufferSize hp alpha GL_TEXTURE_CUBE_MAP (w : Int) (h : Int) depth
      = 6 * panelSize hp alpha (w : Int) (h : Int) ∧
    linebytes hp alpha GL_TEXTURE_CUBE_MAP (w : Int) depth
      = 3 * thirdBytes hp alpha GL_TEXTURE_CUBE_MAP (w : Int) depth ∧
    0 ≤ thirdBytes hp alpha GL_TEXTURE_CUBE_MAP (w : Int) depth ∧
    outputHeight GL_TEXTURE_CUBE_MAP (h : Int) = ((h * 4 : Nat) : Int) ∧
    ∀ row : Nat, row < 4 * h →
      row / h < 4 ∧
      (∀ i : Nat, i < 6 →
        0 ≤ faceLine (GL_TEXTURE_CUBE_MAP_POSITIVE_X + (i : Int))
            (panelSize hp alpha (w : Int) (h : Int)) ((row % h : Nat) : Int)
            (thirdBytes hp alpha GL_TEXTURE_CUBE_MAP (w : Int) depth) ∧
        faceLine (GL_TEXTURE_CUBE_MAP_POSITIVE_X + (i : Int))
            (panelSize hp alpha (w : Int) (h : Int)) ((row % h : Nat) : Int)
            (thirdBytes hp alpha GL_TEXTURE_CUBE_MAP (w : Int) depth)
          + thirdBytes hp alpha GL_TEXTURE_CUBE_MAP (w : Int) depth
          ≤ bufferSize hp alpha GL_TEXTURE_CUBE_MAP (w : Int) (h : Int) depth) ∧
      ∀ pixelbuffer zerobuf buf : List byte,
        (pixelbuffer.length : Int)
          = bufferSize hp alpha GL_TEXTURE_CUBE_MAP (w : Int) (h : Int) depth →
        (zerobuf.length : Int) = thirdBytes hp alpha GL_TEXTURE_CUBE_MAP (w : Int) depth →
        (buf.length : Int) = linebytes hp alpha GL_TEXTURE_CUBE_MAP (w : Int) depth →
        ∃ line, cubeRow pixelbuffer zerobuf (h : Int) (panelSize hp alpha (w : Int) (h : Int))
            (thirdBytes hp alpha GL_TEXTURE_CUBE_MAP (w : Int) depth) row buf = some line ∧
          line.length = buf.length := by
  have hP : 0 < P := by have := pixelSize_pos hp alpha; omega
  obtain ⟨c1, c2, c3, c4⟩ := cube_sizes_bound w h P hw hh hP hfit
  have hpanel : h * (w * P) ≤ h * w * P := Nat.le_of_eq (Nat.mul_assoc _ _ _).symm
  have hh31 : h < 2147483648 := by omega
  have e3 : w * 3 * P = 3 * (w * P) := by ring
  unfold thirdBytes
  rewrite [linebytes_cube hp alpha depth w P hPs c4, third_natCast,
    bufferSize_cube_natCast hp alpha depth w h P hPs hfit,
    panelSize_natCast hp alpha w h P hPs c1]
  refine ⟨by exact_mod_cast rfl, by rewrite [e3]; exact_mod_cast rfl, Int.natCast_nonneg _,
    outputHeight_cube h c3, ?_⟩
  intro row hrow
  refine ⟨(Nat.div_lt_iff_lt_mul hh).2 hrow, ?_, ?_⟩
  · intro i hi
    have hidx : GL_TEXTURE_CUBE_MAP_POSITIVE_X + (i : Int) - GL_TEXTURE_BINDING_CUBE_MAP - 1
        = (i : Int) := by
      unfold GL_TEXTURE_CUBE_MAP_POSITIVE_X GL_TEXTURE_BINDING_CUBE_MAP
      omega
    have fb := face_bound h (h * w * P) (w * P) row i hh hpanel hi
    have fi : i * (h * w * P) < 2147483648 := by
      have : i * (h * w * P) ≤ 6 * (h * w * P) := Nat.mul_le_mul_right _ (by omega)
      omega
    rewrite [faceLine_natCast _ i (h * w * P) (row % h) (w * P) hidx fi]
    exact ⟨Int.natCast_nonneg _, by exact_mod_cast fb⟩
  · intro pb zb buf hpb hzb hbuf
    have hpb2 : pb.length = 6 * (h * w * P) := by exact_mod_cast hpb
    have hzb2 : zb.length = w * P := by exact_mod_cast hzb
    have hbuf2 : buf.length = 3 * (w * P) := by rw [← e3]; exact_mod_cast hbuf
    refine ⟨_, cubeRow_natCast pb zb buf h (h * w * P) (w * P) row hh hrow hpanel hfit hh31
      hpb2 hzb2 hbuf2, ?_⟩
    rw [length_crossLine pb zb h (h * w * P) (w * P) row hh hrow hpanel hpb2 hzb2, hbuf2]

/-! ## The cells of the cube map raster -/

/-- The cell of band `r / h` and third `col` of the row buffer holds scanline
`r % h` of the face `cellFace` names, and the contents of `zerobuf` where it
names none. -/
theorem crossLine_cell (env : Env) (rb zb : List byte) (h panel T r col : Nat) (hh : 0 < h)
    (hr : r < 4 * h) (hcol : col < 3) (hpanel : h * T ≤ panel) (hlen : rb.length = 6 * panel)
    (hzb : zb.length = T)
    (hI : ∀ i j : Nat, i < 6 → j < panel →
      rb[i * panel + j]? = (env.texImage (GL_TEXTURE_BINDING_CUBE_MAP + 1 + (i : Int)))[j]?) :
    slice (crossLine rb zb h panel T r) (col * T) T
      = match cellFace (r / h) col with
        | some face => slice (env.texImage face) (r % h * T) T
        | none => zb := by
  have hb : r / h < 4 := (Nat.div_lt_iff_lt_mul hh).2 hr
  have hbs : r / h = 0 ∨ r / h = 1 ∨ r / h = 2 ∨ r / h = 3 := by
    generalize r / h = b at hb
    omega
  have hcs : col = 0 ∨ col = 1 ∨ col = 2 := by omega
  have e0 : 0 * T = 0 := Nat.zero_mul _
  have e1 : 1 * T = T := Nat.one_mul _
  obtain ⟨_, c0, c1, c2, c3⟩ := crossLine_faces env rb zb h panel T r hh hr hpanel hlen hzb hI
  rcases hbs with hb | hb | hb | hb <;> rcases hcs with hc | hc | hc <;> subst hc <;>
    rewrite [hb]
  · rewrite [e0]; exact (c0 hb).1
  · rewrite [e1]; exact (c0 hb).2.1
  · exact (c0 hb).2.2
  · rewrite [e0]; exact (c1 hb).1
  · rewrite [e1]; exact (c1 hb).2.1
  · exact (c1 hb).2.2
  · rewrite [e0]; exact (c2 hb).1
  · rewrite [e1]; exact (c2 hb).2.1
  · exact (c2 hb).2.2
  · rewrite [e0]; exact (c3 hb).1
  · rewrite [e1]; exact (c3 hb).2.1
  · exact (c3 hb).2.2

/-! ## The claims -/

/-- C1 (volume transform).  For a 3D texture of positive height and depth whose
byte count fits an `int` and whose image has the declared size, the readback
and the reordering succeed, the reordered buffer has the length of the
readback buffer, and for every slice `z < depth` and row `y < height` the
`width * pixelSize` bytes of the reordered buffer from offset
`z * (width * pixelSize) + y * (width * depth * pixelSize)` are the
`width * pixelSize` bytes the readback buffer held from offset
`z * panelSize + y * (width * pixelSize)`, `panelSize = width * height * pixelSize`. -/
theorem C1_volume_transform (hp alpha : Bool) (env : Env) (width height depth : Nat)
    (hh : 0 < height) (hd : 0 < depth)
    (hfit : width * height * depth * pixelBytes hp alpha < 2147483648)
    (htex : (env.texImage GL_TEXTURE_3D).length = width * height * depth * pixelBytes hp alpha) :
    ∃ readbackBuf reordered,
      readbackBuffer hp alpha env GL_TEXTURE_3D (width : Int) (height : Int) (depth : Int)
        = some readbackBuf ∧
      readbackBuf.length = width * height * depth * pixelBytes hp alpha ∧
      reorderedBuffer hp alpha env GL_TEXTURE_3D (width : Int) (height : Int) (depth : Int)
        = some reordered ∧
      reordered.length = readbackBuf.length ∧
      ∀ z y, z < depth → y < height →
        slice reordered
            (z * (width * pixelBytes hp alpha) + y * (width * depth * pixelBytes hp alpha))
            (width * pixelBytes hp alpha)
          = slice readbackBuf
            (z * (width * height * pixelBytes hp alpha) + y * (width * pixelBytes hp alpha))
            (width * pixelBytes hp alpha) := by
  have e : width * height * depth * pixelBytes hp alpha
      = height * (width * pixelBytes hp alpha) * depth := by ring
  rw [e] at hfit htex
  obtain ⟨hrb, out, hout, hlen, _, hI⟩ := standard_buffers hp alpha env GL_TEXTURE_3D (depth : Int)
    width height depth (pixelBytes hp alpha) (pixelSize_toNat hp alpha) (by decide)
    (effectiveDepth_volume _) hh hd hfit htex
  refine ⟨_, out, hrb, by rw [htex, e], hout, by rw [hlen, htex], ?_⟩
  intro z y hz hy
  rw [slice_eq_iff]
  intro j hj
  have e1 : z * (width * pixelBytes hp alpha) + y * (width * depth * pixelBytes hp alpha) + j
      = (z + y * depth) * (width * pixelBytes hp alpha) + j := by ring
  have e2 : z * (width * height * pixelBytes hp alpha) + y * (width * pixelBytes hp alpha) + j
      = z * (height * (width * pixelBytes hp alpha)) + y * (width * pixelBytes hp alpha) + j := by
    ring
  rw [e1, e2]
  exact hI rfl z y j hz hy hj

/-- Witness of C1: a 1 x 2 x 3 RGBA volume holding a byte ramp. -/
theorem C1_volume_transform_witness :
    (0 < 2 ∧ 0 < 3 ∧ 1 * 2 * 3 * pixelBytes false true < 2147483648 ∧
      ((sampleEnv (rampImage 96) 205).texImage GL_TEXTURE_3D).length
        = 1 * 2 * 3 * pixelBytes false true) ∧
    ∃ readbackBuf reordered,
      readbackBuffer false true (sampleEnv (rampImage 96) 205) GL_TEXTURE_3D
        ((1 : Nat) : Int) ((2 : Nat) : Int) ((3 : Nat) : Int) = some readbackBuf ∧
      readbackBuf.length = 1 * 2 * 3 * pixelBytes false true ∧
      reorderedBuffer false true (sampleEnv (rampImage 96) 205) GL_TEXTURE_3D
        ((1 : Nat) : Int) ((2 : Nat) : Int) ((3 : Nat) : Int) = some reordered ∧
      reordered.length = readbackBuf.length ∧
      ∀ z y, z < 3 → y < 2 →
        slice reordered
            (z * (1 * pixelBytes false true) + y * (1 * 3 * pixelBytes false true))
            (1 * pixelBytes false true)
          = slice readbackBuf
            (z * (1 * 2 * pixelBytes false true) + y * (1 * pixelBytes false true))
            (1 * pixelBytes false true) :=
  ⟨⟨by decide, by decide, by decide, by decide⟩,
    C1_volume_transform false true (sampleEnv (rampImage 96) 205) 1 2 3
      (by decide) (by decide) (by decide) (by decide)⟩

/-- C4 (end-to-end volume export).  For a 3D texture of positive width, height
and depth whose byte count fits an `int` and whose image has the declared
size, when the file opens and no write fails, `SaveTexture` returns after
setting the image width to `width * depth` and the image length to `height`
and writing, for the rows `y = 0, .., height - 1` in this order, the scanline
that is the concatenation for `z = 0, .., depth - 1` of scanline `y` of
source slice `z`. -/
theorem C4_volume_export (hp alpha : Bool) (env : Env) (path : String) (texture : Nat)
    (width height depth : Nat) (hw : 0 < width) (hh : 0 < height) (hd : 0 < depth)
    (hfit : width * height * depth * pixelBytes hp alpha < 2147483648)
    (htex : (env.texImage GL_TEXTURE_3D).length = width * height * depth * pixelBytes hp alpha)
    (hopen : env.openOk = true) (hwrite : ∀ r, r < height → env.writeOk r = true) :
    ∃ trace,
      SaveTextureAt hp env path texture GL_TEXTURE_3D alpha (width : Int) (height : Int)
        (depth : Int) SaveFormat.TIF = Outcome.returned trace ∧
      headerField trace TIFFTAG_IMAGEWIDTH = some ((width * depth : Nat) : Int) ∧
      headerField trace TIFFTAG_IMAGELENGTH = some (height : Int) ∧
      scanlines trace = (List.range height).map (fun y =>
        (y, ((List.range depth).map (fun z =>
          slice (env.texImage GL_TEXTURE_3D)
            (z * (width * height * pixelBytes hp alpha) + y * (width * pixelBytes hp alpha))
            (width * pixelBytes hp alpha))).flatten)) := by
  have e : width * height * depth * pixelBytes hp alpha
      = height * (width * pixelBytes hp alpha) * depth := by ring
  rw [e] at hfit htex
  obtain ⟨_, out, hout, _, _, hI⟩ := standard_buffers hp alpha env GL_TEXTURE_3D (depth : Int)
    width height depth (pixelBytes hp alpha) (pixelSize_toNat hp alpha) (by decide)
    (effectiveDepth_volume _) hh hd hfit htex
  have hrun := SaveTextureAt_standard hp alpha env path texture GL_TEXTURE_3D (depth : Int)
    width height depth (pixelBytes hp alpha) (pixelSize_toNat hp alpha) (by decide)
    (effectiveDepth_volume _) hw hh hd hfit hopen htex out hout
  refine ⟨_, hrun, (headerField_trace _ _ _ _ _ _ _ _ _ _ _ _ _).1,
    (headerField_trace _ _ _ _ _ _ _ _ _ _ _ _ _).2.1, ?_⟩
  rw [scanlines_trace _ _ _ _ _ _ _ _ _ _ _ _ _ hwrite]
  apply List.map_congr_left
  intro y hy
  have hy' : y < height := List.mem_range.1 hy
  have e3 : width * depth * pixelBytes hp alpha = depth * (width * pixelBytes hp alpha) := by ring
  rw [e3, slice_eq_flatten]
  refine congrArg (fun l => (y, List.flatten l)) ?_
  apply List.map_congr_left
  intro z hz
  have hz' : z < depth := List.mem_range.1 hz
  rw [slice_eq_iff]
  intro j hj
  have e1 : y * (depth * (width * pixelBytes hp alpha)) + z * (width * pixelBytes hp alpha) + j
      = (z + y * depth) * (width * pixelBytes hp alpha) + j := by ring
  have e2 : z * (width * height * pixelBytes hp alpha) + y * (width * pixelBytes hp alpha) + j
      = z * (height * (width * pixelBytes hp alpha)) + y * (width * pixelBytes hp alpha) + j := by
    ring
  rw [e1, e2]
  exact hI rfl z y j hz' hy' hj

/-- Witness of C4: the 2 x 2 x 2 volume with a red slice 0 and a blue slice 1
gives a 4 x 2 raster whose rows are two red pixels followed by two blue ones. -/
theorem C4_volume_export_witness :
    (2 * 2 * 2 * pixelBytes false false < 2147483648 ∧
      ((sampleEnv redBlueVolume 205).texImage GL_TEXTURE_3D).length
        = 2 * 2 * 2 * pixelBytes false false) ∧
    ∃ trace,
      SaveTextureAt false (sampleEnv redBlueVolume 205) "volume.tif" 1 GL_TEXTURE_3D false
        ((2 : Nat) : Int) ((2 : Nat) : Int) ((2 : Nat) : Int) SaveFormat.TIF
        = Outcome.returned trace ∧
      headerField trace TIFFTAG_IMAGEWIDTH = some 4 ∧
      headerField trace TIFFTAG_IMAGELENGTH = some 2 ∧
      scanlines trace =
        [(0, redPixel ++ redPixel ++ bluePixel ++ bluePixel),
         (1, redPixel ++ redPixel ++ bluePixel ++ bluePixel)] := by
  refine ⟨⟨by decide, by decide⟩, ?_⟩
  obtain ⟨trace, h1, h2, h3, h4⟩ :=
    C4_volume_export false false (sampleEnv redBlueVolume 205) "volume.tif" 1 2 2 2
      (by decide) (by decide) (by decide) (by decide) (by decide) rfl (fun _ _ => rfl)
  exact ⟨trace, h1, h2, h3, h4.trans (by decide)⟩

/-- C2 (cube-cross layout).  For a cube map of positive width and height whose
byte count fits an `int` and whose six face images have the declared size,
when the file opens and no write fails, `SaveTexture` returns after writing
the rows `r = 0, .., 4 * height - 1` in this order; the scanline of row `r` has
three thirds of `width * pixelSize` bytes, and with `band = r / height` and
`faceRow = r mod height` the middle third is scanline `faceRow` of `+Y` in
band 0, of `+Z` in band 1, of `-Y` in band 2 and of `-Z` in band 3, while in
band 1 the first third is scanline `faceRow` of `-X` and the last third that
of `+X`. -/
theorem C2_cube_cross_layout (hp alpha : Bool) (env : Env) (path : String) (texture : Nat)
    (depth : Int) (width height : Nat) (hw : 0 < width) (hh : 0 < height)
    (hfit : 6 * (width * height * pixelBytes hp alpha) < 2147483648)
    (htex : ∀ f, f ∈ cubeFaces →
      (env.texImage f).length = width * height * pixelBytes hp alpha)
    (hopen : env.openOk = true) (hwrite : ∀ r, r < 4 * height → env.writeOk r = true) :
    ∃ (trace : List Event) (lines : Nat → List byte),
      SaveTextureAt hp env path texture GL_TEXTURE_CUBE_MAP alpha (width : Int) (height : Int)
        depth SaveFormat.TIF = Outcome.returned trace ∧
      scanlines trace = (List.range (4 * height)).map (fun r => (r, lines r)) ∧
      ∀ r, r < 4 * height →
        (lines r).length = 3 * (width * pixelBytes hp alpha) ∧
        (r / height = 0 →
          slice (lines r) (width * pixelBytes hp alpha) (width * pixelBytes hp alpha)
            = slice (env.texImage GL_TEXTURE_CUBE_MAP_POSITIVE_Y)
                (r % height * (width * pixelBytes hp alpha)) (width * pixelBytes hp alpha)) ∧
        (r / height = 1 →
          slice (lines r) 0 (width * pixelBytes hp alpha)
            = slice (env.texImage GL_TEXTURE_CUBE_MAP_NEGATIVE_X)
                (r % height * (width * pixelBytes hp alpha)) (width * pixelBytes hp alpha) ∧
          slice (lines r) (width * pixelBytes hp alpha) (width * pixelBytes hp alpha)
            = slice (env.texImage GL_TEXTURE_CUBE_MAP_POSITIVE_Z)
                (r % height * (width * pixelBytes hp alpha)) (width * pixelBytes hp alpha) ∧
          slice (lines r) (2 * (width * pixelBytes hp alpha)) (width * pixelBytes hp alpha)
            = slice (env.texImage GL_TEXTURE_CUBE_MAP_POSITIVE_X)
                (r % height * (width * pixelBytes hp alpha)) (width * pixelBytes hp alpha)) ∧
        (r / height = 2 →
          slice (lines r) (width * pixelBytes hp alpha) (width * pixelBytes hp alpha)
            = slice (env.texImage GL_TEXTURE_CUBE_MAP_NEGATIVE_Y)
                (r % height * (width * pixelBytes hp alpha)) (width * pixelBytes hp alpha)) ∧
        (r / height = 3 →
          slice (lines r) (width * pixelBytes hp alpha) (width * pixelBytes hp alpha)
            = slice (env.texImage GL_TEXTURE_CUBE_MAP_NEGATIVE_Z)
                (r % height * (width * pixelBytes hp alpha)) (width * pixelBytes hp alpha)) := by
  have e : width * height * pixelBytes hp alpha = height * width * pixelBytes hp alpha := by ring
  have e1 : height * width * pixelBytes hp alpha = height * (width * pixelBytes hp alpha) :=
    Nat.mul_assoc _ _ _
  have e4 : 4 * height = height * 4 := Nat.mul_comm _ _
  rw [e] at hfit htex
  have hzb : ((List.range (width * pixelBytes hp alpha)).map env.freshZero).length
      = width * pixelBytes hp alpha := by simp
  have hpanel : height * (width * pixelBytes hp alpha) ≤ height * width * pixelBytes hp alpha :=
    Nat.le_of_eq e1.symm
  have hwrite' : ∀ r, r < height * 4 → env.writeOk r = true :=
    fun r hr => hwrite r (by omega)
  obtain ⟨rb, hlen, hI, _, _, hrun⟩ := cube_export hp alpha env path texture depth width height
    (pixelBytes hp alpha) (pixelSize_toNat hp alpha) hw hh hfit hopen htex
  refine ⟨_, crossLine rb ((List.range (width * pixelBytes hp alpha)).map env.freshZero) height
    (height * width * pixelBytes hp alpha) (width * pixelBytes hp alpha), hrun, ?_, ?_⟩
  · rewrite [scanlines_trace _ _ _ _ _ _ _ _ _ _ _ _ _ hwrite', e4]
    rfl
  · intro r hr
    obtain ⟨c0, c1, c2, c3, c4⟩ := crossLine_faces env rb _ height
      (height * width * pixelBytes hp alpha) (width * pixelBytes hp alpha) r hh hr hpanel hlen hzb hI
    exact ⟨c0, fun hb => (c1 hb).2.1, c2, fun hb => (c3 hb).2.1, fun hb => (c4 hb).2.1⟩

/-- Witness of C2: a 1 x 1 RGB cube map whose faces have six distinct colours. -/
theorem C2_cube_cross_layout_witness :
    (6 * (1 * 1 * pixelBytes false false) < 2147483648 ∧
      ∀ f, f ∈ cubeFaces →
        ((faceColorEnv 12 205).texImage f).length = 1 * 1 * pixelBytes false false) ∧
    ∃ (trace : List Event) (lines : Nat → List byte),
      SaveTextureAt false (faceColorEnv 12 205) "cube.tif" 7 GL_TEXTURE_CUBE_MAP false
        ((1 : Nat) : Int) ((1 : Nat) : Int) 1 SaveFormat.TIF = Outcome.returned trace ∧
      scanlines trace = (List.range (4 * 1)).map (fun r => (r, lines r)) ∧
      ∀ r, r < 4 * 1 →
        (lines r).length = 3 * (1 * pixelBytes false false) ∧
        (r / 1 = 0 →
          slice (lines r) (1 * pixelBytes false false) (1 * pixelBytes false false)
            = slice ((faceColorEnv 12 205).texImage GL_TEXTURE_CUBE_MAP_POSITIVE_Y)
                (r % 1 * (1 * pixelBytes false false)) (1 * pixelBytes false false)) ∧
        (r / 1 = 1 →
          slice (lines r) 0 (1 * pixelBytes false false)
            = slice ((faceColorEnv 12 205).texImage GL_TEXTURE_CUBE_MAP_NEGATIVE_X)
                (r % 1 * (1 * pixelBytes false false)) (1 * pixelBytes false false) ∧
          slice (lines r) (1 * pixelBytes false false) (1 * pixelBytes false false)
            = slice ((faceColorEnv 12 205).texImage GL_TEXTURE_CUBE_MAP_POSITIVE_Z)
                (r % 1 * (1 * pixelBytes false false)) (1 * pixelBytes false false) ∧
          slice (lines r) (2 * (1 * pixelBytes false false)) (1 * pixelBytes false false)
            = slice ((faceColorEnv 12 205).texImage GL_TEXTURE_CUBE_MAP_POSITIVE_X)
                (r % 1 * (1 * pixelBytes false false)) (1 * pixelBytes false false)) ∧
        (r / 1 = 2 →
          slice (lines r) (1 * pixelBytes false false) (1 * pixelBytes false false)
            = slice ((faceColorEnv 12 205).texImage GL_TEXTURE_CUBE_MAP_NEGATIVE_Y)
                (r % 1 * (1 * pixelBytes false false)) (1 * pixelBytes false false)) ∧
        (r / 1 = 3 →
          slice (lines r) (1 * pixelBytes false false) (1 * pixelBytes false false)
            = slice ((faceColorEnv 12 205).texImage GL_TEXTURE_CUBE_MAP_NEGATIVE_Z)
                (r % 1 * (1 * pixelBytes false false)) (1 * pixelBytes false false)) :=
  ⟨⟨by decide, by decide⟩,
    C2_cube_cross_layout false false (faceColorEnv 12 205) "cube.tif" 7 1 1 1
      (by decide) (by decide) (by decide) (by decide) rfl (fun _ _ => rfl)⟩

/-- C3 (blank fill), evaluated on a 1 x 1 RGB cube map when the memory handed
out for `zerobuf` holds the byte 205: the first third of the scanline written
for row 0, a blank cell of the layout, is twelve bytes 205 and not twelve
zero bytes. -/
theorem C3_blank_fill_uninitialised :
    ∃ data, (0, data) ∈ scanlines (SaveTexture (faceColorEnv 12 205) "cube.tif" 7
        GL_TEXTURE_CUBE_MAP false 1 1 1 SaveFormat.TIF).trace ∧
      slice data 0 12 = List.replicate 12 205 ∧ slice data 0 12 ≠ List.replicate 12 0 :=
  ⟨List.replicate 12 205 ++ List.replicate 12 3 ++ List.replicate 12 205,
    by decide, by decide, by decide⟩

/-- C5 (output raster dimensions).  When the file opens and the sizes fit an
`int`, the image width and length that `SaveTexture` writes to the header are
`width` and `height` for a texture that is neither 3D nor a cube map,
`width * depth` and `height` for a 3D texture, and `3 * width` and
`4 * height` for a cube map; for the first and the last this holds for every
value of the `depth` argument. -/
theorem C5_output_dimensions (hp alpha : Bool) (env : Env) (path : String) (texture : Nat)
    (width height : Nat) (hw : 0 < width) (hh : 0 < height) (hopen : env.openOk = true) :
    (∀ textureType depth : Int,
      textureType ≠ GL_TEXTURE_3D → textureType ≠ GL_TEXTURE_CUBE_MAP →
      width * height * pixelBytes hp alpha < 2147483648 →
      (env.texImage textureType).length = width * height * pixelBytes hp alpha →
      ∃ trace,
        SaveTextureAt hp env path texture textureType alpha (width : Int) (height : Int) depth
          SaveFormat.TIF = Outcome.returned trace ∧
        headerField trace TIFFTAG_IMAGEWIDTH = some (width : Int) ∧
        headerField trace TIFFTAG_IMAGELENGTH = some (height : Int)) ∧
    (∀ depth : Nat, 0 < depth →
      width * height * depth * pixelBytes hp alpha < 2147483648 →
      (env.texImage GL_TEXTURE_3D).length = width * height * depth * pixelBytes hp alpha →
      ∃ trace,
        SaveTextureAt hp env path texture GL_TEXTURE_3D alpha (width : Int) (height : Int)
          (depth : Int) SaveFormat.TIF = Outcome.returned trace ∧
        headerField trace TIFFTAG_IMAGEWIDTH = some ((width * depth : Nat) : Int) ∧
        headerField trace TIFFTAG_IMAGELENGTH = some (height : Int)) ∧
    (∀ depth : Int,
      6 * (width * height * pixelBytes hp alpha) < 2147483648 →
      (∀ f, f ∈ cubeFaces →
        (env.texImage f).length = width * height * pixelBytes hp alpha) →
      ∃ trace,
        SaveTextureAt hp env path texture GL_TEXTURE_CUBE_MAP alpha (width : Int) (height : Int)
          depth SaveFormat.TIF = Outcome.returned trace ∧
        headerField trace TIFFTAG_IMAGEWIDTH = some ((3 * width : Nat) : Int) ∧
        headerField trace TIFFTAG_IMAGELENGTH = some ((4 * height : Nat) : Int)) := by
  refine ⟨?_, ?_, ?_⟩
  · intro textureType depth h3 hc hfit htex
    have e : width * height * pixelBytes hp alpha
        = height * (width * pixelBytes hp alpha) * 1 := by ring
    rw [e] at hfit htex
    obtain ⟨out, _, _, _, _, hrun⟩ := standard_export hp alpha env path texture textureType depth
      width height 1 (pixelBytes hp alpha) (pixelSize_toNat hp alpha) hc
      (effectiveDepth_other _ _ h3) hw hh (by omega) hfit hopen htex
    have hf := headerField_trace hp alpha path texture textureType (width : Int) (height : Int)
      ((width * 1 : Nat) : Int) (height : Int)
      (TIFFDefaultStripSize (width * 1 * pixelBytes hp alpha)
        (imul (width : Int) (sampleperpixel alpha)))
      env.writeOk
      (fun r => slice out (r * (width * 1 * pixelBytes hp alpha)) (width * 1 * pixelBytes hp alpha))
      height
    exact ⟨_, hrun, hf.1.trans (by rw [Nat.mul_one]), hf.2.1⟩
  · intro depth hd hfit htex
    have e : width * height * depth * pixelBytes hp alpha
        = height * (width * pixelBytes hp alpha) * depth := by ring
    rw [e] at hfit htex
    obtain ⟨out, _, _, _, _, hrun⟩ := standard_export hp alpha env path texture GL_TEXTURE_3D
      (depth : Int) width height depth (pixelBytes hp alpha) (pixelSize_toNat hp alpha)
      (by decide) (effectiveDepth_volume _) hw hh hd hfit hopen htex
    have hf := headerField_trace hp alpha path texture GL_TEXTURE_3D (width : Int) (height : Int)
      ((width * depth : Nat) : Int) (height : Int)
      (TIFFDefaultStripSize (width * depth * pixelBytes hp alpha)
        (imul (width : Int) (sampleperpixel alpha)))
      env.writeOk
      (fun r => slice out (r * (width * depth * pixelBytes hp alpha))
        (width * depth * pixelBytes hp alpha))
      height
    exact ⟨_, hrun, hf.1, hf.2.1⟩
  · intro depth hfit htex
    have e : width * height * pixelBytes hp alpha = height * width * pixelBytes hp alpha := by
      ring
    rw [e] at hfit htex
    obtain ⟨rb, _, _, _, _, hrun⟩ := cube_export hp alpha env path texture depth width height
      (pixelBytes hp alpha) (pixelSize_toNat hp alpha) hw hh hfit hopen htex
    have hf := headerField_trace hp alpha path texture GL_TEXTURE_CUBE_MAP (width : Int)
      (height : Int) ((width * 3 : Nat) : Int) ((height * 4 : Nat) : Int)
      (TIFFDefaultStripSize (width * 3 * pixelBytes hp alpha)
        (imul (width : Int) (sampleperpixel alpha)))
      env.writeOk
      (crossLine rb ((List.range (width * pixelBytes hp alpha)).map env.freshZero) height
        (height * width * pixelBytes hp alpha) (width * pixelBytes hp alpha))
      (height * 4)
    exact ⟨_, hrun, hf.1.trans (by rw [Nat.mul_comm]), hf.2.1.trans (by rw [Nat.mul_comm])⟩

/-- Witness of C5: a 1 x 1 RGB texture exported as a plane with depth argument
5, as a volume of depth 1 and as a cube map with depth argument 9. -/
theorem C5_output_dimensions_witness :
    (∃ trace,
      SaveTextureAt false (sampleEnv (rampImage 12) 205) "lut.tif" 7 GL_TEXTURE_2D false
        ((1 : Nat) : Int) ((1 : Nat) : Int) 5 SaveFormat.TIF = Outcome.returned trace ∧
      headerField trace TIFFTAG_IMAGEWIDTH = some ((1 : Nat) : Int) ∧
      headerField trace TIFFTAG_IMAGELENGTH = some ((1 : Nat) : Int)) ∧
    (∃ trace,
      SaveTextureAt false (sampleEnv (rampImage 12) 205) "lut.tif" 7 GL_TEXTURE_3D false
        ((1 : Nat) : Int) ((1 : Nat) : Int) ((1 : Nat) : Int) SaveFormat.TIF
        = Outcome.returned trace ∧
      headerField trace TIFFTAG_IMAGEWIDTH = some ((1 * 1 : Nat) : Int) ∧
      headerField trace TIFFTAG_IMAGELENGTH = some ((1 : Nat) : Int)) ∧
    (∃ trace,
      SaveTextureAt false (sampleEnv (rampImage 12) 205) "lut.tif" 7 GL_TEXTURE_CUBE_MAP false
        ((1 : Nat) : Int) ((1 : Nat) : Int) 9 SaveFormat.TIF = Outcome.returned trace ∧
      headerField trace TIFFTAG_IMAGEWIDTH = some ((3 * 1 : Nat) : Int) ∧
      headerField trace TIFFTAG_IMAGELENGTH = some ((4 * 1 : Nat) : Int)) :=
  ⟨(C5_output_dimensions false false (sampleEnv (rampImage 12) 205) "lut.tif" 7 1 1
      (by decide) (by decide) rfl).1 GL_TEXTURE_2D 5 (by decide) (by decide) (by decide)
      (by decide),
    (C5_output_dimensions false false (sampleEnv (rampImage 12) 205) "lut.tif" 7 1 1
      (by decide) (by decide) rfl).2.1 1 (by decide) (by decide) (by decide),
    (C5_output_dimensions false false (sampleEnv (rampImage 12) 205) "lut.tif" 7 1 1
      (by decide) (by decide) rfl).2.2 9 (by decide) (by decide)⟩
/-- C6, counterexample.  For a cube map of 8192 x 8192 RGB pixels the `int`
arithmetic of lines 31-38 yields 536870912, while
`width * height * depth * channelCount * channelSize * faceCount` is
4831838208. -/
theorem C6_bufferSize_overflow :
    bufferSize halfPrecision false GL_TEXTURE_CUBE_MAP 8192 8192 1 = 536870912 ∧
    bufferSizeSpec halfPrecision false GL_TEXTURE_CUBE_MAP 8192 8192 1 = 4831838208 ∧
    bufferSize halfPrecision false GL_TEXTURE_CUBE_MAP 8192 8192 1
      ≠ bufferSizeSpec halfPrecision false GL_TEXTURE_CUBE_MAP 8192 8192 1 := by
  decide

/-- C6 (buffer size), amended.  For all inputs the computed `bufferSize` is
`width * height * depth * channelCount * channelSize * faceCount` reduced to
the range of a 32-bit `int`, and likewise `panelSize * depth * faceCount`
reduced to that range; it equals the product itself whenever the product lies
in the range of an `int`.  Here `depth` is 1 unless the texture is 3D,
`channelCount` is 4 with alpha and 3 without, `channelSize` is 2 for half and 4
for full precision, and `faceCount` is 6 exactly for a cube map and 1
otherwise. -/
theorem C6_bufferSize_amended (hp alpha : Bool) (textureType width height depth : Int) :
    bufferSize hp alpha textureType width height depth
      = wrapInt (bufferSizeSpec hp alpha textureType width height depth) ∧
    bufferSize hp alpha textureType width height depth
      = wrapInt (panelSize hp alpha width height * effectiveDepth textureType depth *
          faceCount textureType) ∧
    (-2147483648 ≤ bufferSizeSpec hp alpha textureType width height depth →
      bufferSizeSpec hp alpha textureType width height depth < 2147483648 →
      bufferSize hp alpha textureType width height depth
        = bufferSizeSpec hp alpha textureType width height depth) ∧
    effectiveDepth textureType depth = (if textureType = GL_TEXTURE_3D then depth else 1) ∧
    sampleperpixel alpha = (if alpha then 4 else 3) ∧
    channelSize hp = (if hp then 2 else 4) ∧
    (faceCount textureType = 6 ↔ textureType = GL_TEXTURE_CUBE_MAP) ∧
    (textureType ≠ GL_TEXTURE_CUBE_MAP → faceCount textureType = 1) := by
  refine ⟨bufferSize_eq_wrap _ _ _ _ _ _, bufferSize_eq_panel _ _ _ _ _ _, ?_, ?_, rfl, rfl, ?_, ?_⟩
  · intro h0 h1
    rw [bufferSize_eq_wrap, wrapInt_of_range _ h0 h1]
  · unfold effectiveDepth
    by_cases h : textureType = GL_TEXTURE_3D
    · simp [h]
    · simp [h]
  · unfold faceCount
    by_cases h : textureType = GL_TEXTURE_CUBE_MAP
    · simp [h]
    · simp [h]
  · intro h
    unfold faceCount
    rw [if_neg h]

/-- Witness of C6: a cube map of 4096 x 4096 RGB pixels needs 1207959552 bytes,
which an `int` holds. -/
theorem C6_bufferSize_amended_witness :
    bufferSize false false GL_TEXTURE_CUBE_MAP 4096 4096 1 = 1207959552 ∧
    bufferSizeSpec false false GL_TEXTURE_CUBE_MAP 4096 4096 1 = 1207959552 :=
  ⟨((C6_bufferSize_amended false false GL_TEXTURE_CUBE_MAP 4096 4096 1).2.2.1
      (by decide) (by decide)).trans (by decide), by decide⟩

/-- C7 (texture readback).  With in-range sizes and images of the declared
size, `SaveTexture` issues for a cube map exactly six readbacks, the `i`-th
for face `i` of the order `+X, -X, +Y, -Y, +Z, -Z` at byte offset
`i * panelSize`; afterwards the bytes `[i * panelSize, (i + 1) * panelSize)` of
the buffer are the image of face `i`, `bufferSize` is `6 * panelSize`, and
every byte offset below `bufferSize` lies in exactly one of the six regions.
For any other texture it issues exactly one readback, for the texture itself
at offset 0, after which the whole buffer is the texture image. -/
theorem C7_texture_readback (hp alpha : Bool) (env : Env) (path : String) (texture : Nat)
    (width height : Nat) (hw : 0 < width) (hh : 0 < height) (hopen : env.openOk = true)
    (format : SaveFormat) :
    (∀ depth : Int,
      6 * (width * height * pixelBytes hp alpha) < 2147483648 →
      (∀ f, f ∈ cubeFaces →
        (env.texImage f).length = width * height * pixelBytes hp alpha) →
      ∃ trace rb,
        SaveTextureAt hp env path texture GL_TEXTURE_CUBE_MAP alpha (width : Int) (height : Int)
          depth format = Outcome.returned trace ∧
        readbacks trace
          = [(GL_TEXTURE_CUBE_MAP_POSITIVE_X,
                ((0 * (width * height * pixelBytes hp alpha) : Nat) : Int)),
             (GL_TEXTURE_CUBE_MAP_NEGATIVE_X,
                ((1 * (width * height * pixelBytes hp alpha) : Nat) : Int)),
             (GL_TEXTURE_CUBE_MAP_POSITIVE_Y,
                ((2 * (width * height * pixelBytes hp alpha) : Nat) : Int)),
             (GL_TEXTURE_CUBE_MAP_NEGATIVE_Y,
                ((3 * (width * height * pixelBytes hp alpha) : Nat) : Int)),
             (GL_TEXTURE_CUBE_MAP_POSITIVE_Z,
                ((4 * (width * height * pixelBytes hp alpha) : Nat) : Int)),
             (GL_TEXTURE_CUBE_MAP_NEGATIVE_Z,
                ((5 * (width * height * pixelBytes hp alpha) : Nat) : Int))] ∧
        bufferSize hp alpha GL_TEXTURE_CUBE_MAP (width : Int) (height : Int) depth
          = ((6 * (width * height * pixelBytes hp alpha) : Nat) : Int) ∧
        readbackBuffer hp alpha env GL_TEXTURE_CUBE_MAP (width : Int) (height : Int) depth
          = some rb ∧
        rb.length = 6 * (width * height * pixelBytes hp alpha) ∧
        (∀ i : Nat, i < 6 →
          slice rb (i * (width * height * pixelBytes hp alpha))
              (width * height * pixelBytes hp alpha)
            = env.texImage (GL_TEXTURE_CUBE_MAP_POSITIVE_X + (i : Int))) ∧
        (∀ b, b < 6 * (width * height * pixelBytes hp alpha) →
          ∃! i, i < 6 ∧ i * (width * height * pixelBytes hp alpha) ≤ b ∧
            b < i * (width * height * pixelBytes hp alpha)
              + width * height * pixelBytes hp alpha)) ∧
    (∀ (textureType : Int) (depth : Nat),
      textureType ≠ GL_TEXTURE_CUBE_MAP → 0 < depth →
      width * height * volumeDepth textureType depth * pixelBytes hp alpha < 2147483648 →
      (env.texImage textureType).length
        = width * height * volumeDepth textureType depth * pixelBytes hp alpha →
      ∃ trace,
        SaveTextureAt hp env path texture textureType alpha (width : Int) (height : Int)
          (depth : Int) format = Outcome.returned trace ∧
        readbacks trace = [(textureType, 0)] ∧
        bufferSize hp alpha textureType (width : Int) (height : Int) (depth : Int)
          = ((width * height * volumeDepth textureType depth * pixelBytes hp alpha : Nat) : Int) ∧
        readbackBuffer hp alpha env textureType (width : Int) (height : Int) (depth : Int)
          = some (env.texImage textureType)) := by
  refine ⟨?_, ?_⟩
  · intro depth hfit htex
    have e : width * height * pixelBytes hp alpha = height * width * pixelBytes hp alpha := by
      ring
    rw [e] at hfit htex
    rw [e]
    have hB := bufferSize_cube_natCast hp alpha depth width height (pixelBytes hp alpha)
      (pixelSize_toNat hp alpha) hfit
    have hR := readbacks_readbackTrace_cube hp alpha texture width height (pixelBytes hp alpha)
      (pixelSize_toNat hp alpha) hfit
    obtain ⟨rb, hlen, hI, hrb, hout, hrun⟩ := cube_export hp alpha env path texture depth width
      height (pixelBytes hp alpha) (pixelSize_toNat hp alpha) hw hh hfit hopen htex
    have hfaces : ∀ i : Nat, i < 6 →
        slice rb (i * (height * width * pixelBytes hp alpha))
            (height * width * pixelBytes hp alpha)
          = env.texImage (GL_TEXTURE_CUBE_MAP_POSITIVE_X + (i : Int)) := by
      intro i hi
      have hl := htex _ (cubeFace_index i hi)
      have h1 := face_slice rb (env.texImage (GL_TEXTURE_BINDING_CUBE_MAP + 1 + (i : Int))) i
        (height * width * pixelBytes hp alpha) 0 (height * width * pixelBytes hp alpha)
        (fun j hj => hI i j hi hj) (by omega)
      rw [Nat.add_zero] at h1
      rw [h1, ← hl, slice_full, cubeFace_offset]
    have hrun' : ∃ trace,
        SaveTextureAt hp env path texture GL_TEXTURE_CUBE_MAP alpha (width : Int) (height : Int)
          depth format = Outcome.returned trace ∧
        readbacks trace
          = readbacks (readbackTrace hp alpha texture GL_TEXTURE_CUBE_MAP (width : Int)
              (height : Int)) := by
      cases format with
      | TIF => exact ⟨_, hrun, readbacks_trace _ _ _ _ _ _ _ _ _ _⟩
      | EXR =>
        exact ⟨_, SaveTextureAt_of_buffers hp env path texture GL_TEXTURE_CUBE_MAP alpha _ _ depth
          SaveFormat.EXR _ _ _ hB hrb hout, rfl⟩
    obtain ⟨trace, ht, hr⟩ := hrun'
    exact ⟨trace, rb, ht, hr.trans hR, hB, hrb, hlen, hfaces,
      fun b hb => region_unique _ b hb⟩
  · intro textureType depth htt hd hfit htex
    have e : width * height * volumeDepth textureType depth * pixelBytes hp alpha
        = height * (width * pixelBytes hp alpha) * volumeDepth textureType depth := by ring
    rw [e] at hfit htex
    rw [e]
    have hD := effectiveDepth_volumeDepth textureType depth
    have hD0 := volumeDepth_pos textureType depth hd
    have hB := bufferSize_standard_natCast hp alpha textureType (depth : Int) width height
      (volumeDepth textureType depth) (pixelBytes hp alpha) (pixelSize_toNat hp alpha) htt hD hD0
      hfit
    obtain ⟨out, hrb, hout, _, _, hrun⟩ := standard_export hp alpha env path texture textureType
      (depth : Int) width height (volumeDepth textureType depth) (pixelBytes hp alpha)
      (pixelSize_toNat hp alpha) htt hD hw hh hD0 hfit hopen htex
    have hR := readbacks_readbackTrace_single hp alpha texture textureType (width : Int)
      (height : Int) htt
    cases format with
    | TIF => exact ⟨_, hrun, (readbacks_trace _ _ _ _ _ _ _ _ _ _).trans hR, hB, hrb⟩
    | EXR =>
      exact ⟨_, SaveTextureAt_of_buffers hp env path texture textureType alpha _ _ _
        SaveFormat.EXR _ _ _ hB hrb hout, hR, hB, hrb⟩

/-- Witness of C7: the six readbacks of a 1 x 1 RGB cube map go to the offsets
0, 12, 24, 36, 48 and 60, and a 1 x 1 RGB plane is read back once at offset 0. -/
theorem C7_texture_readback_witness :
    (∃ trace,
      SaveTextureAt false (faceColorEnv 12 205) "sky.tif" 7 GL_TEXTURE_CUBE_MAP false
        ((1 : Nat) : Int) ((1 : Nat) : Int) 1 SaveFormat.TIF = Outcome.returned trace ∧
      readbacks trace
        = [(GL_TEXTURE_CUBE_MAP_POSITIVE_X, 0), (GL_TEXTURE_CUBE_MAP_NEGATIVE_X, 12),
           (GL_TEXTURE_CUBE_MAP_POSITIVE_Y, 24), (GL_TEXTURE_CUBE_MAP_NEGATIVE_Y, 36),
           (GL_TEXTURE_CUBE_MAP_POSITIVE_Z, 48), (GL_TEXTURE_CUBE_MAP_NEGATIVE_Z, 60)]) ∧
    (∃ trace,
      SaveTextureAt false (faceColorEnv 12 205) "sky.tif" 7 GL_TEXTURE_2D false
        ((1 : Nat) : Int) ((1 : Nat) : Int) ((1 : Nat) : Int) SaveFormat.TIF
        = Outcome.returned trace ∧
      readbacks trace = [(GL_TEXTURE_2D, 0)]) := by
  have h := C7_texture_readback false false (faceColorEnv 12 205) "sky.tif" 7 1 1
    (by decide) (by decide) rfl SaveFormat.TIF
  obtain ⟨t1, _, a1, a2, _⟩ := h.1 1 (by decide) (by decide)
  obtain ⟨t2, b1, b2, _⟩ := h.2 GL_TEXTURE_2D 1 (by decide) (by decide) (by decide) (by decide)
  exact ⟨⟨t1, a1, a2.trans (by decide)⟩, ⟨t2, b1, b2⟩⟩
/-- C8 (scanline writes of the plane and volume path).  For a texture that is
not a cube map, with in-range sizes, an image of the declared size, a file
that opens and no failing write, `SaveTexture` returns after exactly
`outputHeight = height` scanline writes, for the rows `0, .., height - 1` in
this order; the data of row `r` is the byte range
`[r * linebytes, (r + 1) * linebytes)` of the reordered buffer with
`linebytes = pixelSize * outputWidth`; the rows written, one after the other,
are the whole reordered buffer; and unless the texture is 3D the reordered
buffer is the readback buffer. -/
theorem C8_scanline_writes (hp alpha : Bool) (env : Env) (path : String) (texture : Nat)
    (textureType : Int) (width height depth : Nat)
    (htt : textureType ≠ GL_TEXTURE_CUBE_MAP) (hw : 0 < width) (hh : 0 < height) (hd : 0 < depth)
    (hfit : width * height * volumeDepth textureType depth * pixelBytes hp alpha < 2147483648)
    (htex : (env.texImage textureType).length
      = width * height * volumeDepth textureType depth * pixelBytes hp alpha)
    (hopen : env.openOk = true) (hwrite : ∀ r, r < height → env.writeOk r = true) :
    ∃ reordered trace,
      reorderedBuffer hp alpha env textureType (width : Int) (height : Int) (depth : Int)
        = some reordered ∧
      (reordered.length : Int)
        = bufferSize hp alpha textureType (width : Int) (height : Int) (depth : Int) ∧
      SaveTextureAt hp env path texture textureType alpha (width : Int) (height : Int)
        (depth : Int) SaveFormat.TIF = Outcome.returned trace ∧
      outputHeight textureType (height : Int) = (height : Int) ∧
      outputWidth textureType (width : Int) (depth : Int)
        = ((width * volumeDepth textureType depth : Nat) : Int) ∧
      linebytes hp alpha textureType (width : Int) (depth : Int)
        = ((pixelBytes hp alpha * (width * volumeDepth textureType depth) : Nat) : Int) ∧
      scanlines trace = (List.range height).map (fun r =>
        (r, slice reordered (r * (pixelBytes hp alpha * (width * volumeDepth textureType depth)))
          (pixelBytes hp alpha * (width * volumeDepth textureType depth)))) ∧
      ((List.range height).map (fun r =>
        slice reordered (r * (pixelBytes hp alpha * (width * volumeDepth textureType depth)))
          (pixelBytes hp alpha * (width * volumeDepth textureType depth)))).flatten = reordered ∧
      (textureType ≠ GL_TEXTURE_3D →
        readbackBuffer hp alpha env textureType (width : Int) (height : Int) (depth : Int)
          = some reordered) := by
  have e : width * height * volumeDepth textureType depth * pixelBytes hp alpha
      = height * (width * pixelBytes hp alpha) * volumeDepth textureType depth := by ring
  have eLB : pixelBytes hp alpha * (width * volumeDepth textureType depth)
      = width * volumeDepth textureType depth * pixelBytes hp alpha := by ring
  have eH : height * (width * pixelBytes hp alpha) * volumeDepth textureType depth
      = height * (width * volumeDepth textureType depth * pixelBytes hp alpha) := by ring
  rw [e] at hfit htex
  rw [eLB]
  have hD := effectiveDepth_volumeDepth textureType depth
  have hD0 := volumeDepth_pos textureType depth hd
  have hP := pixelSize_toNat_pos hp alpha
  have hB := bufferSize_standard_natCast hp alpha textureType (depth : Int) width height
    (volumeDepth textureType depth) (pixelBytes hp alpha) (pixelSize_toNat hp alpha) htt hD hD0
    hfit
  have b0 : width * volumeDepth textureType depth * pixelBytes hp alpha
      ≤ height * (width * volumeDepth textureType depth * pixelBytes hp alpha) :=
    Nat.le_mul_of_pos_left _ hh
  have b1 : width * volumeDepth textureType depth
      ≤ width * volumeDepth textureType depth * pixelBytes hp alpha :=
    Nat.le_mul_of_pos_right _ hP
  have hW := outputWidth_standard textureType (depth : Int) width
    (volumeDepth textureType depth) htt hD (by omega)
  have hL := linebytes_standard hp alpha textureType (depth : Int) width
    (volumeDepth textureType depth) (pixelBytes hp alpha) (pixelSize_toNat hp alpha) htt hD
    (by omega)
  obtain ⟨out, hrb, hout, hlen, hne, hrun⟩ := standard_export hp alpha env path texture
    textureType (depth : Int) width height (volumeDepth textureType depth) (pixelBytes hp alpha)
    (pixelSize_toNat hp alpha) htt hD hw hh hD0 hfit hopen htex
  refine ⟨out, _, hout, by rw [hB, hlen], hrun, outputHeight_standard _ _ htt, hW, hL,
    scanlines_trace _ _ _ _ _ _ _ _ _ _ _ _ _ hwrite, ?_, ?_⟩
  · have h1 := slice_eq_flatten out 0
      (width * volumeDepth textureType depth * pixelBytes hp alpha) height
    have h2 : slice out 0 (height * (width * volumeDepth textureType depth * pixelBytes hp alpha))
        = out := by
      rw [← eH, ← hlen]
      exact slice_full out
    rw [h2] at h1
    simp only [Nat.zero_add] at h1
    exact h1.symm
  · intro h3
    rw [hne h3]
    exact hrb

/-- Witness of C8: a 2 x 2 RGB plane holding a byte ramp is written as two rows
of 24 bytes, the bytes 0..23 and 24..47 of the image. -/
theorem C8_scanline_writes_witness :
    ∃ trace,
      SaveTextureAt false (sampleEnv (rampImage 48) 205) "lut.tif" 7 GL_TEXTURE_2D false
        ((2 : Nat) : Int) ((2 : Nat) : Int) ((1 : Nat) : Int) SaveFormat.TIF
        = Outcome.returned trace ∧
      scanlines trace = [(0, slice (rampImage 48) 0 24), (1, slice (rampImage 48) 24 24)] := by
  obtain ⟨out, trace, h1, _, h3, _, _, _, h7, _, h9⟩ :=
    C8_scanline_writes false false (sampleEnv (rampImage 48) 205) "lut.tif" 7 GL_TEXTURE_2D 2 2 1
      (by decide) (by decide) (by decide) (by decide) (by decide) (by decide) rfl
      (fun _ _ => rfl)
  have hrb : readbackBuffer false false (sampleEnv (rampImage 48) 205) GL_TEXTURE_2D
      ((2 : Nat) : Int) ((2 : Nat) : Int) ((1 : Nat) : Int) = some (rampImage 48) := by decide
  have ho : out = rampImage 48 := by
    have := h9 (by decide)
    rw [hrb] at this
    exact (Option.some.inj this).symm
  subst ho
  exact ⟨trace, h3, h7.trans (by decide)⟩
/-- C9 (raster header).  When the file opens and the sizes fit an `int`, for
every texture type the header that `SaveTexture` writes declares 4 samples per
pixel with alpha and 3 without, and 16 bits per sample for half and 32 for
full precision, which is `8 * channelSize`; with `W` the declared image width,
`W * samplesPerPixel * bitsPerSample / 8`, which is also the scanline size the
raster library derives, equals `linebytes`. -/
theorem C9_raster_header (hp alpha : Bool) (env : Env) (path : String) (texture : Nat)
    (width height : Nat) (hw : 0 < width) (hh : 0 < height) (hopen : env.openOk = true) :
    (∀ (textureType : Int) (depth : Nat),
      textureType ≠ GL_TEXTURE_CUBE_MAP → 0 < depth →
      width * height * volumeDepth textureType depth * pixelBytes hp alpha < 2147483648 →
      (env.texImage textureType).length
        = width * height * volumeDepth textureType depth * pixelBytes hp alpha →
      ∃ trace W,
        SaveTextureAt hp env path texture textureType alpha (width : Int) (height : Int)
          (depth : Int) SaveFormat.TIF = Outcome.returned trace ∧
        headerField trace TIFFTAG_SAMPLESPERPIXEL = some (if alpha then 4 else 3) ∧
        headerField trace TIFFTAG_BITSPERSAMPLE = some (if hp then 16 else 32) ∧
        headerField trace TIFFTAG_BITSPERSAMPLE = some (8 * channelSize hp) ∧
        headerField trace TIFFTAG_IMAGEWIDTH = some W ∧
        W = outputWidth textureType (width : Int) (depth : Int) ∧
        W * (if alpha then 4 else 3) * (if hp then 16 else 32) / 8
          = linebytes hp alpha textureType (width : Int) (depth : Int) ∧
        ((TIFFScanlineSize W (if alpha then 4 else 3) (if hp then 16 else 32) : Nat) : Int)
          = linebytes hp alpha textureType (width : Int) (depth : Int)) ∧
    (∀ depth : Int,
      6 * (width * height * pixelBytes hp alpha) < 2147483648 →
      (∀ f, f ∈ cubeFaces →
        (env.texImage f).length = width * height * pixelBytes hp alpha) →
      ∃ trace W,
        SaveTextureAt hp env path texture GL_TEXTURE_CUBE_MAP alpha (width : Int) (height : Int)
          depth SaveFormat.TIF = Outcome.returned trace ∧
        headerField trace TIFFTAG_SAMPLESPERPIXEL = some (if alpha then 4 else 3) ∧
        headerField trace TIFFTAG_BITSPERSAMPLE = some (if hp then 16 else 32) ∧
        headerField trace TIFFTAG_BITSPERSAMPLE = some (8 * channelSize hp) ∧
        headerField trace TIFFTAG_IMAGEWIDTH = some W ∧
        W = outputWidth GL_TEXTURE_CUBE_MAP (width : Int) depth ∧
        W * (if alpha then 4 else 3) * (if hp then 16 else 32) / 8
          = linebytes hp alpha GL_TEXTURE_CUBE_MAP (width : Int) depth ∧
        ((TIFFScanlineSize W (if alpha then 4 else 3) (if hp then 16 else 32) : Nat) : Int)
          = linebytes hp alpha GL_TEXTURE_CUBE_MAP (width : Int) depth) := by
  have hS : sampleperpixel alpha = (if alpha then 4 else 3) := rfl
  have hBits := (bitsPerSample_cases hp).2
  have hBits8 := (bitsPerSample_cases hp).1
  have hP := pixelSize_toNat_pos hp alpha
  have hform : ∀ N : Nat, N < 2147483648 →
      (N : Int) * (if alpha then 4 else 3) * (if hp then 16 else 32) / 8
        = ((N * pixelBytes hp alpha : Nat) : Int) ∧
      ((TIFFScanlineSize (N : Int) (if alpha then 4 else 3) (if hp then 16 else 32) : Nat) : Int)
        = ((N * pixelBytes hp alpha : Nat) : Int) := by
    intro N hN
    have h1 := header_scanline hp alpha N
    have h2 := scanlineSize_natCast hp alpha N (pixelBytes hp alpha) (pixelSize_toNat hp alpha)
      (by omega)
    unfold scanlineSize at h2
    rw [hS, hBits] at h1 h2
    exact ⟨h1, by rw [h2]⟩
  refine ⟨?_, ?_⟩
  · intro textureType depth htt hd hfit htex
    have e : width * height * volumeDepth textureType depth * pixelBytes hp alpha
        = height * (width * pixelBytes hp alpha) * volumeDepth textureType depth := by ring
    have eH : height * (width * pixelBytes hp alpha) * volumeDepth textureType depth
        = height * (width * volumeDepth textureType depth * pixelBytes hp alpha) := by ring
    rw [e] at hfit htex
    have hD := effectiveDepth_volumeDepth textureType depth
    have hD0 := volumeDepth_pos textureType depth hd
    have b0 : width * volumeDepth textureType depth * pixelBytes hp alpha
        ≤ height * (width * volumeDepth textureType depth * pixelBytes hp alpha) :=
      Nat.le_mul_of_pos_left _ hh
    have b1 : width * volumeDepth textureType depth
        ≤ width * volumeDepth textureType depth * pixelBytes hp alpha :=
      Nat.le_mul_of_pos_right _ hP
    have hW := outputWidth_standard textureType (depth : Int) width
      (volumeDepth textureType depth) htt hD (by omega)
    have hL := linebytes_standard hp alpha textureType (depth : Int) width
      (volumeDepth textureType depth) (pixelBytes hp alpha) (pixelSize_toNat hp alpha) htt hD
      (by omega)
    obtain ⟨f1, f2⟩ := hform (width * volumeDepth textureType depth) (by omega)
    obtain ⟨out, _, _, _, _, hrun⟩ := standard_export hp alpha env path texture
      textureType (depth : Int) width height (volumeDepth textureType depth) (pixelBytes hp alpha)
      (pixelSize_toNat hp alpha) htt hD hw hh hD0 hfit hopen htex
    have hf := headerField_trace hp alpha path texture textureType (width : Int) (height : Int)
      ((width * volumeDepth textureType depth : Nat) : Int) (height : Int)
      (TIFFDefaultStripSize (width * volumeDepth textureType depth * pixelBytes hp alpha)
        (imul (width : Int) (sampleperpixel alpha)))
      env.writeOk
      (fun r => slice out (r * (width * volumeDepth textureType depth * pixelBytes hp alpha))
        (width * volumeDepth textureType depth * pixelBytes hp alpha))
      height
    exact ⟨_, _, hrun, hf.2.2.1.trans (by rw [hS]), hf.2.2.2.trans (by rw [hBits]),
      hf.2.2.2.trans (by rw [hBits8]), hf.1, hW.symm, f1.trans hL.symm, f2.trans hL.symm⟩
  · intro depth hfit htex
    have e : width * height * pixelBytes hp alpha = height * width * pixelBytes hp alpha := by
      ring
    rw [e] at hfit htex
    obtain ⟨c1, c2, c3, c4⟩ := cube_sizes_bound width height (pixelBytes hp alpha) hw hh hP hfit
    obtain ⟨f1, f2⟩ := hform (width * 3) c2
    have hW := outputWidth_cube depth width c2
    have hL := linebytes_cube hp alpha depth width (pixelBytes hp alpha) (pixelSize_toNat hp alpha)
      c4
    obtain ⟨rb, _, _, _, _, hrun⟩ := cube_export hp alpha env path texture depth width height
      (pixelBytes hp alpha) (pixelSize_toNat hp alpha) hw hh hfit hopen htex
    have hf := headerField_trace hp alpha path texture GL_TEXTURE_CUBE_MAP (width : Int)
      (height : Int) ((width * 3 : Nat) : Int) ((height * 4 : Nat) : Int)
      (TIFFDefaultStripSize (width * 3 * pixelBytes hp alpha)
        (imul (width : Int) (sampleperpixel alpha)))
      env.writeOk
      (crossLine rb ((List.range (width * pixelBytes hp alpha)).map env.freshZero) height
        (height * width * pixelBytes hp alpha) (width * pixelBytes hp alpha))
      (height * 4)
    exact ⟨_, _, hrun, hf.2.2.1.trans (by rw [hS]), hf.2.2.2.trans (by rw [hBits]),
      hf.2.2.2.trans (by rw [hBits8]), hf.1, hW.symm, f1.trans hL.symm, f2.trans hL.symm⟩

/-- Witness of C9: the header of a 1 x 1 RGB full precision plane declares 3
samples of 32 bits, and of a 1 x 1 cube map as well. -/
theorem C9_raster_header_witness :
    (∃ trace,
      SaveTextureAt false (sampleEnv (rampImage 12) 205) "lut.tif" 7 GL_TEXTURE_2D false
        ((1 : Nat) : Int) ((1 : Nat) : Int) ((1 : Nat) : Int) SaveFormat.TIF
        = Outcome.returned trace ∧
      headerField trace TIFFTAG_SAMPLESPERPIXEL = some 3 ∧
      headerField trace TIFFTAG_BITSPERSAMPLE = some 32) ∧
    (∃ trace,
      SaveTextureAt false (sampleEnv (rampImage 12) 205) "lut.tif" 7 GL_TEXTURE_CUBE_MAP false
        ((1 : Nat) : Int) ((1 : Nat) : Int) 1 SaveFormat.TIF = Outcome.returned trace ∧
      headerField trace TIFFTAG_SAMPLESPERPIXEL = some 3 ∧
      headerField trace TIFFTAG_BITSPERSAMPLE = some 32) := by
  have h := C9_raster_header false false (sampleEnv (rampImage 12) 205) "lut.tif" 7 1 1
    (by decide) (by decide) rfl
  obtain ⟨t1, _, a1, a2, a3, _⟩ :=
    h.1 GL_TEXTURE_2D 1 (by decide) (by decide) (by decide) (by decide)
  obtain ⟨t2, _, b1, b2, b3, _⟩ := h.2 1 (by decide) (by decide)
  exact ⟨⟨t1, a1, a2, a3⟩, ⟨t2, b1, b2, b3⟩⟩
/-- C11 (scanline write failure), evaluated on a 1 x 2 RGB texture whose
scanline write fails for row 0: `SaveTexture` attempts that one write and no
other, and then returns normally; it reports nothing to its caller, so in
particular no `EncodeError` naming row 0. -/
theorem C11_write_failure_not_reported :
    (SaveTexture (failingWriteEnv (rampImage 24) 205 0) "lut.tif" 7 GL_TEXTURE_2D false 1 2 1
      SaveFormat.TIF).reported = none ∧
    writeAttempts (SaveTexture (failingWriteEnv (rampImage 24) 205 0) "lut.tif" 7 GL_TEXTURE_2D
      false 1 2 1 SaveFormat.TIF).trace = [(0, false)] ∧
    (SaveTexture (failingWriteEnv (rampImage 24) 205 0) "lut.tif" 7 GL_TEXTURE_2D false 1 2 1
      SaveFormat.TIF).reported ≠ some (ExportError.EncodeError 0) := by
  decide

/-- C11 (scanline write failure), as the code behaves.  For every texture type,
with sizes that fit an `int`, texture images of the declared size and a file
that opens: if the scanline writes of the rows before `r` succeed and the
write of row `r` fails, with `r` below the output height (`height`, or
`4 * height` for a cube map), then `SaveTexture` attempts the writes of the
rows `0, .., r` in this order and no write for a later row, closes the file,
and returns normally without reporting an error to its caller. -/
theorem C11_write_failure (hp alpha : Bool) (env : Env) (path : String) (texture : Nat)
    (width height r : Nat) (hw : 0 < width) (hh : 0 < height) (hopen : env.openOk = true)
    (hok : ∀ q, q < r → env.writeOk q = true) (hfail : env.writeOk r = false) :
    (∀ (textureType : Int) (depth : Nat),
      textureType ≠ GL_TEXTURE_CUBE_MAP → 0 < depth → r < height →
      width * height * volumeDepth textureType depth * pixelBytes hp alpha < 2147483648 →
      (env.texImage textureType).length
        = width * height * volumeDepth textureType depth * pixelBytes hp alpha →
      ∃ body,
        SaveTextureAt hp env path texture textureType alpha (width : Int) (height : Int)
          (depth : Int) SaveFormat.TIF = Outcome.returned (body ++ [Event.TIFFClose]) ∧
        writeAttempts (body ++ [Event.TIFFClose])
          = (List.range r).map (fun q => (q, true)) ++ [(r, false)] ∧
        (SaveTextureAt hp env path texture textureType alpha (width : Int) (height : Int)
          (depth : Int) SaveFormat.TIF).reported = none) ∧
    (∀ depth : Int, r < 4 * height →
      6 * (width * height * pixelBytes hp alpha) < 2147483648 →
      (∀ f, f ∈ cubeFaces →
        (env.texImage f).length = width * height * pixelBytes hp alpha) →
      ∃ body,
        SaveTextureAt hp env path texture GL_TEXTURE_CUBE_MAP alpha (width : Int) (height : Int)
          depth SaveFormat.TIF = Outcome.returned (body ++ [Event.TIFFClose]) ∧
        writeAttempts (body ++ [Event.TIFFClose])
          = (List.range r).map (fun q => (q, true)) ++ [(r, false)] ∧
        (SaveTextureAt hp env path texture GL_TEXTURE_CUBE_MAP alpha (width : Int) (height : Int)
          depth SaveFormat.TIF).reported = none) := by
  refine ⟨?_, ?_⟩
  · intro textureType depth htt hd hr hfit htex
    have e : width * height * volumeDepth textureType depth * pixelBytes hp alpha
        = height * (width * pixelBytes hp alpha) * volumeDepth textureType depth := by ring
    rw [e] at hfit htex
    obtain ⟨out, _, _, _, _, hrun⟩ := standard_export hp alpha env path texture textureType
      (depth : Int) width height (volumeDepth textureType depth) (pixelBytes hp alpha)
      (pixelSize_toNat hp alpha) htt (effectiveDepth_volumeDepth textureType depth) hw hh
      (volumeDepth_pos textureType depth hd) hfit hopen htex
    exact ⟨_, hrun, writeAttempts_trace_fail _ _ _ _ _ _ _ _ _ _ _ _ _ r hr hok hfail,
      SaveTextureAt_reported _ _ _ _ _ _ _ _ _ _⟩
  · intro depth hr hfit htex
    have e : width * height * pixelBytes hp alpha = height * width * pixelBytes hp alpha := by
      ring
    rw [e] at hfit htex
    have hr' : r < height * 4 := by omega
    obtain ⟨rb, _, _, _, _, hrun⟩ := cube_export hp alpha env path texture depth width height
      (pixelBytes hp alpha) (pixelSize_toNat hp alpha) hw hh hfit hopen htex
    exact ⟨_, hrun, writeAttempts_trace_fail _ _ _ _ _ _ _ _ _ _ _ _ _ r hr' hok hfail,
      SaveTextureAt_reported _ _ _ _ _ _ _ _ _ _⟩

/-- Witness of C11: a 1 x 2 RGB texture, as a plane and as a cube map, whose
write of row 1 fails. -/
theorem C11_write_failure_witness :
    (∃ body,
      SaveTextureAt false (failingWriteEnv (rampImage 24) 205 1) "lut.tif" 7 GL_TEXTURE_2D false
        ((1 : Nat) : Int) ((2 : Nat) : Int) ((1 : Nat) : Int) SaveFormat.TIF
        = Outcome.returned (body ++ [Event.TIFFClose]) ∧
      writeAttempts (body ++ [Event.TIFFClose]) = [(0, true), (1, false)]) ∧
    (∃ body,
      SaveTextureAt false (failingWriteEnv (rampImage 24) 205 1) "lut.tif" 7 GL_TEXTURE_CUBE_MAP
        false ((1 : Nat) : Int) ((2 : Nat) : Int) 1 SaveFormat.TIF
        = Outcome.returned (body ++ [Event.TIFFClose]) ∧
      writeAttempts (body ++ [Event.TIFFClose]) = [(0, true), (1, false)]) := by
  have h := C11_write_failure false false (failingWriteEnv (rampImage 24) 205 1) "lut.tif" 7 1 2 1
    (by decide) (by decide) rfl (by decide) rfl
  obtain ⟨b1, a1, a2, _⟩ :=
    h.1 GL_TEXTURE_2D 1 (by decide) (by decide) (by decide) (by decide) (by decide)
  obtain ⟨b2, c1, c2, _⟩ := h.2 1 (by decide) (by decide) (by decide)
  exact ⟨⟨b1, a1, a2⟩, ⟨b2, c1, c2⟩⟩

/-- C13 (determinism of the export), evaluated on two runs for the same 1 x 1
RGB cube map with the same arguments, the same texture data and the same
answers of the raster library, which differ only in what the memory handed
out by the allocator holds (the byte 0 in one run, the byte 205 in the other):
both runs set the same header fields, and the scanlines they hand to the
encoder differ. -/
theorem C13_cube_export_not_deterministic :
    (faceColorEnv 12 0).texImage = (faceColorEnv 12 205).texImage ∧
    (faceColorEnv 12 0).openOk = (faceColorEnv 12 205).openOk ∧
    (faceColorEnv 12 0).writeOk = (faceColorEnv 12 205).writeOk ∧
    (∀ tag, headerField (SaveTexture (faceColorEnv 12 0) "sky.tif" 7
          GL_TEXTURE_CUBE_MAP false 1 1 1 SaveFormat.TIF).trace tag
        = headerField (SaveTexture (faceColorEnv 12 205) "sky.tif" 7
          GL_TEXTURE_CUBE_MAP false 1 1 1 SaveFormat.TIF).trace tag) ∧
    scanlines (SaveTexture (faceColorEnv 12 0) "sky.tif" 7
        GL_TEXTURE_CUBE_MAP false 1 1 1 SaveFormat.TIF).trace
      ≠ scanlines (SaveTexture (faceColorEnv 12 205) "sky.tif" 7
        GL_TEXTURE_CUBE_MAP false 1 1 1 SaveFormat.TIF).trace :=
  ⟨rfl, rfl, rfl, fun _ => rfl, by decide⟩

/-- C14 (the volume transform is a lossless relocation).  For a 3D texture of
positive width, height and depth whose byte count fits an `int` and whose
image has the declared size, with `L = width * pixelSize`: the destination
offset the code computes for `(z, y)` is
`z * (width * pixelSize) + y * (width * depth * pixelSize)`; this offset is
the start `k * L` of one of the `depth * height` scanline slots, every slot is
hit, and two distinct pairs `(z, y)` hit distinct slots; `bufferSize` is
`depth * height * L` and every byte offset below it lies in exactly one slot;
the readback and the transform succeed, the scanline slots of the reordered
buffer are a permutation of those of the readback buffer, and the slot at the
destination offset of `(z, y)` holds the unchanged bytes of source scanline
`(z, y)`. -/
theorem C14_volume_relocation (hp alpha : Bool) (env : Env) (width height depth : Nat)
    (hw : 0 < width) (hh : 0 < height) (hd : 0 < depth)
    (hfit : width * height * depth * pixelBytes hp alpha < 2147483648)
    (htex : (env.texImage GL_TEXTURE_3D).length = width * height * depth * pixelBytes hp alpha) :
    (∀ z y, z < depth → y < height →
      destLineStart (width : Int) (depth : Int) (pixelSize hp alpha) (z : Int) (y : Int)
        = ((z * (width * pixelBytes hp alpha) + y * (width * depth * pixelBytes hp alpha) : Nat)
            : Int)) ∧
    (∀ z y, z < depth → y < height →
      ∃ k, k < depth * height ∧
        z * (width * pixelBytes hp alpha) + y * (width * depth * pixelBytes hp alpha)
          = k * (width * pixelBytes hp alpha)) ∧
    (∀ k, k < depth * height →
      ∃ z y, z < depth ∧ y < height ∧
        z * (width * pixelBytes hp alpha) + y * (width * depth * pixelBytes hp alpha)
          = k * (width * pixelBytes hp alpha)) ∧
    (∀ z y z' y', z < depth → y < height → z' < depth → y' < height →
      z * (width * pixelBytes hp alpha) + y * (width * depth * pixelBytes hp alpha)
        = z' * (width * pixelBytes hp alpha) + y' * (width * depth * pixelBytes hp alpha) →
      z = z' ∧ y = y') ∧
    bufferSize hp alpha GL_TEXTURE_3D (width : Int) (height : Int) (depth : Int)
      = ((depth * height * (width * pixelBytes hp alpha) : Nat) : Int) ∧
    (∀ b, b < depth * height * (width * pixelBytes hp alpha) →
      ∃! k, k < depth * height ∧ k * (width * pixelBytes hp alpha) ≤ b ∧
        b < k * (width * pixelBytes hp alpha) + width * pixelBytes hp alpha) ∧
    ∃ readbackBuf reordered,
      readbackBuffer hp alpha env GL_TEXTURE_3D (width : Int) (height : Int) (depth : Int)
        = some readbackBuf ∧
      reorderedBuffer hp alpha env GL_TEXTURE_3D (width : Int) (height : Int) (depth : Int)
        = some reordered ∧
      readbackBuf.length = depth * height * (width * pixelBytes hp alpha) ∧
      reordered.length = depth * height * (width * pixelBytes hp alpha) ∧
      List.Perm (scanlineSlots reordered (depth * height) (width * pixelBytes hp alpha))
        (scanlineSlots readbackBuf (depth * height) (width * pixelBytes hp alpha)) ∧
      ∀ z y, z < depth → y < height →
        slice reordered
            (z * (width * pixelBytes hp alpha) + y * (width * depth * pixelBytes hp alpha))
            (width * pixelBytes hp alpha)
          = slice readbackBuf
            (z * (width * height * pixelBytes hp alpha) + y * (width * pixelBytes hp alpha))
            (width * pixelBytes hp alpha) := by
  have hP := pixelSize_toNat_pos hp alpha
  have hL : 0 < width * pixelBytes hp alpha := Nat.mul_pos hw hP
  have e : width * height * depth * pixelBytes hp alpha
      = height * (width * pixelBytes hp alpha) * depth := by ring
  have eB : depth * height * (width * pixelBytes hp alpha)
      = height * (width * pixelBytes hp alpha) * depth := by ring
  have eD : ∀ z y : Nat,
      z * (width * pixelBytes hp alpha) + y * (width * depth * pixelBytes hp alpha)
        = (z + y * depth) * (width * pixelBytes hp alpha) := by
    intro z y; ring
  rw [e] at hfit htex
  obtain ⟨hrb, out, hout, hlen, _, hI⟩ := standard_buffers hp alpha env GL_TEXTURE_3D (depth : Int)
    width height depth (pixelBytes hp alpha) (pixelSize_toNat hp alpha) (by decide)
    (effectiveDepth_volume _) hh hd hfit htex
  refine ⟨?_, ?_, ?_, ?_, ?_, ?_, ?_⟩
  · intro z y hz hy
    have hPs : pixelSize hp alpha = ((pixelBytes hp alpha : Nat) : Int) := pixelSize_toNat hp alpha
    rw [hPs]
    exact (lineStart_natCast width height depth (pixelBytes hp alpha) z y hz hy hfit).2.2
  · intro z y hz hy
    exact ⟨z + y * depth, slot_lt depth height z y hz hy, eD z y⟩
  · intro k hk
    refine ⟨k % depth, k / depth, Nat.mod_lt _ hd,
      (Nat.div_lt_iff_lt_mul hd).2 (by rw [Nat.mul_comm]; exact hk), ?_⟩
    rw [eD, Nat.mul_comm (k / depth) depth, Nat.mod_add_div]
  · intro z y z' y' hz hy hz' hy' he
    rw [eD, eD] at he
    have := Nat.eq_of_mul_eq_mul_right hL he
    have := (slot_eq_iff depth z' y' z y hz' hz).1 this
    exact ⟨this.1, this.2⟩
  · rw [eB]
    exact bufferSize_volume_natCast hp alpha width height depth (pixelBytes hp alpha)
      (pixelSize_toNat hp alpha) hd hfit
  · intro b hb
    exact slots_unique _ _ b hb
  · refine ⟨_, out, hrb, hout, by rw [htex, eB], by rw [hlen, eB],
      scanlineSlots_perm out _ depth height _ hd (hI rfl), ?_⟩
    intro z y hz hy
    rw [slice_eq_iff]
    intro j hj
    have e2 : z * (width * height * pixelBytes hp alpha) + y * (width * pixelBytes hp alpha) + j
        = z * (height * (width * pixelBytes hp alpha)) + y * (width * pixelBytes hp alpha) + j := by
      ring
    rw [eD, e2]
    exact hI rfl z y j hz hy hj

/-- Witness of C14: a 1 x 2 x 3 RGBA volume holding the bytes 0, .., 95. -/
theorem C14_volume_relocation_witness :
    ∃ readbackBuf reordered,
      readbackBuffer false true (sampleEnv (rampImage 96) 205) GL_TEXTURE_3D
        ((1 : Nat) : Int) ((2 : Nat) : Int) ((3 : Nat) : Int) = some readbackBuf ∧
      reorderedBuffer false true (sampleEnv (rampImage 96) 205) GL_TEXTURE_3D
        ((1 : Nat) : Int) ((2 : Nat) : Int) ((3 : Nat) : Int) = some reordered ∧
      List.Perm (scanlineSlots reordered (3 * 2) (1 * pixelBytes false true))
        (scanlineSlots readbackBuf (3 * 2) (1 * pixelBytes false true)) := by
  obtain ⟨_, _, _, _, _, _, rb, out, h1, h2, _, _, h5, _⟩ :=
    C14_volume_relocation false true (sampleEnv (rampImage 96) 205) 1 2 3
      (by decide) (by decide) (by decide) (by decide) (by decide)
  exact ⟨rb, out, h1, h2, h5⟩

/-- C15 (bounds safety of every copy).  For positive width, height and depth
and sizes that fit an `int`: in the volume transform `srcLineStart` and
`destLineStart` are not negative and `srcLineStart + srcLineSize` and
`destLineStart + srcLineSize` are at most `bufferSize`, and the transform is
defined on buffers of `bufferSize` bytes; in the standard write, for every row
below `outputHeight = height`, `(row + 1) * linebytes` is at most `bufferSize`
and the copy of the row is defined; in the cube map write
`bufferSize = 6 * panelSize` and `linebytes = 3 * thirdBytes`, and for every
row below `outputHeight = 4 * height` the band `row / height` is below 4, for
every face index below 6 the face read
`faceIndex * panelSize + faceRow * thirdBytes + thirdBytes` is at most
`bufferSize`, and the three copies of the row are defined and fill a row
buffer of `linebytes` bytes. -/
theorem C15_bounds_safety (hp alpha : Bool) (width height depth : Nat)
    (hw : 0 < width) (hh : 0 < height) (hd : 0 < depth) :
    (width * height * depth * pixelBytes hp alpha < 2147483648 →
      (∀ z y : Nat, z < depth → y < height →
        0 ≤ srcLineStart (width : Int) (pixelSize hp alpha)
            (panelSize hp alpha (width : Int) (height : Int)) (z : Int) (y : Int) ∧
        srcLineStart (width : Int) (pixelSize hp alpha)
            (panelSize hp alpha (width : Int) (height : Int)) (z : Int) (y : Int)
            + srcLineSize (width : Int) (pixelSize hp alpha)
          ≤ bufferSize hp alpha GL_TEXTURE_3D (width : Int) (height : Int) (depth : Int) ∧
        0 ≤ destLineStart (width : Int) (depth : Int) (pixelSize hp alpha) (z : Int) (y : Int) ∧
        destLineStart (width : Int) (depth : Int) (pixelSize hp alpha) (z : Int) (y : Int)
            + srcLineSize (width : Int) (pixelSize hp alpha)
          ≤ bufferSize hp alpha GL_TEXTURE_3D (width : Int) (height : Int) (depth : Int)) ∧
      ∀ pixelbuffer tempbuffer : List byte,
        (pixelbuffer.length : Int)
          = bufferSize hp alpha GL_TEXTURE_3D (width : Int) (height : Int) (depth : Int) →
        (tempbuffer.length : Int)
          = bufferSize hp alpha GL_TEXTURE_3D (width : Int) (height : Int) (depth : Int) →
        ∃ out, reorderVolume (width : Int) (height : Int) (depth : Int) (pixelSize hp alpha)
            (panelSize hp alpha (width : Int) (height : Int))
            (bufferSize hp alpha GL_TEXTURE_3D (width : Int) (height : Int) (depth : Int))
            pixelbuffer tempbuffer = some out ∧
          out.length = pixelbuffer.length) ∧
    (∀ textureType : Int, textureType ≠ GL_TEXTURE_CUBE_MAP →
      width * height * volumeDepth textureType depth * pixelBytes hp alpha < 2147483648 →
      outputHeight textureType (height : Int) = (height : Int) ∧
      ∀ row : Nat, row < height →
        0 ≤ (row : Int) * linebytes hp alpha textureType (width : Int) (depth : Int) ∧
        ((row : Int) + 1) * linebytes hp alpha textureType (width : Int) (depth : Int)
          ≤ bufferSize hp alpha textureType (width : Int) (height : Int) (depth : Int) ∧
        ∀ pixelbuffer buf : List byte,
          (pixelbuffer.length : Int)
            = bufferSize hp alpha textureType (width : Int) (height : Int) (depth : Int) →
          (buf.length : Int) = linebytes hp alpha textureType (width : Int) (depth : Int) →
          ∃ line, standardRow pixelbuffer
              (linebytes hp alpha textureType (width : Int) (depth : Int)) row buf = some line ∧
            line.length = buf.length) ∧
    (6 * (width * height * pixelBytes hp alpha) < 2147483648 →
      bufferSize hp alpha GL_TEXTURE_CUBE_MAP (width : Int) (height : Int) (depth : Int)
        = 6 * panelSize hp alpha (width : Int) (height : Int) ∧
      linebytes hp alpha GL_TEXTURE_CUBE_MAP (width : Int) (depth : Int)
        = 3 * thirdBytes hp alpha GL_TEXTURE_CUBE_MAP (width : Int) (depth : Int) ∧
      0 ≤ thirdBytes hp alpha GL_TEXTURE_CUBE_MAP (width : Int) (depth : Int) ∧
      outputHeight GL_TEXTURE_CUBE_MAP (height : Int) = ((height * 4 : Nat) : Int) ∧
      ∀ row : Nat, row < 4 * height →
        row / height < 4 ∧
        (∀ faceIndex : Nat, faceIndex < 6 →
          0 ≤ faceLine (GL_TEXTURE_CUBE_MAP_POSITIVE_X + (faceIndex : Int))
              (panelSize hp alpha (width : Int) (height : Int)) ((row % height : Nat) : Int)
              (thirdBytes hp alpha GL_TEXTURE_CUBE_MAP (width : Int) (depth : Int)) ∧
          faceLine (GL_TEXTURE_CUBE_MAP_POSITIVE_X + (faceIndex : Int))
              (panelSize hp alpha (width : Int) (height : Int)) ((row % height : Nat) : Int)
              (thirdBytes hp alpha GL_TEXTURE_CUBE_MAP (width : Int) (depth : Int))
            + thirdBytes hp alpha GL_TEXTURE_CUBE_MAP (width : Int) (depth : Int)
            ≤ bufferSize hp alpha GL_TEXTURE_CUBE_MAP (width : Int) (height : Int)
                (depth : Int)) ∧
        ∀ pixelbuffer zerobuf buf : List byte,
          (pixelbuffer.length : Int)
            = bufferSize hp alpha GL_TEXTURE_CUBE_MAP (width : Int) (height : Int) (depth : Int) →
          (zerobuf.length : Int)
            = thirdBytes hp alpha GL_TEXTURE_CUBE_MAP (width : Int) (depth : Int) →
          (buf.length : Int) = linebytes hp alpha GL_TEXTURE_CUBE_MAP (width : Int) (depth : Int) →
          ∃ line, cubeRow pixelbuffer zerobuf (height : Int)
              (panelSize hp alpha (width : Int) (height : Int))
              (thirdBytes hp alpha GL_TEXTURE_CUBE_MAP (width : Int) (depth : Int)) row buf
              = some line ∧
            line.length = buf.length) := by
  refine ⟨?_, ?_, ?_⟩
  · intro hfit
    have e : width * height * depth * pixelBytes hp alpha
        = height * (width * pixelBytes hp alpha) * depth := by ring
    rewrite [e] at hfit
    exact volume_copies_in_bounds hp alpha width height depth (pixelBytes hp alpha)
      (pixelSize_toNat hp alpha) hh hd hfit
  · intro textureType htt hfit
    have e : width * height * volumeDepth textureType depth * pixelBytes hp alpha
        = height * (width * pixelBytes hp alpha) * volumeDepth textureType depth := by ring
    rewrite [e] at hfit
    exact standard_copies_in_bounds hp alpha textureType (depth : Int) width height
      (volumeDepth textureType depth) (pixelBytes hp alpha) (pixelSize_toNat hp alpha) htt
      (effectiveDepth_volumeDepth textureType depth) hh (volumeDepth_pos textureType depth hd) hfit
  · intro hfit
    have e : width * height * pixelBytes hp alpha = height * width * pixelBytes hp alpha := by
      rw [Nat.mul_comm width height]
    rewrite [e] at hfit
    exact cube_copies_in_bounds hp alpha (depth : Int) width height (pixelBytes hp alpha)
      (pixelSize_toNat hp alpha) hw hh hfit

/-- Witness of C15: a 2 x 2 x 2 RGB volume at slice 1 and row 1, a 2 x 2 RGB
plane at row 1, and a 2 x 2 RGB cube map at row 7 and face index 5. -/
theorem C15_bounds_safety_witness :
    (srcLineStart ((2 : Nat) : Int) (pixelSize false false)
          (panelSize false false ((2 : Nat) : Int) ((2 : Nat) : Int)) ((1 : Nat) : Int)
          ((1 : Nat) : Int) + srcLineSize ((2 : Nat) : Int) (pixelSize false false)
        ≤ bufferSize false false GL_TEXTURE_3D ((2 : Nat) : Int) ((2 : Nat) : Int)
          ((2 : Nat) : Int) ∧
      destLineStart ((2 : Nat) : Int) ((2 : Nat) : Int) (pixelSize false false)
          ((1 : Nat) : Int) ((1 : Nat) : Int) + srcLineSize ((2 : Nat) : Int) (pixelSize false false)
        ≤ bufferSize false false GL_TEXTURE_3D ((2 : Nat) : Int) ((2 : Nat) : Int)
          ((2 : Nat) : Int)) ∧
    (((1 : Nat) : Int) + 1) * linebytes false false GL_TEXTURE_2D ((2 : Nat) : Int)
        ((2 : Nat) : Int)
      ≤ bufferSize false false GL_TEXTURE_2D ((2 : Nat) : Int) ((2 : Nat) : Int)
        ((2 : Nat) : Int) ∧
    faceLine (GL_TEXTURE_CUBE_MAP_POSITIVE_X + ((5 : Nat) : Int))
        (panelSize false false ((2 : Nat) : Int) ((2 : Nat) : Int)) ((7 % 2 : Nat) : Int)
        (thirdBytes false false GL_TEXTURE_CUBE_MAP ((2 : Nat) : Int) ((2 : Nat) : Int))
      + thirdBytes false false GL_TEXTURE_CUBE_MAP ((2 : Nat) : Int) ((2 : Nat) : Int)
      ≤ bufferSize false false GL_TEXTURE_CUBE_MAP ((2 : Nat) : Int) ((2 : Nat) : Int)
        ((2 : Nat) : Int) :=
  have h := C15_bounds_safety false false 2 2 2 (by decide) (by decide) (by decide)
  have hv := (h.1 (by decide)).1 1 1 (by decide) (by decide)
  have hs := ((h.2.1 GL_TEXTURE_2D (by decide) (by decide)).2 1 (by decide)).2.1
  have hc := (((h.2.2 (by decide)).2.2.2.2 7 (by decide)).2.1 5 (by decide)).2
  ⟨⟨hv.2.1, hv.2.2.2⟩, hs, hc⟩

/-- C16 (cell count of the cross layout), evaluated on a 1 x 1 RGB cube map
whose faces hold the bytes 1, .., 6 and whose fresh memory holds the byte 205:
the raster has four rows of three cells of one face size each, twelve cells
and not eighteen; six of them hold a face and six, not twelve, are blank. -/
theorem C16_cross_has_twelve_cells :
    (scanlines (SaveTexture (faceColorEnv 12 205) "cube.tif" 7 GL_TEXTURE_CUBE_MAP false 1 1 1
        SaveFormat.TIF).trace).map
        (fun p => (p.1, [slice p.2 0 12, slice p.2 12 12, slice p.2 24 12], p.2.length))
      = [(0, [List.replicate 12 205, List.replicate 12 3, List.replicate 12 205], 36),
         (1, [List.replicate 12 2, List.replicate 12 5, List.replicate 12 1], 36),
         (2, [List.replicate 12 205, List.replicate 12 4, List.replicate 12 205], 36),
         (3, [List.replicate 12 205, List.replicate 12 6, List.replicate 12 205], 36)] ∧
    crossCells.length = 12 ∧ crossCells.length ≠ 18 ∧
    (crossCells.filter (fun c => (cellFace c.1 c.2).isSome)).length = 6 ∧
    (crossCells.filter (fun c => (cellFace c.1 c.2).isNone)).length = 6 ∧
    (crossCells.filter (fun c => (cellFace c.1 c.2).isNone)).length ≠ 12 := by
  decide

/-- C16 (cell count of the cross layout), as the code behaves.  The raster of a
cube map has 4 row bands of 3 column thirds, that is 12 cells; 6 of them are
populated, each cube face in exactly one cell, and the other 6 are blank.  For
a cube map of positive width and height whose byte count fits an `int` and
whose face images have the declared size, when the file opens and no write
fails, `SaveTexture` writes the rows `0, .., 4 * height - 1`, each of three
thirds, and third `col` of row `r` is scanline `r mod height` of the face of
cell `(r / height, col)` if the cell is populated and the contents of
`zerobuf` if it is blank. -/
theorem C16_cross_cell_count (hp alpha : Bool) (env : Env) (path : String) (texture : Nat)
    (depth : Int) (width height : Nat) (hw : 0 < width) (hh : 0 < height)
    (hfit : 6 * (width * height * pixelBytes hp alpha) < 2147483648)
    (htex : ∀ f, f ∈ cubeFaces →
      (env.texImage f).length = width * height * pixelBytes hp alpha)
    (hopen : env.openOk = true) (hwrite : ∀ r, r < 4 * height → env.writeOk r = true) :
    crossCells.length = 12 ∧
    (crossCells.filter (fun c => (cellFace c.1 c.2).isSome)).length = 6 ∧
    (crossCells.filter (fun c => (cellFace c.1 c.2).isNone)).length = 6 ∧
    List.Perm (crossCells.filterMap (fun c => cellFace c.1 c.2)) cubeFaces ∧
    ∃ (trace : List Event) (lines : Nat → List byte),
      SaveTextureAt hp env path texture GL_TEXTURE_CUBE_MAP alpha (width : Int) (height : Int)
        depth SaveFormat.TIF = Outcome.returned trace ∧
      scanlines trace = (List.range (4 * height)).map (fun r => (r, lines r)) ∧
      ∀ r col, r < 4 * height → col < 3 →
        (r / height, col) ∈ crossCells ∧
        (lines r).length = 3 * (width * pixelBytes hp alpha) ∧
        slice (lines r) (col * (width * pixelBytes hp alpha)) (width * pixelBytes hp alpha)
          = match cellFace (r / height) col with
            | some face => slice (env.texImage face)
                (r % height * (width * pixelBytes hp alpha)) (width * pixelBytes hp alpha)
            | none => (List.range (width * pixelBytes hp alpha)).map env.freshZero := by
  have e : width * height * pixelBytes hp alpha = height * width * pixelBytes hp alpha := by ring
  have e1 : height * width * pixelBytes hp alpha = height * (width * pixelBytes hp alpha) :=
    Nat.mul_assoc _ _ _
  have e4 : 4 * height = height * 4 := Nat.mul_comm _ _
  rw [e] at hfit htex
  have hzb : ((List.range (width * pixelBytes hp alpha)).map env.freshZero).length
      = width * pixelBytes hp alpha := by simp
  have hpanel : height * (width * pixelBytes hp alpha) ≤ height * width * pixelBytes hp alpha :=
    Nat.le_of_eq e1.symm
  have hwrite' : ∀ r, r < height * 4 → env.writeOk r = true :=
    fun r hr => hwrite r (by omega)
  obtain ⟨rb, hlen, hI, _, _, hrun⟩ := cube_export hp alpha env path texture depth width height
    (pixelBytes hp alpha) (pixelSize_toNat hp alpha) hw hh hfit hopen htex
  refine ⟨by decide, by decide, by decide, by decide, _,
    crossLine rb ((List.range (width * pixelBytes hp alpha)).map env.freshZero) height
    (height * width * pixelBytes hp alpha) (width * pixelBytes hp alpha), hrun, ?_, ?_⟩
  · rewrite [scanlines_trace _ _ _ _ _ _ _ _ _ _ _ _ _ hwrite', e4]
    rfl
  · intro r col hr hcol
    refine ⟨?_, ?_, ?_⟩
    · have hb : r / height < 4 := (Nat.div_lt_iff_lt_mul hh).2 hr
      unfold crossCells
      exact List.pair_mem_product.2 ⟨List.mem_range.2 hb, List.mem_range.2 hcol⟩
    · exact length_crossLine rb _ height _ _ r hh hr hpanel hlen hzb
    · exact crossLine_cell env rb _ height _ _ r col hh hr hcol hpanel hlen hzb hI

/-- Witness of C16: a 1 x 1 RGB cube map; the last third of row 1 is the face
`+X` and the first third of row 0 is blank. -/
theorem C16_cross_cell_count_witness :
    ∃ (trace : List Event) (lines : Nat → List byte),
      SaveTextureAt false (faceColorEnv 12 205) "cube.tif" 7 GL_TEXTURE_CUBE_MAP false
        ((1 : Nat) : Int) ((1 : Nat) : Int) 1 SaveFormat.TIF = Outcome.returned trace ∧
      scanlines trace = (List.range (4 * 1)).map (fun r => (r, lines r)) ∧
      slice (lines 1) (2 * (1 * pixelBytes false false)) (1 * pixelBytes false false)
        = slice ((faceColorEnv 12 205).texImage GL_TEXTURE_CUBE_MAP_POSITIVE_X)
            (1 % 1 * (1 * pixelBytes false false)) (1 * pixelBytes false false) ∧
      slice (lines 0) (0 * (1 * pixelBytes false false)) (1 * pixelBytes false false)
        = (List.range (1 * pixelBytes false false)).map (faceColorEnv 12 205).freshZero := by
  obtain ⟨_, _, _, _, trace, lines, h1, h2, h3⟩ :=
    C16_cross_cell_count false false (faceColorEnv 12 205) "cube.tif" 7 1 1 1
      (by decide) (by decide) (by decide) (fun _ _ => rfl) rfl (fun _ _ => rfl)
  exact ⟨trace, lines, h1, h2, (h3 1 2 (by decide) (by decide)).2.2,
    (h3 0 0 (by decide) (by decide)).2.2⟩

end TextureSaver
